import Mathlib

/-!
# AioniumBlog: the avatar border wave effect and its neighbours

A shallow embedding of `src/js/avatar-effects-optimized.js` (namespace
`AvatarEffects`), and of the parts of `animations-optimized.js` (`Particles`),
`background-optimized.js` (`Background`), `utils.js` (`Utils`),
`ui-controls-optimized.js` (`UiControls`), `article-loader.js` (`ArticleLoader`)
and `page-transition-optimized.js` (`PageTransitions`) that the properties
below are about. All definitions come first, then the theorems.

Modelling conventions.

* A JavaScript number is an element of a linearly ordered field `α` with a floor
  function (`ℚ` for evaluation, `ℝ` for the analytic statements): arithmetic is
  exact. Where the rounding of doubles decides a statement, for the hue of
  `createSegment` and the bucket index of `updateSegmentWithAudio`, the
  namespace `Float64` evaluates the same expression with every operation
  rounded to binary64.
* `Math.sin`, `Math.cos` and `Math.PI` are the fields of a record `JsMath α`
  that every function reading them takes as its first argument.
* A DOM element is the record of the style properties the effect writes; a
  template string such as `calc(50% + ${x}px)` is kept as the number it
  interpolates.
* `this` is passed explicitly; a method that mutates `this` or a segment
  returns the updated record.
-/

namespace AvatarEffects

/-- The part of the JavaScript `Math` object used by the effect. -/
structure JsMath (α : Type) where
  sin : α → α
  cos : α → α
  PI : α

/-- A CSS colour written by the template `hsl(${hue}, ${saturation}%, ${lightness}%)`. -/
structure Hsl (α : Type) where
  hue : α
  saturation : α
  lightness : α

/-- A two-layer box shadow `0 0 ${blur1}px ${color}${alpha1}, 0 0 ${blur2}px ${color}${alpha2}`. -/
structure BoxShadow (α : Type) where
  blur1 : α
  alpha1 : String
  blur2 : α
  alpha2 : String
  color : Hsl α

/-- The inline style of a `wave-segment` element: `left` and `top` hold the pixel
offset added to `50%`, `transform` the angle of `rotate(… rad)`. -/
structure Style (α : Type) where
  backgroundColor : Hsl α
  boxShadow : BoxShadow α
  left : α
  top : α
  transform : α

/-- The `div` created for a segment. -/
structure Element (α : Type) where
  className : String
  style : Style α

/-- The record returned by `createSegment`. -/
structure Segment (α : Type) where
  element : Element α
  angle : α
  baseRadius : α
  currentRadius : α
  targetRadius : α
  velocity : α
  x : α
  y : α
  hue : α
  saturation : α
  lightness : α
  originalIndex : Nat

/-- The `AudioContext` created by `initAudio`, as far as the effect observes it:
whether `close()` has been called on it. -/
structure AudioContext where
  closed : Bool

/-- The fields of an `AvatarBorderEffect` instance. `dataArray` is the
`Uint8Array` of frequency bytes and `audioContext` the audio context (`none`
for `null`); `analyser` records only whether the object is present. -/
structure AvatarBorderEffect (α : Type) where
  radius : α
  segmentCount : Nat
  segmentWidth : α
  segmentHeight : α
  waveSegments : List (Segment α)
  audioContext : Option AudioContext
  analyser : Bool
  dataArray : Option (List (Fin 256))
  isAudioActive : Bool
  rotationSpeed : α
  baseWaveAmplitude : α
  audioWaveAmplitude : α
  animationId : Option Nat
  isRunning : Bool

variable {α : Type} [LinearOrderedField α]

/-- The field initialisers of the constructor, before `this.init()` runs. -/
def AvatarBorderEffect.new : AvatarBorderEffect α :=
  { radius := 90
    segmentCount := 80
    segmentWidth := 4
    segmentHeight := 4
    waveSegments := []
    audioContext := none
    analyser := false
    dataArray := none
    isAudioActive := false
    rotationSpeed := 0.35
    baseWaveAmplitude := 12
    audioWaveAmplitude := 20
    animationId := none
    isRunning := false }

/-- Source `createSegment(index)`. -/
def createSegment (M : JsMath α) (this : AvatarBorderEffect α) (index : Nat) : Segment α :=
  let angle := ((index : α) / (this.segmentCount : α)) * M.PI * 2
  let x := M.cos angle * this.radius
  let y := M.sin angle * this.radius
  let hue := ((index : α) / (this.segmentCount : α)) * 360
  let saturation : α := 75
  let lightness : α := 60
  let color : Hsl α := ⟨hue, saturation, lightness⟩
  { element :=
      { className := "wave-segment"
        style :=
          { backgroundColor := color
            boxShadow := ⟨8, "aa", 15, "66", color⟩
            left := x
            top := y
            transform := angle } }
    angle := angle
    baseRadius := this.radius
    currentRadius := this.radius
    targetRadius := this.radius
    velocity := 0
    x := x
    y := y
    hue := hue
    saturation := saturation
    lightness := lightness
    originalIndex := index }

/-- Source `createWaveSegments()`: the loop `for (let i = 0; i < segmentCount; i++)`
pushing `createSegment(i)` onto `this.waveSegments`. -/
def createWaveSegments (M : JsMath α) (this : AvatarBorderEffect α) : AvatarBorderEffect α :=
  (List.range this.segmentCount).foldl
    (fun self i => { self with waveSegments := self.waveSegments ++ [createSegment M self i] })
    this

/-- The index `Math.floor((index / this.segmentCount) * this.dataArray.length)`,
the floor of the exact product. `Float64.dataIndex` is the same line with the
quotient and the product rounded to doubles. -/
def dataIndex (α : Type) [LinearOrderedField α] [FloorRing α]
    (segmentCount index length : Nat) : ℤ :=
  ⌊((index : α) / (segmentCount : α)) * (length : α)⌋

/-- The byte `this.dataArray[dataIndex] || 0`: an index outside the array reads
`undefined`, which `||` replaces by `0`. With `segmentCount = 0` the JavaScript
index is `NaN` or `Infinity`, which is outside every array. -/
def audioValue (α : Type) [LinearOrderedField α] [FloorRing α]
    (segmentCount index : Nat) (dataArray : List (Fin 256)) : Nat :=
  if segmentCount = 0 then 0
  else
    let k := dataIndex α segmentCount index dataArray.length
    if 0 ≤ k then
      match dataArray.get? k.toNat with
      | some b => b.val
      | none => 0
    else 0

/-- Source `updateSegmentWithAudio(segment, index, time, rotationOffset)`. Reading
`this.dataArray.length` of a `null` array throws. -/
def updateSegmentWithAudio [FloorRing α] (M : JsMath α) (this : AvatarBorderEffect α) (segment : Segment α)
    (index : Nat) (time rotationOffset : α) : Except String (Segment α) :=
  match this.dataArray with
  | none => .error "TypeError: Cannot read properties of null (reading 'length')"
  | some dataArray =>
    let rotatedAngle := segment.angle + rotationOffset
    let audioValue : α := (audioValue α this.segmentCount index dataArray : α)
    let radiusChange := (audioValue / 255) * this.audioWaveAmplitude
    let baseWave1 := M.sin (time * 2.2 + (index : α) * 0.15) * 8
    let baseWave2 := M.cos (time * 1.6 + (index : α) * 0.12) * 6
    let baseWave3 := M.sin (time * 3.0 + (index : α) * 0.08) * 4
    let targetRadius := segment.baseRadius + radiusChange + baseWave1 + baseWave2 + baseWave3
    let spring : α := 0.18
    let damping : α := 0.72
    let velocity := (segment.velocity + (targetRadius - segment.currentRadius) * spring) * damping
    let currentRadius := segment.currentRadius + velocity
    let currentRadius := max (segment.baseRadius - 10) (min (segment.baseRadius + 35) currentRadius)
    let x := M.cos rotatedAngle * currentRadius
    let y := M.sin rotatedAngle * currentRadius
    let intensity := audioValue / 255
    let lightness := min 95 (segment.lightness + intensity * 30)
    let saturation := min 100 (segment.saturation + intensity * 20)
    let color : Hsl α := ⟨segment.hue, saturation, lightness⟩
    .ok
      { segment with
        targetRadius := targetRadius
        velocity := velocity
        currentRadius := currentRadius
        element :=
          { segment.element with
            style :=
              { segment.element.style with
                left := x
                top := y
                backgroundColor := color
                boxShadow := ⟨10 + intensity * 15, "dd", 20 + intensity * 25, "77", color⟩ } } }

/-- Source `updateSegmentDefault(segment, index, time, rotatedAngle)`. -/
def updateSegmentDefault (M : JsMath α) (segment : Segment α)
    (index : Nat) (time rotatedAngle : α) : Segment α :=
  let wave1 := M.sin (time * 1.8 + (index : α) * 0.15) * 11
  let wave2 := M.cos (time * 2.3 + (index : α) * 0.12) * 8
  let wave3 := M.sin (time * 1.4 + (index : α) * 0.18) * 6
  let wave4 := M.cos (time * 2.8 + (index : α) * 0.10) * 4
  let targetRadius := segment.baseRadius + wave1 + wave2 + wave3 + wave4
  let spring : α := 0.14
  let damping : α := 0.78
  let velocity := (segment.velocity + (targetRadius - segment.currentRadius) * spring) * damping
  let currentRadius := segment.currentRadius + velocity
  let currentRadius := max (segment.baseRadius - 8) (min (segment.baseRadius + 25) currentRadius)
  let x := M.cos rotatedAngle * currentRadius
  let y := M.sin rotatedAngle * currentRadius
  let color : Hsl α := ⟨segment.hue, segment.saturation, segment.lightness⟩
  { segment with
    targetRadius := targetRadius
    velocity := velocity
    currentRadius := currentRadius
    element :=
      { segment.element with
        style :=
          { segment.element.style with
            left := x
            top := y
            backgroundColor := color
            boxShadow := ⟨8, "aa", 15, "66", color⟩ } } }

/-- One driven frame seen from a single segment, as in the audio branch of
`animate`: `getByteFrequencyData` has refilled `this.dataArray` with `data`, and
the segment is updated with `rotationOffset = time * this.rotationSpeed`. -/
def drivenTick [FloorRing α] (M : JsMath α) (this : AvatarBorderEffect α) (index : Nat)
    (segment : Segment α) (tick : α × List (Fin 256)) : Except String (Segment α) :=
  updateSegmentWithAudio M { this with dataArray := some tick.2 } segment index tick.1
    (tick.1 * this.rotationSpeed)

/-- A finite sequence of driven frames applied to one segment, stopping at the
first frame that throws. -/
def drivenTicks [FloorRing α] (M : JsMath α) (this : AvatarBorderEffect α) (index : Nat) :
    Segment α → List (α × List (Fin 256)) → Except String (Segment α)
  | segment, [] => .ok segment
  | segment, tick :: rest =>
    match drivenTick M this index segment tick with
    | .ok segment' => drivenTicks M this index segment' rest
    | .error e => .error e

/-- The idle update applied `n` times with the same `index`, `time` and `rotatedAngle`. -/
def idleTicks (M : JsMath α) (index : Nat) (time rotatedAngle : α) (n : Nat)
    (segment : Segment α) : Segment α :=
  (fun s => updateSegmentDefault M s index time rotatedAngle)^[n] segment

/-- The three spring statements shared by both updates, without the clamp:
`velocity += (targetRadius - currentRadius) * spring; velocity *= damping;
currentRadius += velocity`, on the pair `(currentRadius, velocity)`. -/
def springStep (spring damping targetRadius : α) (s : α × α) : α × α :=
  let velocity := (s.2 + (targetRadius - s.1) * spring) * damping
  (s.1 + velocity, velocity)

/-- What the browser answers to the acquisition steps of `initAudio`.
`getDisplayMedia` is `none` when the promise rejects (or `navigator.mediaDevices`
is missing) and `some n` for a stream with `n` audio tracks; each flag says
whether the call returns (`true`) or throws (`false`). -/
structure AudioEnv where
  getDisplayMedia : Option Nat
  audioContextCtor : Bool
  createAnalyser : Bool
  createMediaStreamSource : Bool
  connect : Bool

/-- The `try` block of `initAudio`: `.error (message, state)` carries the fields as
they are when the exception is thrown. With `fftSize = 128` the analyser's
`frequencyBinCount` is `128 / 2`, and a new `Uint8Array` is zero-filled. -/
def initAudioTry (this : AvatarBorderEffect α) (env : AudioEnv) :
    Except (String × AvatarBorderEffect α) (AvatarBorderEffect α) :=
  match env.getDisplayMedia with
  | none => .error ("getDisplayMedia rejected", this)
  | some audioTracks =>
    if audioTracks = 0 then .error ("No desktop audio track available", this)
    else if !env.audioContextCtor then .error ("AudioContext is not a constructor", this)
    else
      let this1 := { this with audioContext := some { closed := false } }
      if !env.createAnalyser then .error ("createAnalyser failed", this1)
      else
        let this2 := { this1 with analyser := true }
        if !env.createMediaStreamSource then .error ("createMediaStreamSource failed", this2)
        else if !env.connect then .error ("connect failed", this2)
        else
          .ok { this2 with
                dataArray := some (List.replicate (128 / 2) 0)
                isAudioActive := true }

/-- Source `initAudio()`, once `getDisplayMedia` has settled: the `try` block, and
the `catch` block that only sets `isAudioActive = false`. -/
def initAudio (this : AvatarBorderEffect α) (env : AudioEnv) : AvatarBorderEffect α :=
  match initAudioTry this env with
  | .ok this' => this'
  | .error (_, this') => { this' with isAudioActive := false }

/-- The copy `analyser.getByteFrequencyData(dataArray)`: the first
`dataArray.length` bytes of the analyser's data `freq` overwrite the array, and
entries beyond `freq` keep their value. -/
def getByteFrequencyData (dataArray freq : List (Fin 256)) : List (Fin 256) :=
  freq.take dataArray.length ++ dataArray.drop freq.length

/-- The loop `waveSegments.forEach((segment, index) => updateSegmentWithAudio(…))`
from position `index` on, stopping at the first update that throws. -/
def forEachWithAudio [FloorRing α] (M : JsMath α) (this : AvatarBorderEffect α)
    (time rotationOffset : α) : Nat → List (Segment α) → Except String (List (Segment α))
  | _, [] => .ok []
  | index, segment :: rest =>
    match updateSegmentWithAudio M this segment index time rotationOffset with
    | .ok segment' =>
      match forEachWithAudio M this time rotationOffset (index + 1) rest with
      | .ok rest' => .ok (segment' :: rest')
      | .error e => .error e
    | .error e => .error e

/-- The loop `waveSegments.forEach((segment, index) => { rotatedAngle = segment.angle +
rotationOffset; updateSegmentDefault(…) })` from position `index` on. -/
def forEachDefault (M : JsMath α) (time rotationOffset : α) :
    Nat → List (Segment α) → List (Segment α)
  | _, [] => []
  | index, segment :: rest =>
    updateSegmentDefault M segment index time (segment.angle + rotationOffset)
      :: forEachDefault M time rotationOffset (index + 1) rest

/-- Source `animate()`. `now` is `Date.now()`, `freq` the analyser's current
frequency data and `frameId` the handle returned by `requestAnimationFrame`. -/
def animate [FloorRing α] (M : JsMath α) (this : AvatarBorderEffect α) (now : α)
    (freq : List (Fin 256)) (frameId : Nat) : Except String (AvatarBorderEffect α) :=
  if !this.isRunning then .ok this
  else
    let time := now * 0.001
    let rotationOffset := time * this.rotationSpeed
    match this.isAudioActive && this.analyser, this.dataArray with
    | true, some dataArray =>
      let this1 := { this with dataArray := some (getByteFrequencyData dataArray freq) }
      match forEachWithAudio M this1 time rotationOffset 0 this1.waveSegments with
      | .ok segments => .ok { this1 with waveSegments := segments, animationId := some frameId }
      | .error e => .error e
    | _, _ =>
      .ok { this with
            waveSegments := forEachDefault M time rotationOffset 0 this.waveSegments
            animationId := some frameId }

/-- Source `start()`. -/
def start [FloorRing α] (M : JsMath α) (this : AvatarBorderEffect α) (now : α)
    (freq : List (Fin 256)) (frameId : Nat) : Except String (AvatarBorderEffect α) :=
  if this.isRunning then .ok this
  else animate M { this with isRunning := true } now freq frameId

/-- Source `stop()`. The test `if (this.animationId)` is false for `null` and for
the number `0`. -/
def stop (this : AvatarBorderEffect α) : AvatarBorderEffect α :=
  let this1 := { this with isRunning := false }
  match this1.animationId with
  | some id => if id ≠ 0 then { this1 with animationId := none } else this1
  | none => this1

/-- Source `destroy()`. Detaching each element from its parent changes the
document only, which is outside the record. -/
def destroy (this : AvatarBorderEffect α) : AvatarBorderEffect α :=
  let this1 := stop this
  let this2 :=
    match this1.audioContext with
    | some ctx => { this1 with audioContext := some { ctx with closed := true } }
    | none => this1
  { this2 with waveSegments := [] }

/-- Source `init()` up to its `await`: `addWaveStyles()` (document only),
`createWaveSegments()`, and the call of `initAudio()`, which suspends on
`getDisplayMedia`. This is the state in which the constructor returns. -/
def initSync (M : JsMath α) (this : AvatarBorderEffect α) : AvatarBorderEffect α :=
  createWaveSegments M this

/-- Source `init()` after its `await`: `getDisplayMedia` has settled as `env`
says, `initAudio()` finishes, and `this.start()` runs. -/
def initResume [FloorRing α] (M : JsMath α) (this : AvatarBorderEffect α) (env : AudioEnv)
    (now : α) (freq : List (Fin 256)) (frameId : Nat) : Except String (AvatarBorderEffect α) :=
  start M (initAudio this env) now freq frameId

/-- A sequence of animation frames, each given by `Date.now()`, the analyser's
data and the handle of the next request. -/
def animateTicks [FloorRing α] (M : JsMath α) :
    AvatarBorderEffect α → List (α × List (Fin 256) × Nat) → Except String (AvatarBorderEffect α)
  | this, [] => .ok this
  | this, tick :: rest =>
    match animate M this tick.1 tick.2.1 tick.2.2 with
    | .ok this' => animateTicks M this' rest
    | .error e => .error e

/-- One frame seen from a single segment: a driven frame with its time and byte
array, or an idle frame with its time. -/
inductive Tick (α : Type) where
  | driven (time : α) (data : List (Fin 256))
  | idle (time : α)

/-- One frame applied to one segment, as `animate` applies it. -/
def segmentTick [FloorRing α] (M : JsMath α) (this : AvatarBorderEffect α) (index : Nat)
    (segment : Segment α) : Tick α → Except String (Segment α)
  | .driven time data => drivenTick M this index segment (time, data)
  | .idle time =>
    .ok (updateSegmentDefault M segment index time (segment.angle + time * this.rotationSpeed))

/-- A finite sequence of frames of either kind applied to one segment. -/
def segmentTicks [FloorRing α] (M : JsMath α) (this : AvatarBorderEffect α) (index : Nat) :
    Segment α → List (Tick α) → Except String (Segment α)
  | segment, [] => .ok segment
  | segment, tick :: rest =>
    match segmentTick M this index segment tick with
    | .ok segment' => segmentTicks M this index segment' rest
    | .error e => .error e

/-- The spec's `advance(t, energy = absent, rotationSpeed)`: every segment `i` gets
the idle update with `rotatedAngle = angle[i] + t * rotationSpeed`. -/
def specAdvanceIdle (M : JsMath α) (segments : List (Segment α)) (t rotationSpeed : α) :
    List (Segment α) :=
  List.zipWith
    (fun i segment => updateSegmentDefault M segment i t (segment.angle + t * rotationSpeed))
    (List.range segments.length) segments

/-- The spec's field driven with `energy = absent` at every call, at the times
`now * 0.001` of the given frames. -/
def specIdleRun (M : JsMath α) (rotationSpeed : α) : List (Segment α) → List α → List (Segment α)
  | segments, [] => segments
  | segments, now :: rest =>
    specIdleRun M rotationSpeed (specAdvanceIdle M segments (now * 0.001) rotationSpeed) rest

end AvatarEffects

/-! # Particle system (`src/js/animations-optimized.js`)

The timers set by `init` and the expiry of a particle are events of the
environment; `Math.random()` is the rational draw passed to the function that
calls it. -/

namespace Particles

/-- A `Particle` as `ParticleSystem` reads it: whether `element.parentElement` is
set. Position, velocity and lifetime do not reach the system. -/
structure Particle where
  attached : Bool

/-- The particle built by `new Particle(container)`: its element is appended to
the container and its first `update()` returns `opacity = 1 > 0`. -/
def Particle.new : Particle :=
  { attached := true }

/-- Source `Particle.destroy()`: the element is removed from the container. -/
def Particle.destroy (_p : Particle) : Particle :=
  { attached := false }

/-- The fields of a `ParticleSystem`, and the number of timers set by `init()`
that have not fired yet. -/
structure ParticleSystem where
  count : Nat
  particles : List Particle
  isRunning : Bool
  animationId : Option Nat
  pendingTimeouts : Nat

/-- Source `animate()`; `random` is the value of `Math.random()` and `frameId` the
handle returned by `requestAnimationFrame`. -/
def animate (this : ParticleSystem) (random : ℚ) (frameId : Nat) : ParticleSystem :=
  if !this.isRunning then this
  else
    let particles := this.particles.filter (fun p => p.attached)
    let particles :=
      if particles.length < this.count ∧ random < 0.3 then particles ++ [Particle.new]
      else particles
    { this with particles := particles, animationId := some frameId }

/-- Source `start()`. -/
def start (this : ParticleSystem) (random : ℚ) (frameId : Nat) : ParticleSystem :=
  if this.isRunning then this
  else animate { this with isRunning := true } random frameId

/-- Source `init()`: `count` timers are set, then `start()` runs. -/
def init (this : ParticleSystem) (random : ℚ) (frameId : Nat) : ParticleSystem :=
  start { this with pendingTimeouts := this.pendingTimeouts + this.count } random frameId

/-- The constructor `new ParticleSystem(container, count)`. -/
def ParticleSystem.new (count : Nat) (random : ℚ) (frameId : Nat) : ParticleSystem :=
  init { count := count, particles := [], isRunning := false, animationId := none,
         pendingTimeouts := 0 } random frameId

/-- One of the timers set by `init()` fires: `if (this.isRunning)
this.particles.push(new Particle(this.container))`. -/
def timeoutFires (this : ParticleSystem) : ParticleSystem :=
  if this.pendingTimeouts = 0 then this
  else
    let this1 := { this with pendingTimeouts := this.pendingTimeouts - 1 }
    if this1.isRunning then { this1 with particles := this1.particles ++ [Particle.new] }
    else this1

/-- The particle at position `i` reaches the end of its life and removes its
element; it stays in `particles` until the next `animate()` filters it out. -/
def expire (this : ParticleSystem) (i : Nat) : ParticleSystem :=
  match this.particles.get? i with
  | some p => { this with particles := this.particles.set i p.destroy }
  | none => this

/-- Source `stop()`. -/
def stop (this : ParticleSystem) : ParticleSystem :=
  let this1 := { this with isRunning := false }
  match this1.animationId with
  | some id => if id ≠ 0 then { this1 with animationId := none } else this1
  | none => this1

/-- Source `destroy()`. -/
def destroy (this : ParticleSystem) : ParticleSystem :=
  { (stop this) with particles := [] }

/-- What can happen to a constructed system. -/
inductive Event where
  | timeout
  | frame (random : ℚ) (frameId : Nat)
  | expire (i : Nat)

/-- The effect of one event. -/
def step (this : ParticleSystem) : Event → ParticleSystem
  | .timeout => timeoutFires this
  | .frame random frameId => animate this random frameId
  | .expire i => expire this i

/-- The effect of a sequence of events. -/
def run (this : ParticleSystem) (events : List Event) : ParticleSystem :=
  events.foldl step this

end Particles

/-! # Background animation systems (`src/js/background-optimized.js`) -/

namespace Background

/-- An `AnimationElement` (`Circle`, `Symbol` or `AboutCircle`) as its system reads
it: whether the element is in the document, and whether its cleanup timer is
still set. -/
structure AnimationElement where
  attached : Bool
  cleanupTimeout : Bool

/-- The element built by `new this.ElementClass(container)`: `init()` appends it and
sets the cleanup timer. -/
def AnimationElement.new : AnimationElement :=
  { attached := true, cleanupTimeout := true }

/-- Source `AnimationElement.destroy()`. -/
def AnimationElement.destroy (_e : AnimationElement) : AnimationElement :=
  { attached := false, cleanupTimeout := false }

/-- The three concrete systems; the class decides the overrides of `start`, `stop`
and `animate`. -/
inductive SystemKind where
  | circle
  | symbol
  | aboutCircle
  deriving DecidableEq

/-- The fields of an `AnimationSystem`, the number of timers set by `init()` that
have not fired yet, and whether the container carries the class `show`. -/
structure AnimationSystem where
  kind : SystemKind
  maxElements : Nat
  createInterval : Nat
  elements : List AnimationElement
  isRunning : Bool
  animationId : Option Nat
  pendingInit : Nat
  containerShow : Bool

/-- The constructors `new CircleSystem(container, max)`, `new SymbolSystem(…)` and
`new AboutCircleSystem(…)`, with their `createInterval`. -/
def AnimationSystem.new (kind : SystemKind) (maxElements : Nat) : AnimationSystem :=
  { kind := kind
    maxElements := maxElements
    createInterval :=
      match kind with
      | .circle => 2500
      | .symbol => 1200
      | .aboutCircle => 3000
    elements := []
    isRunning := false
    animationId := none
    pendingInit := 0
    containerShow := false }

/-- Source `createElement()`. -/
def createElement (this : AnimationSystem) : AnimationSystem :=
  if this.elements.length ≥ this.maxElements ∨ !this.isRunning then this
  else { this with elements := this.elements ++ [AnimationElement.new] }

/-- Source `cleanup()`. -/
def cleanup (this : AnimationSystem) : AnimationSystem :=
  { this with elements := [] }

/-- Source `init()`: `maxElements` timers are set. -/
def init (this : AnimationSystem) : AnimationSystem :=
  { this with pendingInit := this.pendingInit + this.maxElements }

/-- The bound compared with `Math.random()` in the `animate()` of each class. -/
def spawnChance : SystemKind → ℚ
  | .circle => 0.01
  | .symbol => 0.015
  | .aboutCircle => 0.006

/-- Source `animate()` of the three classes; `random` is the value of
`Math.random()` and `timerId` the handle returned by `setTimeout`. -/
def animate (this : AnimationSystem) (random : ℚ) (timerId : Nat) : AnimationSystem :=
  if !this.isRunning then this
  else
    let this1 := { this with elements := this.elements.filter (fun e => e.attached) }
    let this2 :=
      if this1.elements.length < this1.maxElements ∧ random < spawnChance this1.kind then
        createElement this1
      else this1
    { this2 with animationId := some timerId }

/-- Source `start()`; `AboutCircleSystem` also adds the class `show`. -/
def start (this : AnimationSystem) (random : ℚ) (timerId : Nat) : AnimationSystem :=
  if this.isRunning then this
  else
    let this1 :=
      { this with
        isRunning := true
        containerShow := if this.kind = SystemKind.aboutCircle then true else this.containerShow }
    animate (init this1) random timerId

/-- Source `stop()`; `AboutCircleSystem` also removes the class `show`. -/
def stop (this : AnimationSystem) : AnimationSystem :=
  let this1 :=
    { this with
      isRunning := false
      containerShow := if this.kind = SystemKind.aboutCircle then false else this.containerShow }
  let this2 :=
    match this1.animationId with
    | some id => if id ≠ 0 then { this1 with animationId := none } else this1
    | none => this1
  cleanup this2

/-- One of the timers set by `init()` fires: `if (this.isRunning) this.createElement()`. -/
def initTimeoutFires (this : AnimationSystem) : AnimationSystem :=
  if this.pendingInit = 0 then this
  else
    let this1 := { this with pendingInit := this.pendingInit - 1 }
    if this1.isRunning then createElement this1 else this1

/-- The cleanup timer of the element at position `i` fires and the element
destroys itself. -/
def expire (this : AnimationSystem) (i : Nat) : AnimationSystem :=
  match this.elements.get? i with
  | some e => { this with elements := this.elements.set i e.destroy }
  | none => this

/-- What can happen to a constructed system. -/
inductive Event where
  | start (random : ℚ) (timerId : Nat)
  | stop
  | initTimeout
  | animate (random : ℚ) (timerId : Nat)
  | expire (i : Nat)

/-- The effect of one event. -/
def step (this : AnimationSystem) : Event → AnimationSystem
  | .start random timerId => start this random timerId
  | .stop => stop this
  | .initTimeout => initTimeoutFires this
  | .animate random timerId => animate this random timerId
  | .expire i => expire this i

/-- The effect of a sequence of events. -/
def run (this : AnimationSystem) (events : List Event) : AnimationSystem :=
  events.foldl step this

end Background

/-! # Local storage helpers (`src/js/utils.js`)

`localStorage` is a list of key/value strings that may refuse to store;
`JSON.parse` and `JSON.stringify` are the fields of a record `JsonApi` that the
functions calling them take as an argument. -/

namespace Utils

/-- A JavaScript value that can come out of `JSON.parse` on a stored item. -/
inductive JsValue where
  | null
  | bool (b : Bool)
  | number (n : Int)
  | string (s : String)
  deriving DecidableEq

/-- JavaScript truthiness, as used by `!isEnglish` and `isEnglish ? … : …`. -/
def JsValue.truthy : JsValue → Bool
  | .null => false
  | .bool b => b
  | .number n => n != 0
  | .string s => s != ""

/-- The two functions of the global `JSON` object used by `Storage`; `parse` throws
on text that is not JSON. -/
structure JsonApi where
  parse : String → Except String JsValue
  stringify : JsValue → String

/-- The browser's `localStorage`: its items, and whether `setItem` throws (quota
exceeded or storage disabled). -/
structure LocalStorage where
  items : List (String × String)
  refusesWrites : Bool

/-- The call `localStorage.getItem(key)`: `none` is `null`. -/
def LocalStorage.getItem (ls : LocalStorage) (key : String) : Option String :=
  ls.items.lookup key

/-- The call `localStorage.setItem(key, value)`. -/
def LocalStorage.setItem (ls : LocalStorage) (key value : String) :
    Except String LocalStorage :=
  if ls.refusesWrites then .error "QuotaExceededError"
  else .ok { ls with items := (key, value) :: ls.items.filter (fun kv => kv.1 != key) }

/-- The call `localStorage.removeItem(key)`. -/
def LocalStorage.removeItem (ls : LocalStorage) (key : String) : LocalStorage :=
  { ls with items := ls.items.filter (fun kv => kv.1 != key) }

/-- Source `Storage.remove(key)`. -/
def Storage.remove (ls : LocalStorage) (key : String) : LocalStorage :=
  ls.removeItem key

/-- Source `Storage.get(key, defaultValue)`. -/
def Storage.get (J : JsonApi) (ls : LocalStorage) (key : String) (defaultValue : JsValue) :
    JsValue :=
  match ls.getItem key with
  | some item =>
    match J.parse item with
    | .ok value => value
    | .error _ => defaultValue
  | none => defaultValue

/-- Source `Storage.set(key, value)`: the returned flag and the storage afterwards. -/
def Storage.set (J : JsonApi) (ls : LocalStorage) (key : String) (value : JsValue) :
    Bool × LocalStorage :=
  match ls.setItem key (J.stringify value) with
  | .ok ls' => (true, ls')
  | .error _ => (false, ls)

end Utils

/-! # Language switch (`src/js/ui-controls-optimized.js`) -/

namespace UiControls

open Utils

/-- The constant `STORAGE_KEY` of `LanguageManager`. -/
def STORAGE_KEY : String := "isEnglish"

/-- Source `LanguageManager.init()`: the new value of the variable `isEnglish`
(`updateDisplay()` and the click listener touch the document only). -/
def LanguageManager.init (J : JsonApi) (ls : LocalStorage) : JsValue :=
  Storage.get J ls STORAGE_KEY (.bool true)

/-- Source `LanguageManager.toggle()`: the new value of `isEnglish` and the storage
after `Storage.set(STORAGE_KEY, isEnglish)`. -/
def LanguageManager.toggle (J : JsonApi) (isEnglish : JsValue) (ls : LocalStorage) :
    JsValue × LocalStorage :=
  let isEnglish := JsValue.bool (!isEnglish.truthy)
  (isEnglish, (Storage.set J ls STORAGE_KEY isEnglish).2)

/-- Source `LanguageManager.getCurrent()`. -/
def LanguageManager.getCurrent (isEnglish : JsValue) : String :=
  if isEnglish.truthy then "en" else "zh"

end UiControls

/-! # Article loader (`src/js/article-loader.js`)

The page written to `innerHTML` is kept as the data its template interpolates. -/

namespace ArticleLoader

open Utils

/-- A text in both languages. -/
structure Bilingual where
  en : String
  zh : String

/-- An entry of the article database. -/
structure Article where
  title : Bilingual
  date : String
  category : Bilingual
  status : String
  content : Bilingual

/-- The own properties of the object literal `articles`. -/
def articles : List (String × Article) :=
  [("empowering-innovation",
    { title := { en := "Empowering Innovation", zh := "赋能创新" }
      date := "2026-01-02"
      category := { en := "Innovation", zh := "创新" }
      status := "wip"
      content :=
        { en :=
            "\n" ++
            "                <div class=\"wip-notice\">\n" ++
            "                    <div class=\"wip-icon\">🚧</div>\n" ++
            "                    <h2>\n" ++
            "                        <span class=\"wip-title-en active\">Work in Progress</span>\n" ++
            "                        <span class=\"wip-title-zh\">正在制作</span>\n" ++
            "                    </h2>\n" ++
            "                    <p>\n" ++
            "                        <span class=\"wip-text-en active\">This article is currently being written. Please check back later for the full content.</span>\n" ++
            "                        <span class=\"wip-text-zh\">本文章正在撰写中，请稍后查看完整内容。</span>\n" ++
            "                    </p>\n" ++
            "                </div>\n" ++
            "            "
          zh :=
            "\n" ++
            "                <div class=\"wip-notice\">\n" ++
            "                    <div class=\"wip-icon\">🚧</div>\n" ++
            "                    <h2>\n" ++
            "                        <span class=\"wip-title-en\">Work in Progress</span>\n" ++
            "                        <span class=\"wip-title-zh active\">正在制作</span>\n" ++
            "                    </h2>\n" ++
            "                    <p>\n" ++
            "                        <span class=\"wip-text-en\">This article is currently being written. Please check back later for the full content.</span>\n" ++
            "                        <span class=\"wip-text-zh active\">本文章正在撰写中，请稍后查看完整内容。</span>\n" ++
            "                    </p>\n" ++
            "                </div>\n" ++
            "            " } })]

/-- The property names every object literal inherits from `Object.prototype`; each
is a function or, for `__proto__`, the prototype object itself. -/
def objectPrototypeKeys : List String :=
  ["constructor", "__defineGetter__", "__defineSetter__", "hasOwnProperty",
   "__lookupGetter__", "__lookupSetter__", "isPrototypeOf", "propertyIsEnumerable",
   "toString", "valueOf", "__proto__", "toLocaleString"]

/-- The value of the property access `articles[articleId]`. -/
inductive Property where
  | article (a : Article)
  | inherited (name : String)
  | undefined

/-- The property access `articles[articleId]`: an own entry, else a member of
`Object.prototype`, else `undefined`. -/
def articlesGet (articleId : String) : Property :=
  match articles.lookup articleId with
  | some a => .article a
  | none => if articleId ∈ objectPrototypeKeys then .inherited articleId else .undefined

/-- What `loadArticle` writes to `articleContainer.innerHTML`: the 'Article Not
Found' block, or an article page with its title, date, category, the WIP badge
(present when `status === 'wip'`, with the flag that picks its active language)
and body. -/
inductive Rendered where
  | notFound
  | article (title date category : String) (wipBadge : Option Bool) (body : String)

/-- The part of the document `loadArticle` writes: the content of
`#article-content` (`none` while untouched) and `document.title`. -/
structure Document where
  articleContent : Option Rendered
  title : String

/-- The test `localStorage.getItem('isEnglish') !== 'false'` of `loadArticle`. -/
def isEnglish (ls : LocalStorage) : Bool :=
  decide (ls.getItem "isEnglish" ≠ some "false")

/-- Source `loadArticle()`; `articleId` is `getUrlParameter('id')` (`none` for
`null`). Reading `.en` or `.zh` of the missing `title` of an inherited member
throws. -/
def loadArticle (articleId : Option String) (ls : LocalStorage) (doc : Document) :
    Except String Document :=
  match articleId with
  | none => .ok { doc with articleContent := some .notFound }
  | some id =>
    if id = "" then .ok { doc with articleContent := some .notFound }
    else
      match articlesGet id with
      | .undefined => .ok { doc with articleContent := some .notFound }
      | .inherited _ =>
        if isEnglish ls then
          .error "TypeError: Cannot read properties of undefined (reading 'en')"
        else .error "TypeError: Cannot read properties of undefined (reading 'zh')"
      | .article article =>
        let isEnglish := isEnglish ls
        let title := if isEnglish then article.title.en else article.title.zh
        .ok
          { articleContent :=
              some
                (.article title article.date
                  (if isEnglish then article.category.en else article.category.zh)
                  (if article.status = "wip" then some isEnglish else none)
                  (if isEnglish then article.content.en else article.content.zh))
            title := title ++ " - Aionium Blog" }

end ArticleLoader

/-! # Page transition (`src/js/page-transition-optimized.js`) -/

namespace PageTransitions

/-- The pieces of a list of characters between the occurrences of `sep`; there is
always at least one piece. -/
def splitChars (sep : Char) : List Char → List (List Char)
  | [] => [[]]
  | c :: cs =>
    if c = sep then [] :: splitChars sep cs
    else
      match splitChars sep cs with
      | piece :: pieces => (c :: piece) :: pieces
      | [] => [[c]]

/-- The method `String.prototype.split` with a one-character separator. -/
def split (s : String) (sep : Char) : List String :=
  (splitChars sep s.data).map String.mk

/-- The method `String.prototype.startsWith`. -/
def startsWith (s start : String) : Bool :=
  start.data.isPrefixOf s.data

/-- Source `isValidLink(href)`; `href` is `link.getAttribute('href')` (`none` for
`null`) and `pathname` is `window.location.pathname`. `pop()` returns the last
piece of the split. -/
def isValidLink (href : Option String) (pathname : String) : Bool :=
  match href with
  | none => false
  | some h =>
    if h = "" ∨ h = "#" then false
    else if startsWith h "http" then false
    else if some h = (split pathname '/').getLast? then false
    else true

/-- What `handleNavClick` does with a click: whether `e.preventDefault()` was
called, and the target of the `transition(href)` it started, if any. -/
structure ClickOutcome where
  defaultPrevented : Bool
  transition : Option String

/-- Source `handleNavClick(e, link)`. -/
def handleNavClick (href : Option String) (pathname : String) : ClickOutcome :=
  if !isValidLink href pathname then { defaultPrevented := true, transition := none }
  else { defaultPrevented := true, transition := href }

end PageTransitions

/-! # Double rounding of the hue and of the bucket index

`createSegment` and `updateSegmentWithAudio` are embedded above over an exact
field. JavaScript evaluates the same expressions in binary64, rounding after
every operation. This section evaluates two of them that way, on rationals:
the hue `(index / this.segmentCount) * 360` and the bucket index
`Math.floor((index / this.segmentCount) * this.dataArray.length)`. -/

namespace Float64

/-- Rounding of a rational to the nearest integer, a tie going to the even one. -/
def roundHalfEven (x : ℚ) : ℤ :=
  if x - (⌊x⌋ : ℚ) < 1 / 2 then ⌊x⌋
  else if 1 / 2 < x - (⌊x⌋ : ℚ) then ⌊x⌋ + 1
  else if ⌊x⌋ % 2 = 0 then ⌊x⌋
  else ⌊x⌋ + 1

/-- The binary64 value of a rational `q` in the normal range: with
`e = ⌊log₂ |q|⌋` the 53-bit significand `q / 2^(e - 52)` is rounded to the nearest
integer, ties to even. Subnormal results and overflow are outside the model. -/
def roundNearest (q : ℚ) : ℚ :=
  if q = 0 then 0
  else (roundHalfEven (q / (2 : ℚ) ^ (Int.log 2 |q| - 52)) : ℚ) * (2 : ℚ) ^ (Int.log 2 |q| - 52)

/-- The JavaScript quotient `a / b` of two doubles, for `b ≠ 0`. -/
def fdiv (a b : ℚ) : ℚ := roundNearest (a / b)

/-- The JavaScript product `a * b` of two doubles. -/
def fmul (a b : ℚ) : ℚ := roundNearest (a * b)

/-- The line `const hue = (index / this.segmentCount) * 360` of `createSegment`, as
JavaScript evaluates it, for `segmentCount ≥ 1`. -/
def hue (index segmentCount : Nat) : ℚ :=
  fmul (fdiv (index : ℚ) (segmentCount : ℚ)) 360

/-- The line `Math.floor((index / this.segmentCount) * this.dataArray.length)` of
`updateSegmentWithAudio`, as JavaScript evaluates it, for `segmentCount ≥ 1`. -/
def dataIndex (segmentCount index length : Nat) : ℤ :=
  ⌊fmul (fdiv (index : ℚ) (segmentCount : ℚ)) (length : ℚ)⌋

theorem log_eq_of_bounds (q : ℚ) (e : ℤ) (h1 : (2 : ℚ) ^ e ≤ q) (h2 : q < (2 : ℚ) ^ (e + 1)) :
    Int.log 2 q = e := by
  have hq : 0 < q := lt_of_lt_of_le (by positivity) h1
  have a : e ≤ Int.log 2 q := by
    rw [← Int.zpow_le_iff_le_log (by norm_num) hq]
    exact_mod_cast h1
  have b : Int.log 2 q < e + 1 := by
    rw [← Int.lt_zpow_iff_log_lt (by norm_num) hq]
    exact_mod_cast h2
  omega

theorem roundHalfEven_eq (x : ℚ) (m : ℤ) (h1 : (m : ℚ) - 1 / 2 < x) (h2 : x < (m : ℚ) + 1 / 2) :
    roundHalfEven x = m := by
  unfold roundHalfEven
  rcases le_or_lt (m : ℚ) x with h | h
  · have hf : ⌊x⌋ = m := by
      rw [Int.floor_eq_iff]
      exact ⟨h, by linarith⟩
    rw [hf, if_pos (by linarith)]
  · have hf : ⌊x⌋ = m - 1 := by
      rw [Int.floor_eq_iff]
      push_cast
      exact ⟨by linarith, by linarith⟩
    rw [hf, if_neg (by push_cast; linarith), if_pos (by push_cast; linarith)]
    omega

/-- A positive rational in the binade `[2^e, 2^(e+1))` whose scaled significand lies
within one half of the integer `m` rounds to `m · 2^(e - 52)`. -/
theorem roundNearest_eq (q : ℚ) (e m : ℤ) (h1 : (2 : ℚ) ^ e ≤ q) (h2 : q < (2 : ℚ) ^ (e + 1))
    (h3 : (m : ℚ) - 1 / 2 < q / (2 : ℚ) ^ (e - 52))
    (h4 : q / (2 : ℚ) ^ (e - 52) < (m : ℚ) + 1 / 2) :
    roundNearest q = (m : ℚ) * (2 : ℚ) ^ (e - 52) := by
  have hq : 0 < q := lt_of_lt_of_le (by positivity) h1
  unfold roundNearest
  rw [if_neg hq.ne', abs_of_pos hq, log_eq_of_bounds q e h1 h2, roundHalfEven_eq _ m h3 h4]

/-- The double hue of segment 7 of 80 is `8866461766385663 / 2^48`, printed by
JavaScript as `31.499999999999996`. -/
theorem hue_7_80 : hue 7 80 = 8866461766385663 / 2 ^ 48 := by
  unfold hue fdiv fmul
  have h1 := roundNearest_eq (((7 : ℕ) : ℚ) / ((80 : ℕ) : ℚ)) (-4) 6305039478318694
    (by norm_num) (by norm_num) (by norm_num) (by norm_num)
  rw [h1]
  have h2 := roundNearest_eq ((6305039478318694 : ℤ) * (2 : ℚ) ^ (-4 - 52 : ℤ) * 360) 4
    8866461766385663 (by norm_num) (by norm_num) (by norm_num) (by norm_num)
  rw [h2]
  norm_num

theorem dataIndex_zero (N L : Nat) : dataIndex N 0 L = ((0 * L / N : ℕ) : ℤ) := by
  simp [dataIndex, fdiv, fmul, roundNearest]

/-- The double bucket index from the two roundings: `(e, m)` are the binade and
significand of `index / segmentCount`, `(e', m')` those of its product with
`length`, and `k` the floor of that product. -/
theorem dataIndex_eval (N i L : Nat) (e m e' m' k : ℤ)
    (h1 : (2 : ℚ) ^ e ≤ (i : ℚ) / (N : ℚ)) (h2 : (i : ℚ) / (N : ℚ) < (2 : ℚ) ^ (e + 1))
    (h3 : (m : ℚ) - 1 / 2 < (i : ℚ) / (N : ℚ) / (2 : ℚ) ^ (e - 52))
    (h4 : (i : ℚ) / (N : ℚ) / (2 : ℚ) ^ (e - 52) < (m : ℚ) + 1 / 2)
    (g1 : (2 : ℚ) ^ e' ≤ (m : ℚ) * (2 : ℚ) ^ (e - 52) * (L : ℚ))
    (g2 : (m : ℚ) * (2 : ℚ) ^ (e - 52) * (L : ℚ) < (2 : ℚ) ^ (e' + 1))
    (g3 : (m' : ℚ) - 1 / 2 < (m : ℚ) * (2 : ℚ) ^ (e - 52) * (L : ℚ) / (2 : ℚ) ^ (e' - 52))
    (g4 : (m : ℚ) * (2 : ℚ) ^ (e - 52) * (L : ℚ) / (2 : ℚ) ^ (e' - 52) < (m' : ℚ) + 1 / 2)
    (f1 : (k : ℚ) ≤ (m' : ℚ) * (2 : ℚ) ^ (e' - 52))
    (f2 : (m' : ℚ) * (2 : ℚ) ^ (e' - 52) < (k : ℚ) + 1) :
    dataIndex N i L = k := by
  unfold dataIndex fmul fdiv
  rw [roundNearest_eq _ e m h1 h2 h3 h4, roundNearest_eq _ e' m' g1 g2 g3 g4, Int.floor_eq_iff]
  exact ⟨f1, f2⟩

/-- The double bucket of the effect's own configuration, 80 segments and a 64-byte
array, is the exact quotient `i·64/80` at every index. -/
theorem dataIndex_80_64 (i : Nat) (hi : i < 80) :
    dataIndex 80 i 64 = ((i * 64 / 80 : ℕ) : ℤ) := by
  interval_cases i
  · exact dataIndex_zero 80 64
  · exact dataIndex_eval 80 1 64 (-7) 7205759403792794 (-1) 7205759403792794 0 (by norm_num) (by norm_num)
      (by norm_num) (by norm_num) (by norm_num) (by norm_num) (by norm_num) (by norm_num)
      (by norm_num) (by norm_num)
  · exact dataIndex_eval 80 2 64 (-6) 7205759403792794 0 7205759403792794 1 (by norm_num) (by norm_num)
      (by norm_num) (by norm_num) (by norm_num) (by norm_num) (by norm_num) (by norm_num)
      (by norm_num) (by norm_num)
  · exact dataIndex_eval 80 3 64 (-5) 5404319552844595 1 5404319552844595 2 (by norm_num) (by norm_num)
      (by norm_num) (by norm_num) (by norm_num) (by norm_num) (by norm_num) (by norm_num)
      (by norm_num) (by norm_num)
  · exact dataIndex_eval 80 4 64 (-5) 7205759403792794 1 7205759403792794 3 (by norm_num) (by norm_num)
      (by norm_num) (by norm_num) (by norm_num) (by norm_num) (by norm_num) (by norm_num)
      (by norm_num) (by norm_num)
  · exact dataIndex_eval 80 5 64 (-4) 4503599627370496 2 4503599627370496 4 (by norm_num) (by norm_num)
      (by norm_num) (by norm_num) (by norm_num) (by norm_num) (by norm_num) (by norm_num)
      (by norm_num) (by norm_num)
  · exact dataIndex_eval 80 6 64 (-4) 5404319552844595 2 5404319552844595 4 (by norm_num) (by norm_num)
      (by norm_num) (by norm_num) (by norm_num) (by norm_num) (by norm_num) (by norm_num)
      (by norm_num) (by norm_num)
  · exact dataIndex_eval 80 7 64 (-4) 6305039478318694 2 6305039478318694 5 (by norm_num) (by norm_num)
      (by norm_num) (by norm_num) (by norm_num) (by norm_num) (by norm_num) (by norm_num)
      (by norm_num) (by norm_num)
  · exact dataIndex_eval 80 8 64 (-4) 7205759403792794 2 7205759403792794 6 (by norm_num) (by norm_num)
      (by norm_num) (by norm_num) (by norm_num) (by norm_num) (by norm_num) (by norm_num)
      (by norm_num) (by norm_num)
  · exact dataIndex_eval 80 9 64 (-4) 8106479329266893 2 8106479329266893 7 (by norm_num) (by norm_num)
      (by norm_num) (by norm_num) (by norm_num) (by norm_num) (by norm_num) (by norm_num)
      (by norm_num) (by norm_num)
  · exact dataIndex_eval 80 10 64 (-3) 4503599627370496 3 4503599627370496 8 (by norm_num) (by norm_num)
      (by norm_num) (by norm_num) (by norm_num) (by norm_num) (by norm_num) (by norm_num)
      (by norm_num) (by norm_num)
  · exact dataIndex_eval 80 11 64 (-3) 4953959590107546 3 4953959590107546 8 (by norm_num) (by norm_num)
      (by norm_num) (by norm_num) (by norm_num) (by norm_num) (by norm_num) (by norm_num)
      (by norm_num) (by norm_num)
  · exact dataIndex_eval 80 12 64 (-3) 5404319552844595 3 5404319552844595 9 (by norm_num) (by norm_num)
      (by norm_num) (by norm_num) (by norm_num) (by norm_num) (by norm_num) (by norm_num)
      (by norm_num) (by norm_num)
  · exact dataIndex_eval 80 13 64 (-3) 5854679515581645 3 5854679515581645 10 (by norm_num) (by norm_num)
      (by norm_num) (by norm_num) (by norm_num) (by norm_num) (by norm_num) (by norm_num)
      (by norm_num) (by norm_num)
  · exact dataIndex_eval 80 14 64 (-3) 6305039478318694 3 6305039478318694 11 (by norm_num) (by norm_num)
      (by norm_num) (by norm_num) (by norm_num) (by norm_num) (by norm_num) (by norm_num)
      (by norm_num) (by norm_num)
  · exact dataIndex_eval 80 15 64 (-3) 6755399441055744 3 6755399441055744 12 (by norm_num) (by norm_num)
      (by norm_num) (by norm_num) (by norm_num) (by norm_num) (by norm_num) (by norm_num)
      (by norm_num) (by norm_num)
  · exact dataIndex_eval 80 16 64 (-3) 7205759403792794 3 7205759403792794 12 (by norm_num) (by norm_num)
      (by norm_num) (by norm_num) (by norm_num) (by norm_num) (by norm_num) (by norm_num)
      (by norm_num) (by norm_num)
  · exact dataIndex_eval 80 17 64 (-3) 7656119366529843 3 7656119366529843 13 (by norm_num) (by norm_num)
      (by norm_num) (by norm_num) (by norm_num) (by norm_num) (by norm_num) (by norm_num)
      (by norm_num) (by norm_num)
  · exact dataIndex_eval 80 18 64 (-3) 8106479329266893 3 8106479329266893 14 (by norm_num) (by norm_num)
      (by norm_num) (by norm_num) (by norm_num) (by norm_num) (by norm_num) (by norm_num)
      (by norm_num) (by norm_num)
  · exact dataIndex_eval 80 19 64 (-3) 8556839292003942 3 8556839292003942 15 (by norm_num) (by norm_num)
      (by norm_num) (by norm_num) (by norm_num) (by norm_num) (by norm_num) (by norm_num)
      (by norm_num) (by norm_num)
  · exact dataIndex_eval 80 20 64 (-2) 4503599627370496 4 4503599627370496 16 (by norm_num) (by norm_num)
      (by norm_num) (by norm_num) (by norm_num) (by norm_num) (by norm_num) (by norm_num)
      (by norm_num) (by norm_num)
  · exact dataIndex_eval 80 21 64 (-2) 4728779608739021 4 4728779608739021 16 (by norm_num) (by norm_num)
      (by norm_num) (by norm_num) (by norm_num) (by norm_num) (by norm_num) (by norm_num)
      (by norm_num) (by norm_num)
  · exact dataIndex_eval 80 22 64 (-2) 4953959590107546 4 4953959590107546 17 (by norm_num) (by norm_num)
      (by norm_num) (by norm_num) (by norm_num) (by norm_num) (by norm_num) (by norm_num)
      (by norm_num) (by norm_num)
  · exact dataIndex_eval 80 23 64 (-2) 5179139571476070 4 5179139571476070 18 (by norm_num) (by norm_num)
      (by norm_num) (by norm_num) (by norm_num) (by norm_num) (by norm_num) (by norm_num)
      (by norm_num) (by norm_num)
  · exact dataIndex_eval 80 24 64 (-2) 5404319552844595 4 5404319552844595 19 (by norm_num) (by norm_num)
      (by norm_num) (by norm_num) (by norm_num) (by norm_num) (by norm_num) (by norm_num)
      (by norm_num) (by norm_num)
  · exact dataIndex_eval 80 25 64 (-2) 5629499534213120 4 5629499534213120 20 (by norm_num) (by norm_num)
      (by norm_num) (by norm_num) (by norm_num) (by norm_num) (by norm_num) (by norm_num)
      (by norm_num) (by norm_num)
  · exact dataIndex_eval 80 26 64 (-2) 5854679515581645 4 5854679515581645 20 (by norm_num) (by norm_num)
      (by norm_num) (by norm_num) (by norm_num) (by norm_num) (by norm_num) (by norm_num)
      (by norm_num) (by norm_num)
  · exact dataIndex_eval 80 27 64 (-2) 6079859496950170 4 6079859496950170 21 (by norm_num) (by norm_num)
      (by norm_num) (by norm_num) (by norm_num) (by norm_num) (by norm_num) (by norm_num)
      (by norm_num) (by norm_num)
  · exact dataIndex_eval 80 28 64 (-2) 6305039478318694 4 6305039478318694 22 (by norm_num) (by norm_num)
      (by norm_num) (by norm_num) (by norm_num) (by norm_num) (by norm_num) (by norm_num)
      (by norm_num) (by norm_num)
  · exact dataIndex_eval 80 29 64 (-2) 6530219459687219 4 6530219459687219 23 (by norm_num) (by norm_num)
      (by norm_num) (by norm_num) (by norm_num) (by norm_num) (by norm_num) (by norm_num)
      (by norm_num) (by norm_num)
  · exact dataIndex_eval 80 30 64 (-2) 6755399441055744 4 6755399441055744 24 (by norm_num) (by norm_num)
      (by norm_num) (by norm_num) (by norm_num) (by norm_num) (by norm_num) (by norm_num)
      (by norm_num) (by norm_num)
  · exact dataIndex_eval 80 31 64 (-2) 6980579422424269 4 6980579422424269 24 (by norm_num) (by norm_num)
      (by norm_num) (by norm_num) (by norm_num) (by norm_num) (by norm_num) (by norm_num)
      (by norm_num) (by norm_num)
  · exact dataIndex_eval 80 32 64 (-2) 7205759403792794 4 7205759403792794 25 (by norm_num) (by norm_num)
      (by norm_num) (by norm_num) (by norm_num) (by norm_num) (by norm_num) (by norm_num)
      (by norm_num) (by norm_num)
  · exact dataIndex_eval 80 33 64 (-2) 7430939385161318 4 7430939385161318 26 (by norm_num) (by norm_num)
      (by norm_num) (by norm_num) (by norm_num) (by norm_num) (by norm_num) (by norm_num)
      (by norm_num) (by norm_num)
  · exact dataIndex_eval 80 34 64 (-2) 7656119366529843 4 7656119366529843 27 (by norm_num) (by norm_num)
      (by norm_num) (by norm_num) (by norm_num) (by norm_num) (by norm_num) (by norm_num)
      (by norm_num) (by norm_num)
  · exact dataIndex_eval 80 35 64 (-2) 7881299347898368 4 7881299347898368 28 (by norm_num) (by norm_num)
      (by norm_num) (by norm_num) (by norm_num) (by norm_num) (by norm_num) (by norm_num)
      (by norm_num) (by norm_num)
  · exact dataIndex_eval 80 36 64 (-2) 8106479329266893 4 8106479329266893 28 (by norm_num) (by norm_num)
      (by norm_num) (by norm_num) (by norm_num) (by norm_num) (by norm_num) (by norm_num)
      (by norm_num) (by norm_num)
  · exact dataIndex_eval 80 37 64 (-2) 8331659310635418 4 8331659310635418 29 (by norm_num) (by norm_num)
      (by norm_num) (by norm_num) (by norm_num) (by norm_num) (by norm_num) (by norm_num)
      (by norm_num) (by norm_num)
  · exact dataIndex_eval 80 38 64 (-2) 8556839292003942 4 8556839292003942 30 (by norm_num) (by norm_num)
      (by norm_num) (by norm_num) (by norm_num) (by norm_num) (by norm_num) (by norm_num)
      (by norm_num) (by norm_num)
  · exact dataIndex_eval 80 39 64 (-2) 8782019273372467 4 8782019273372467 31 (by norm_num) (by norm_num)
      (by norm_num) (by norm_num) (by norm_num) (by norm_num) (by norm_num) (by norm_num)
      (by norm_num) (by norm_num)
  · exact dataIndex_eval 80 40 64 (-1) 4503599627370496 5 4503599627370496 32 (by norm_num) (by norm_num)
      (by norm_num) (by norm_num) (by norm_num) (by norm_num) (by norm_num) (by norm_num)
      (by norm_num) (by norm_num)
  · exact dataIndex_eval 80 41 64 (-1) 4616189618054758 5 4616189618054758 32 (by norm_num) (by norm_num)
      (by norm_num) (by norm_num) (by norm_num) (by norm_num) (by norm_num) (by norm_num)
      (by norm_num) (by norm_num)
  · exact dataIndex_eval 80 42 64 (-1) 4728779608739021 5 4728779608739021 33 (by norm_num) (by norm_num)
      (by norm_num) (by norm_num) (by norm_num) (by norm_num) (by norm_num) (by norm_num)
      (by norm_num) (by norm_num)
  · exact dataIndex_eval 80 43 64 (-1) 4841369599423283 5 4841369599423283 34 (by norm_num) (by norm_num)
      (by norm_num) (by norm_num) (by norm_num) (by norm_num) (by norm_num) (by norm_num)
      (by norm_num) (by norm_num)
  · exact dataIndex_eval 80 44 64 (-1) 4953959590107546 5 4953959590107546 35 (by norm_num) (by norm_num)
      (by norm_num) (by norm_num) (by norm_num) (by norm_num) (by norm_num) (by norm_num)
      (by norm_num) (by norm_num)
  · exact dataIndex_eval 80 45 64 (-1) 5066549580791808 5 5066549580791808 36 (by norm_num) (by norm_num)
      (by norm_num) (by norm_num) (by norm_num) (by norm_num) (by norm_num) (by norm_num)
      (by norm_num) (by norm_num)
  · exact dataIndex_eval 80 46 64 (-1) 5179139571476070 5 5179139571476070 36 (by norm_num) (by norm_num)
      (by norm_num) (by norm_num) (by norm_num) (by norm_num) (by norm_num) (by norm_num)
      (by norm_num) (by norm_num)
  · exact dataIndex_eval 80 47 64 (-1) 5291729562160333 5 5291729562160333 37 (by norm_num) (by norm_num)
      (by norm_num) (by norm_num) (by norm_num) (by norm_num) (by norm_num) (by norm_num)
      (by norm_num) (by norm_num)
  · exact dataIndex_eval 80 48 64 (-1) 5404319552844595 5 5404319552844595 38 (by norm_num) (by norm_num)
      (by norm_num) (by norm_num) (by norm_num) (by norm_num) (by norm_num) (by norm_num)
      (by norm_num) (by norm_num)
  · exact dataIndex_eval 80 49 64 (-1) 5516909543528858 5 5516909543528858 39 (by norm_num) (by norm_num)
      (by norm_num) (by norm_num) (by norm_num) (by norm_num) (by norm_num) (by norm_num)
      (by norm_num) (by norm_num)
  · exact dataIndex_eval 80 50 64 (-1) 5629499534213120 5 5629499534213120 40 (by norm_num) (by norm_num)
      (by norm_num) (by norm_num) (by norm_num) (by norm_num) (by norm_num) (by norm_num)
      (by norm_num) (by norm_num)
  · exact dataIndex_eval 80 51 64 (-1) 5742089524897382 5 5742089524897382 40 (by norm_num) (by norm_num)
      (by norm_num) (by norm_num) (by norm_num) (by norm_num) (by norm_num) (by norm_num)
      (by norm_num) (by norm_num)
  · exact dataIndex_eval 80 52 64 (-1) 5854679515581645 5 5854679515581645 41 (by norm_num) (by norm_num)
      (by norm_num) (by norm_num) (by norm_num) (by norm_num) (by norm_num) (by norm_num)
      (by norm_num) (by norm_num)
  · exact dataIndex_eval 80 53 64 (-1) 5967269506265907 5 5967269506265907 42 (by norm_num) (by norm_num)
      (by norm_num) (by norm_num) (by norm_num) (by norm_num) (by norm_num) (by norm_num)
      (by norm_num) (by norm_num)
  · exact dataIndex_eval 80 54 64 (-1) 6079859496950170 5 6079859496950170 43 (by norm_num) (by norm_num)
      (by norm_num) (by norm_num) (by norm_num) (by norm_num) (by norm_num) (by norm_num)
      (by norm_num) (by norm_num)
  · exact dataIndex_eval 80 55 64 (-1) 6192449487634432 5 6192449487634432 44 (by norm_num) (by norm_num)
      (by norm_num) (by norm_num) (by norm_num) (by norm_num) (by norm_num) (by norm_num)
      (by norm_num) (by norm_num)
  · exact dataIndex_eval 80 56 64 (-1) 6305039478318694 5 6305039478318694 44 (by norm_num) (by norm_num)
      (by norm_num) (by norm_num) (by norm_num) (by norm_num) (by norm_num) (by norm_num)
      (by norm_num) (by norm_num)
  · exact dataIndex_eval 80 57 64 (-1) 6417629469002957 5 6417629469002957 45 (by norm_num) (by norm_num)
      (by norm_num) (by norm_num) (by norm_num) (by norm_num) (by norm_num) (by norm_num)
      (by norm_num) (by norm_num)
  · exact dataIndex_eval 80 58 64 (-1) 6530219459687219 5 6530219459687219 46 (by norm_num) (by norm_num)
      (by norm_num) (by norm_num) (by norm_num) (by norm_num) (by norm_num) (by norm_num)
      (by norm_num) (by norm_num)
  · exact dataIndex_eval 80 59 64 (-1) 6642809450371482 5 6642809450371482 47 (by norm_num) (by norm_num)
      (by norm_num) (by norm_num) (by norm_num) (by norm_num) (by norm_num) (by norm_num)
      (by norm_num) (by norm_num)
  · exact dataIndex_eval 80 60 64 (-1) 6755399441055744 5 6755399441055744 48 (by norm_num) (by norm_num)
      (by norm_num) (by norm_num) (by norm_num) (by norm_num) (by norm_num) (by norm_num)
      (by norm_num) (by norm_num)
  · exact dataIndex_eval 80 61 64 (-1) 6867989431740006 5 6867989431740006 48 (by norm_num) (by norm_num)
      (by norm_num) (by norm_num) (by norm_num) (by norm_num) (by norm_num) (by norm_num)
      (by norm_num) (by norm_num)
  · exact dataIndex_eval 80 62 64 (-1) 6980579422424269 5 6980579422424269 49 (by norm_num) (by norm_num)
      (by norm_num) (by norm_num) (by norm_num) (by norm_num) (by norm_num) (by norm_num)
      (by norm_num) (by norm_num)
  · exact dataIndex_eval 80 63 64 (-1) 7093169413108531 5 7093169413108531 50 (by norm_num) (by norm_num)
      (by norm_num) (by norm_num) (by norm_num) (by norm_num) (by norm_num) (by norm_num)
      (by norm_num) (by norm_num)
  · exact dataIndex_eval 80 64 64 (-1) 7205759403792794 5 7205759403792794 51 (by norm_num) (by norm_num)
      (by norm_num) (by norm_num) (by norm_num) (by norm_num) (by norm_num) (by norm_num)
      (by norm_num) (by norm_num)
  · exact dataIndex_eval 80 65 64 (-1) 7318349394477056 5 7318349394477056 52 (by norm_num) (by norm_num)
      (by norm_num) (by norm_num) (by norm_num) (by norm_num) (by norm_num) (by norm_num)
      (by norm_num) (by norm_num)
  · exact dataIndex_eval 80 66 64 (-1) 7430939385161318 5 7430939385161318 52 (by norm_num) (by norm_num)
      (by norm_num) (by norm_num) (by norm_num) (by norm_num) (by norm_num) (by norm_num)
      (by norm_num) (by norm_num)
  · exact dataIndex_eval 80 67 64 (-1) 7543529375845581 5 7543529375845581 53 (by norm_num) (by norm_num)
      (by norm_num) (by norm_num) (by norm_num) (by norm_num) (by norm_num) (by norm_num)
      (by norm_num) (by norm_num)
  · exact dataIndex_eval 80 68 64 (-1) 7656119366529843 5 7656119366529843 54 (by norm_num) (by norm_num)
      (by norm_num) (by norm_num) (by norm_num) (by norm_num) (by norm_num) (by norm_num)
      (by norm_num) (by norm_num)
  · exact dataIndex_eval 80 69 64 (-1) 7768709357214106 5 7768709357214106 55 (by norm_num) (by norm_num)
      (by norm_num) (by norm_num) (by norm_num) (by norm_num) (by norm_num) (by norm_num)
      (by norm_num) (by norm_num)
  · exact dataIndex_eval 80 70 64 (-1) 7881299347898368 5 7881299347898368 56 (by norm_num) (by norm_num)
      (by norm_num) (by norm_num) (by norm_num) (by norm_num) (by norm_num) (by norm_num)
      (by norm_num) (by norm_num)
  · exact dataIndex_eval 80 71 64 (-1) 7993889338582630 5 7993889338582630 56 (by norm_num) (by norm_num)
      (by norm_num) (by norm_num) (by norm_num) (by norm_num) (by norm_num) (by norm_num)
      (by norm_num) (by norm_num)
  · exact dataIndex_eval 80 72 64 (-1) 8106479329266893 5 8106479329266893 57 (by norm_num) (by norm_num)
      (by norm_num) (by norm_num) (by norm_num) (by norm_num) (by norm_num) (by norm_num)
      (by norm_num) (by norm_num)
  · exact dataIndex_eval 80 73 64 (-1) 8219069319951155 5 8219069319951155 58 (by norm_num) (by norm_num)
      (by norm_num) (by norm_num) (by norm_num) (by norm_num) (by norm_num) (by norm_num)
      (by norm_num) (by norm_num)
  · exact dataIndex_eval 80 74 64 (-1) 8331659310635418 5 8331659310635418 59 (by norm_num) (by norm_num)
      (by norm_num) (by norm_num) (by norm_num) (by norm_num) (by norm_num) (by norm_num)
      (by norm_num) (by norm_num)
  · exact dataIndex_eval 80 75 64 (-1) 8444249301319680 5 8444249301319680 60 (by norm_num) (by norm_num)
      (by norm_num) (by norm_num) (by norm_num) (by norm_num) (by norm_num) (by norm_num)
      (by norm_num) (by norm_num)
  · exact dataIndex_eval 80 76 64 (-1) 8556839292003942 5 8556839292003942 60 (by norm_num) (by norm_num)
      (by norm_num) (by norm_num) (by norm_num) (by norm_num) (by norm_num) (by norm_num)
      (by norm_num) (by norm_num)
  · exact dataIndex_eval 80 77 64 (-1) 8669429282688205 5 8669429282688205 61 (by norm_num) (by norm_num)
      (by norm_num) (by norm_num) (by norm_num) (by norm_num) (by norm_num) (by norm_num)
      (by norm_num) (by norm_num)
  · exact dataIndex_eval 80 78 64 (-1) 8782019273372467 5 8782019273372467 62 (by norm_num) (by norm_num)
      (by norm_num) (by norm_num) (by norm_num) (by norm_num) (by norm_num) (by norm_num)
      (by norm_num) (by norm_num)
  · exact dataIndex_eval 80 79 64 (-1) 8894609264056730 5 8894609264056730 63 (by norm_num) (by norm_num)
      (by norm_num) (by norm_num) (by norm_num) (by norm_num) (by norm_num) (by norm_num)
      (by norm_num) (by norm_num)

/-- Outside that configuration the two floors can differ: with 80 segments and a
90-byte array the double product for index 56 is `62.99999999999999`, so the
double bucket is 62 where the exact quotient `56·90/80` is 63. -/
theorem dataIndex_80_56_90 : dataIndex 80 56 90 = 62 ∧ 56 * 90 / 80 = 63 :=
  ⟨dataIndex_eval 80 56 90 (-1) 6305039478318694 5 8866461766385663 62 (by norm_num)
    (by norm_num) (by norm_num) (by norm_num) (by norm_num) (by norm_num) (by norm_num)
    (by norm_num) (by norm_num) (by norm_num), by decide⟩

end Float64

namespace AvatarEffects

variable {α : Type} [LinearOrderedField α]

/-! ## Auxiliary lemmas -/

theorem createSegment_frame (M : JsMath α) (this : AvatarBorderEffect α)
    (segs : List (Segment α)) (i : Nat) :
    createSegment M { this with waveSegments := segs } i = createSegment M this i := rfl

theorem createWaveSegments_fold (M : JsMath α) (l : List Nat) (this : AvatarBorderEffect α) :
    l.foldl
        (fun self i => { self with waveSegments := self.waveSegments ++ [createSegment M self i] })
        this
      = { this with waveSegments := this.waveSegments ++ l.map (createSegment M this) } := by
  induction l generalizing this with
  | nil => simp
  | cons a l ih =>
    rw [List.foldl_cons, ih]
    simp [createSegment_frame]

theorem createWaveSegments_eq (M : JsMath α) (this : AvatarBorderEffect α) :
    createWaveSegments M this
      = { this with
          waveSegments :=
            this.waveSegments ++ (List.range this.segmentCount).map (createSegment M this) } :=
  createWaveSegments_fold M _ this

theorem dataIndex_eq_div [FloorRing α] (N i L : Nat) :
    dataIndex α N i L = ((i * L / N : ℕ) : ℤ) := by
  unfold dataIndex
  have h : ((i : α) / (N : α)) * (L : α) = ((i * L : ℕ) : α) / ((N : ℕ) : α) := by
    push_cast
    ring
  rw [h, ← Int.natCast_floor_eq_floor (by positivity), Nat.floor_div_eq_div]

theorem audioValue_eq_getD [FloorRing α] (N i : Nat) (e : List (Fin 256)) (hN : 1 ≤ N) :
    audioValue α N i e = (e.map (fun b => b.val)).getD (i * e.length / N) 0 := by
  unfold audioValue
  have hN0 : N ≠ 0 := by omega
  simp only [hN0, if_false, dataIndex_eq_div, Int.toNat_ofNat, Int.natCast_nonneg, if_true]
  rw [List.getD_eq_getElem?_getD, List.getElem?_map, List.get?_eq_getElem?]
  cases e[i * e.length / N]? <;> rfl

theorem driven_ok [FloorRing α] (M : JsMath α) (this : AvatarBorderEffect α)
    (e : List (Fin 256)) (seg : Segment α) (i : Nat) (t r : α) :
    ∃ s, updateSegmentWithAudio M { this with dataArray := some e } seg i t r = .ok s ∧
      s.baseRadius = seg.baseRadius ∧
      s.targetRadius = seg.baseRadius
          + ((audioValue α this.segmentCount i e : α) / 255) * this.audioWaveAmplitude
          + M.sin (t * 2.2 + (i : α) * 0.15) * 8 + M.cos (t * 1.6 + (i : α) * 0.12) * 6
          + M.sin (t * 3.0 + (i : α) * 0.08) * 4 ∧
      s.velocity = (seg.velocity + (s.targetRadius - seg.currentRadius) * 0.18) * 0.72 ∧
      s.currentRadius
        = max (seg.baseRadius - 10) (min (seg.baseRadius + 35) (seg.currentRadius + s.velocity)) :=
  ⟨_, rfl, rfl, rfl, rfl, rfl⟩

theorem clamp_bounds (lo hi x : α) (h : lo ≤ hi) :
    lo ≤ max lo (min hi x) ∧ max lo (min hi x) ≤ hi :=
  ⟨le_max_left _ _, max_le h (min_le_left _ _)⟩

theorem clamp_sq_le (lo hi T u : α) (h1 : lo ≤ T) (h2 : T ≤ hi) :
    (max lo (min hi u) - T) ^ 2 ≤ (u - T) ^ 2 := by
  rcases le_total u hi with hu | hu
  · rw [min_eq_right hu]
    rcases le_total lo u with hl | hl
    · rw [max_eq_right hl]
    · rw [max_eq_left hl]
      nlinarith
  · rw [min_eq_left hu, max_eq_right (h1.trans h2)]
    nlinarith

theorem idle_target_congr (M : JsMath α) (s seg : Segment α) (i : Nat) (t r r' : α)
    (h : s.baseRadius = seg.baseRadius) :
    (updateSegmentDefault M s i t r).targetRadius
      = (updateSegmentDefault M seg i t r').targetRadius := by
  show s.baseRadius + _ + _ + _ + _ = seg.baseRadius + _ + _ + _ + _
  rw [h]

theorem idleTicks_succ (M : JsMath α) (seg : Segment α) (i : Nat) (t r : α) (n : Nat) :
    idleTicks M i t r (n + 1) seg = updateSegmentDefault M (idleTicks M i t r n seg) i t r :=
  Function.iterate_succ_apply' _ _ _

theorem idleTicks_baseRadius (M : JsMath α) (seg : Segment α) (i : Nat) (t r : α) (n : Nat) :
    (idleTicks M i t r n seg).baseRadius = seg.baseRadius := by
  induction n with
  | zero => rfl
  | succ n ih =>
    rw [idleTicks_succ]
    exact ih

/-- One idle tick contracts the quantity `0.1092·(c - T)² + 0.8908·v²` by the
factor `0.8908 = 1 - 0.14·0.78` when the target lies in the clamp range. -/
theorem idle_energy_step (M : JsMath α) (seg : Segment α) (i : Nat) (t r T : α)
    (hT : (updateSegmentDefault M seg i t r).targetRadius = T)
    (h1 : seg.baseRadius - 8 ≤ T) (h2 : T ≤ seg.baseRadius + 25) :
    0.1092 * ((updateSegmentDefault M seg i t r).currentRadius - T) ^ 2
        + 0.8908 * (updateSegmentDefault M seg i t r).velocity ^ 2
      ≤ 0.8908 * (0.1092 * (seg.currentRadius - T) ^ 2 + 0.8908 * seg.velocity ^ 2) := by
  have hv : (updateSegmentDefault M seg i t r).velocity
      = (seg.velocity + (T - seg.currentRadius) * 0.14) * 0.78 := by
    rw [← hT]
    rfl
  have hc : (updateSegmentDefault M seg i t r).currentRadius
      = max (seg.baseRadius - 8) (min (seg.baseRadius + 25)
          (seg.currentRadius + (updateSegmentDefault M seg i t r).velocity)) := rfl
  have hsq := clamp_sq_le (seg.baseRadius - 8) (seg.baseRadius + 25) T
    (seg.currentRadius + (updateSegmentDefault M seg i t r).velocity) h1 h2
  rw [← hc] at hsq
  rw [hv] at hsq ⊢
  norm_num at hsq ⊢
  nlinarith [sq_nonneg seg.velocity, sq_nonneg (seg.currentRadius - T)]

theorem idle_energy_ticks (M : JsMath α) (seg : Segment α) (i : Nat) (t r T : α)
    (hT : (updateSegmentDefault M seg i t r).targetRadius = T)
    (h1 : seg.baseRadius - 8 ≤ T) (h2 : T ≤ seg.baseRadius + 25) (n : Nat) :
    0.1092 * ((idleTicks M i t r (n + 1) seg).currentRadius - T) ^ 2
        + 0.8908 * (idleTicks M i t r (n + 1) seg).velocity ^ 2
      ≤ 0.8908 * (0.1092 * ((idleTicks M i t r n seg).currentRadius - T) ^ 2
          + 0.8908 * (idleTicks M i t r n seg).velocity ^ 2) := by
  have hb := idleTicks_baseRadius M seg i t r n
  rw [idleTicks_succ]
  apply idle_energy_step
  · rw [← hT]
    exact idle_target_congr M _ seg i t r r hb
  · rw [hb]
    exact h1
  · rw [hb]
    exact h2

theorem idle_target_at_zero (seg : Segment ℝ) (r : ℝ) :
    (updateSegmentDefault ⟨Real.sin, Real.cos, Real.pi⟩ seg 0 0 r).targetRadius
      = seg.baseRadius + 12 := by
  show seg.baseRadius + Real.sin (0 * 1.8 + ((0 : ℕ) : ℝ) * 0.15) * 11
      + Real.cos (0 * 2.3 + ((0 : ℕ) : ℝ) * 0.12) * 8
      + Real.sin (0 * 1.4 + ((0 : ℕ) : ℝ) * 0.18) * 6
      + Real.cos (0 * 2.8 + ((0 : ℕ) : ℝ) * 0.10) * 4 = _
  simp
  ring

/-- One idle tick at `t = 0`, `i = 0` with the real sine and cosine, on a segment
of base radius 90 whose spring step stays inside the clamp range. -/
theorem idle_step_at_zero (seg : Segment ℝ) (r c v : ℝ) (hb : seg.baseRadius = 90)
    (hc : seg.currentRadius = c) (hv : seg.velocity = v)
    (hlo : 82 ≤ c + (v + (102 - c) * 0.14) * 0.78)
    (hhi : c + (v + (102 - c) * 0.14) * 0.78 ≤ 115) :
    (updateSegmentDefault ⟨Real.sin, Real.cos, Real.pi⟩ seg 0 0 r).baseRadius = 90 ∧
    (updateSegmentDefault ⟨Real.sin, Real.cos, Real.pi⟩ seg 0 0 r).targetRadius = 102 ∧
    (updateSegmentDefault ⟨Real.sin, Real.cos, Real.pi⟩ seg 0 0 r).currentRadius
      = c + (v + (102 - c) * 0.14) * 0.78 ∧
    (updateSegmentDefault ⟨Real.sin, Real.cos, Real.pi⟩ seg 0 0 r).velocity
      = (v + (102 - c) * 0.14) * 0.78 := by
  have hT : (updateSegmentDefault ⟨Real.sin, Real.cos, Real.pi⟩ seg 0 0 r).targetRadius = 102 := by
    rw [idle_target_at_zero, hb]
    norm_num
  have hv' : (updateSegmentDefault ⟨Real.sin, Real.cos, Real.pi⟩ seg 0 0 r).velocity
      = (v + (102 - c) * 0.14) * 0.78 := by
    rw [← hT, ← hc, ← hv]
    rfl
  have hc' : (updateSegmentDefault ⟨Real.sin, Real.cos, Real.pi⟩ seg 0 0 r).currentRadius
      = max (seg.baseRadius - 8) (min (seg.baseRadius + 25)
          (seg.currentRadius
            + (updateSegmentDefault ⟨Real.sin, Real.cos, Real.pi⟩ seg 0 0 r).velocity)) := rfl
  refine ⟨hb, hT, ?_, hv'⟩
  rw [hc', hv', hb, hc, min_eq_right (by linarith), max_eq_right (by linarith)]

/-- The first six idle ticks of a fresh segment 0 at `t = 0`: the radius passes the
target 102 between the fifth and the sixth tick. -/
theorem idle_fresh_zero_run :
    (idleTicks ⟨Real.sin, Real.cos, Real.pi⟩ 0 0 0 5 (createSegment ⟨Real.sin, Real.cos, Real.pi⟩ AvatarBorderEffect.new 0)).currentRadius
      = 101.28134109697170960384 ∧
    (idleTicks ⟨Real.sin, Real.cos, Real.pi⟩ 0 0 0 5 (createSegment ⟨Real.sin, Real.cos, Real.pi⟩ AvatarBorderEffect.new 0)).targetRadius = 102 ∧
    (idleTicks ⟨Real.sin, Real.cos, Real.pi⟩ 0 0 0 6 (createSegment ⟨Real.sin, Real.cos, Real.pi⟩ AvatarBorderEffect.new 0)).currentRadius
      = 103.270143755925094262095872 ∧
    (idleTicks ⟨Real.sin, Real.cos, Real.pi⟩ 0 0 0 6 (createSegment ⟨Real.sin, Real.cos, Real.pi⟩ AvatarBorderEffect.new 0)).targetRadius = 102 := by
  have h0 : (idleTicks ⟨Real.sin, Real.cos, Real.pi⟩ 0 0 0 0 (createSegment ⟨Real.sin, Real.cos, Real.pi⟩ AvatarBorderEffect.new 0)).baseRadius = 90 ∧
      (idleTicks ⟨Real.sin, Real.cos, Real.pi⟩ 0 0 0 0 (createSegment ⟨Real.sin, Real.cos, Real.pi⟩ AvatarBorderEffect.new 0)).currentRadius = 90 ∧
      (idleTicks ⟨Real.sin, Real.cos, Real.pi⟩ 0 0 0 0 (createSegment ⟨Real.sin, Real.cos, Real.pi⟩ AvatarBorderEffect.new 0)).velocity = 0 := ⟨rfl, rfl, rfl⟩
  have h1 := idle_step_at_zero (idleTicks ⟨Real.sin, Real.cos, Real.pi⟩ 0 0 0 0 (createSegment ⟨Real.sin, Real.cos, Real.pi⟩ AvatarBorderEffect.new 0)) 0
    90 0 h0.1 h0.2.1 h0.2.2 (by norm_num) (by norm_num)
  rw [← idleTicks_succ] at h1
  have e1 : (idleTicks ⟨Real.sin, Real.cos, Real.pi⟩ 0 0 0 1 (createSegment ⟨Real.sin, Real.cos, Real.pi⟩ AvatarBorderEffect.new 0)).baseRadius = 90 ∧
      (idleTicks ⟨Real.sin, Real.cos, Real.pi⟩ 0 0 0 1 (createSegment ⟨Real.sin, Real.cos, Real.pi⟩ AvatarBorderEffect.new 0)).currentRadius = 91.3104 ∧
      (idleTicks ⟨Real.sin, Real.cos, Real.pi⟩ 0 0 0 1 (createSegment ⟨Real.sin, Real.cos, Real.pi⟩ AvatarBorderEffect.new 0)).velocity = 1.3104 :=
    ⟨h1.1, h1.2.2.1.trans (by norm_num), h1.2.2.2.trans (by norm_num)⟩
  have h2 := idle_step_at_zero (idleTicks ⟨Real.sin, Real.cos, Real.pi⟩ 0 0 0 1 (createSegment ⟨Real.sin, Real.cos, Real.pi⟩ AvatarBorderEffect.new 0)) 0
    91.3104 1.3104 e1.1 e1.2.1 e1.2.2 (by norm_num) (by norm_num)
  rw [← idleTicks_succ] at h2
  have e2 : (idleTicks ⟨Real.sin, Real.cos, Real.pi⟩ 0 0 0 2 (createSegment ⟨Real.sin, Real.cos, Real.pi⟩ AvatarBorderEffect.new 0)).baseRadius = 90 ∧
      (idleTicks ⟨Real.sin, Real.cos, Real.pi⟩ 0 0 0 2 (createSegment ⟨Real.sin, Real.cos, Real.pi⟩ AvatarBorderEffect.new 0)).currentRadius = 93.49981632 ∧
      (idleTicks ⟨Real.sin, Real.cos, Real.pi⟩ 0 0 0 2 (createSegment ⟨Real.sin, Real.cos, Real.pi⟩ AvatarBorderEffect.new 0)).velocity = 2.18941632 :=
    ⟨h2.1, h2.2.2.1.trans (by norm_num), h2.2.2.2.trans (by norm_num)⟩
  have h3 := idle_step_at_zero (idleTicks ⟨Real.sin, Real.cos, Real.pi⟩ 0 0 0 2 (createSegment ⟨Real.sin, Real.cos, Real.pi⟩ AvatarBorderEffect.new 0)) 0
    93.49981632 2.18941632 e2.1 e2.2.1 e2.2.2 (by norm_num) (by norm_num)
  rw [← idleTicks_succ] at h3
  have e3 : (idleTicks ⟨Real.sin, Real.cos, Real.pi⟩ 0 0 0 3 (createSegment ⟨Real.sin, Real.cos, Real.pi⟩ AvatarBorderEffect.new 0)).baseRadius = 90 ∧
      (idleTicks ⟨Real.sin, Real.cos, Real.pi⟩ 0 0 0 3 (createSegment ⟨Real.sin, Real.cos, Real.pi⟩ AvatarBorderEffect.new 0)).currentRadius = 96.135781107456 ∧
      (idleTicks ⟨Real.sin, Real.cos, Real.pi⟩ 0 0 0 3 (createSegment ⟨Real.sin, Real.cos, Real.pi⟩ AvatarBorderEffect.new 0)).velocity = 2.635964787456 :=
    ⟨h3.1, h3.2.2.1.trans (by norm_num), h3.2.2.2.trans (by norm_num)⟩
  have h4 := idle_step_at_zero (idleTicks ⟨Real.sin, Real.cos, Real.pi⟩ 0 0 0 3 (createSegment ⟨Real.sin, Real.cos, Real.pi⟩ AvatarBorderEffect.new 0)) 0
    96.135781107456 2.635964787456 e3.1 e3.2.1 e3.2.2 (by norm_num) (by norm_num)
  rw [← idleTicks_succ] at h4
  have e4 : (idleTicks ⟨Real.sin, Real.cos, Real.pi⟩ 0 0 0 4 (createSegment ⟨Real.sin, Real.cos, Real.pi⟩ AvatarBorderEffect.new 0)).baseRadius = 90 ∧
      (idleTicks ⟨Real.sin, Real.cos, Real.pi⟩ 0 0 0 4 (createSegment ⟨Real.sin, Real.cos, Real.pi⟩ AvatarBorderEffect.new 0)).currentRadius = 98.8322063447374848 ∧
      (idleTicks ⟨Real.sin, Real.cos, Real.pi⟩ 0 0 0 4 (createSegment ⟨Real.sin, Real.cos, Real.pi⟩ AvatarBorderEffect.new 0)).velocity = 2.6964252372814848 :=
    ⟨h4.1, h4.2.2.1.trans (by norm_num), h4.2.2.2.trans (by norm_num)⟩
  have h5 := idle_step_at_zero (idleTicks ⟨Real.sin, Real.cos, Real.pi⟩ 0 0 0 4 (createSegment ⟨Real.sin, Real.cos, Real.pi⟩ AvatarBorderEffect.new 0)) 0
    98.8322063447374848 2.6964252372814848 e4.1 e4.2.1 e4.2.2 (by norm_num) (by norm_num)
  rw [← idleTicks_succ] at h5
  have e5 : (idleTicks ⟨Real.sin, Real.cos, Real.pi⟩ 0 0 0 5 (createSegment ⟨Real.sin, Real.cos, Real.pi⟩ AvatarBorderEffect.new 0)).baseRadius = 90 ∧
      (idleTicks ⟨Real.sin, Real.cos, Real.pi⟩ 0 0 0 5 (createSegment ⟨Real.sin, Real.cos, Real.pi⟩ AvatarBorderEffect.new 0)).currentRadius = 101.28134109697170960384 ∧
      (idleTicks ⟨Real.sin, Real.cos, Real.pi⟩ 0 0 0 5 (createSegment ⟨Real.sin, Real.cos, Real.pi⟩ AvatarBorderEffect.new 0)).velocity = 2.44913475223422480384 :=
    ⟨h5.1, h5.2.2.1.trans (by norm_num), h5.2.2.2.trans (by norm_num)⟩
  have h6 := idle_step_at_zero (idleTicks ⟨Real.sin, Real.cos, Real.pi⟩ 0 0 0 5 (createSegment ⟨Real.sin, Real.cos, Real.pi⟩ AvatarBorderEffect.new 0)) 0
    101.28134109697170960384 2.44913475223422480384 e5.1 e5.2.1 e5.2.2 (by norm_num) (by norm_num)
  rw [← idleTicks_succ] at h6
  have e6 : (idleTicks ⟨Real.sin, Real.cos, Real.pi⟩ 0 0 0 6 (createSegment ⟨Real.sin, Real.cos, Real.pi⟩ AvatarBorderEffect.new 0)).baseRadius = 90 ∧
      (idleTicks ⟨Real.sin, Real.cos, Real.pi⟩ 0 0 0 6 (createSegment ⟨Real.sin, Real.cos, Real.pi⟩ AvatarBorderEffect.new 0)).currentRadius = 103.270143755925094262095872 ∧
      (idleTicks ⟨Real.sin, Real.cos, Real.pi⟩ 0 0 0 6 (createSegment ⟨Real.sin, Real.cos, Real.pi⟩ AvatarBorderEffect.new 0)).velocity = 1.988802658953384658255872 :=
    ⟨h6.1, h6.2.2.1.trans (by norm_num), h6.2.2.2.trans (by norm_num)⟩
  exact ⟨e5.2.1, h5.2.1, e6.2.1, h6.2.1⟩

theorem idle_energy_pow (M : JsMath α) (seg : Segment α) (i : Nat) (t r T : α)
    (hT : (updateSegmentDefault M seg i t r).targetRadius = T)
    (h1 : seg.baseRadius - 8 ≤ T) (h2 : T ≤ seg.baseRadius + 25) (n : Nat) :
    0.1092 * ((idleTicks M i t r n seg).currentRadius - T) ^ 2
        + 0.8908 * (idleTicks M i t r n seg).velocity ^ 2
      ≤ 0.8908 ^ n * (0.1092 * (seg.currentRadius - T) ^ 2 + 0.8908 * seg.velocity ^ 2) := by
  induction n with
  | zero =>
    rw [pow_zero, one_mul]
    exact le_of_eq rfl
  | succ n ih =>
    refine (idle_energy_ticks M seg i t r T hT h1 h2 n).trans ?_
    rw [pow_succ (0.8908 : α) n, mul_comm ((0.8908 : α) ^ n) 0.8908, mul_assoc]
    exact mul_le_mul_of_nonneg_left ih (by norm_num)

/-- The idle target of segment 0 at `t = 15π/2` with the real sine and cosine lies
below `baseRadius - 9`, outside the clamp range. -/
theorem idle_target_at_15pi_div_2 (seg : Segment ℝ) (r : ℝ) :
    (updateSegmentDefault ⟨Real.sin, Real.cos, Real.pi⟩ seg 0 (15 * Real.pi / 2) r).targetRadius
      < seg.baseRadius - 9 := by
  have e1 : 15 * Real.pi / 2 * 1.8 + ((0 : ℕ) : ℝ) * 0.15
      = Real.pi / 2 + Real.pi + ((6 : ℕ) : ℝ) * (2 * Real.pi) := by
    norm_num
    ring
  have e2 : 15 * Real.pi / 2 * 2.3 + ((0 : ℕ) : ℝ) * 0.12
      = Real.pi / 4 + Real.pi + ((8 : ℕ) : ℝ) * (2 * Real.pi) := by
    norm_num
    ring
  have e3 : 15 * Real.pi / 2 * 1.4 + ((0 : ℕ) : ℝ) * 0.18
      = Real.pi / 2 + ((5 : ℕ) : ℝ) * (2 * Real.pi) := by
    norm_num
    ring
  have e4 : 15 * Real.pi / 2 * 2.8 + ((0 : ℕ) : ℝ) * 0.10
      = 0 + Real.pi + ((10 : ℕ) : ℝ) * (2 * Real.pi) := by
    norm_num
    ring
  have hcos : 0 < Real.cos (Real.pi / 4) := by
    rw [Real.cos_pi_div_four]
    positivity
  show seg.baseRadius + Real.sin (15 * Real.pi / 2 * 1.8 + ((0 : ℕ) : ℝ) * 0.15) * 11
      + Real.cos (15 * Real.pi / 2 * 2.3 + ((0 : ℕ) : ℝ) * 0.12) * 8
      + Real.sin (15 * Real.pi / 2 * 1.4 + ((0 : ℕ) : ℝ) * 0.18) * 6
      + Real.cos (15 * Real.pi / 2 * 2.8 + ((0 : ℕ) : ℝ) * 0.10) * 4 < _
  rw [e1, e2, e3, e4, Real.sin_add_nat_mul_two_pi, Real.cos_add_nat_mul_two_pi,
    Real.sin_add_nat_mul_two_pi, Real.cos_add_nat_mul_two_pi, Real.sin_add_pi, Real.cos_add_pi,
    Real.cos_add_pi, Real.sin_pi_div_two, Real.cos_zero]
  linarith

theorem idleTicks_lower (M : JsMath α) (seg : Segment α) (i : Nat) (t r : α) (n : Nat) :
    seg.baseRadius - 8 ≤ (idleTicks M i t r (n + 1) seg).currentRadius := by
  rw [idleTicks_succ, ← idleTicks_baseRadius M seg i t r n]
  exact (clamp_bounds _ ((idleTicks M i t r n seg).baseRadius + 25) _ (by linarith)).1

/-- The characteristic polynomial `l² - (1 - d·k + d)·l + d` of the linear map
`springStep k d 0` annihilates every eigenvector. -/
theorem springStep_eigen (k d l x y : α) (h : springStep k d 0 (x, y) = (l * x, l * y)) :
    (l ^ 2 - (1 - d * k + d) * l + d) * x = 0 ∧ (l ^ 2 - (1 - d * k + d) * l + d) * y = 0 := by
  have e1 : x + (y + (0 - x) * k) * d = l * x := congrArg Prod.fst h
  have e2 : (y + (0 - x) * k) * d = l * y := congrArg Prod.snd h
  constructor
  · linear_combination (d - l) * e1 - d * e2
  · linear_combination (d * k) * e1 + (1 - d * k - l) * e2

theorem springStep_no_eigen (k d : α) (hd : (1 - d * k + d) ^ 2 < 4 * d) :
    ¬ ∃ l x y : α, (x ≠ 0 ∨ y ≠ 0) ∧ springStep k d 0 (x, y) = (l * x, l * y) := by
  rintro ⟨l, x, y, hxy, h⟩
  obtain ⟨hx, hy⟩ := springStep_eigen k d l x y h
  have hp : l ^ 2 - (1 - d * k + d) * l + d ≠ 0 := by
    have := sq_nonneg (2 * l - (1 - d * k + d))
    intro h0
    nlinarith
  rcases hxy with hx0 | hy0
  · exact hx0 ((mul_eq_zero.1 hx).resolve_left hp)
  · exact hy0 ((mul_eq_zero.1 hy).resolve_left hp)

theorem springStep_affine (k d T x a b : α) :
    springStep k d T (T + a * x, b * x)
      = (T + (a + (b - a * k) * d) * x, ((b - a * k) * d) * x) := by
  unfold springStep
  refine Prod.ext ?_ ?_
  · show T + a * x + (b * x + (T - (T + a * x)) * k) * d = _
    ring
  · show (b * x + (T - (T + a * x)) * k) * d = _
    ring

/-- Six unclamped spring steps with the driven constants, started at rest: the
offset from the target is multiplied by a negative factor. -/
theorem springStep_driven_six (T c0 : α) :
    ((springStep 0.18 0.72 T)^[6] (c0, 0)).1 - T
      = (-0.120768363826524773679104) * (c0 - T) := by
  have h0 : (springStep 0.18 0.72 T)^[0] (c0, 0) = (T + 1 * (c0 - T), 0 * (c0 - T)) := by
    refine Prod.ext ?_ ?_
    · show c0 = T + 1 * (c0 - T)
      ring
    · show (0 : α) = 0 * (c0 - T)
      ring
  have h1 : (springStep 0.18 0.72 T)^[1] (c0, 0)
      = (T + 0.8704 * (c0 - T),
          (-0.1296) * (c0 - T)) := by
    rw [Function.iterate_succ_apply', h0, springStep_affine]
    norm_num
  have h2 : (springStep 0.18 0.72 T)^[2] (c0, 0)
      = (T + 0.66428416 * (c0 - T),
          (-0.20611584) * (c0 - T)) := by
    rw [Function.iterate_succ_apply', h1, springStep_affine]
    norm_num
  have h3 : (springStep 0.18 0.72 T)^[3] (c0, 0)
      = (T + 0.429789528064 * (c0 - T),
          (-0.234494631936) * (c0 - T)) := by
    rw [Function.iterate_succ_apply', h2, springStep_affine]
    norm_num
  have h4 : (springStep 0.18 0.72 T)^[4] (c0, 0)
      = (T + 0.2052526702329856 * (c0 - T),
          (-0.2245368578310144) * (c0 - T)) := by
    rw [Function.iterate_succ_apply', h3, springStep_affine]
    norm_num
  have h5 : (springStep 0.18 0.72 T)^[5] (c0, 0)
      = (T + 0.01698538653246029824 * (c0 - T),
          (-0.18826728370052530176) * (c0 - T)) := by
    rw [Function.iterate_succ_apply', h4, springStep_affine]
    norm_num
  have h6 : (springStep 0.18 0.72 T)^[6] (c0, 0)
      = (T + (-0.120768363826524773679104) * (c0 - T),
          (-0.137753750358985071919104) * (c0 - T)) := by
    rw [Function.iterate_succ_apply', h5, springStep_affine]
    norm_num
  rw [h6]
  show T + _ * (c0 - T) - T = _
  ring

/-- Six unclamped spring steps with the idle constants, started at rest: the
offset from the target is multiplied by a negative factor. -/
theorem springStep_idle_six (T c0 : α) :
    ((springStep 0.14 0.78 T)^[6] (c0, 0)).1 - T
      = (-0.105845312993757855174656) * (c0 - T) := by
  have h0 : (springStep 0.14 0.78 T)^[0] (c0, 0) = (T + 1 * (c0 - T), 0 * (c0 - T)) := by
    refine Prod.ext ?_ ?_
    · show c0 = T + 1 * (c0 - T)
      ring
    · show (0 : α) = 0 * (c0 - T)
      ring
  have h1 : (springStep 0.14 0.78 T)^[1] (c0, 0)
      = (T + 0.8908 * (c0 - T),
          (-0.1092) * (c0 - T)) := by
    rw [Function.iterate_succ_apply', h0, springStep_affine]
    norm_num
  have h2 : (springStep 0.14 0.78 T)^[2] (c0, 0)
      = (T + 0.70834864 * (c0 - T),
          (-0.18245136) * (c0 - T)) := by
    rw [Function.iterate_succ_apply', h1, springStep_affine]
    norm_num
  have h3 : (springStep 0.14 0.78 T)^[3] (c0, 0)
      = (T + 0.488684907712 * (c0 - T),
          (-0.219663732288) * (c0 - T)) := by
    rw [Function.iterate_succ_apply', h2, springStep_affine]
    norm_num
  have h4 : (springStep 0.14 0.78 T)^[4] (c0, 0)
      = (T + 0.2639828046052096 * (c0 - T),
          (-0.2247021031067904) * (c0 - T)) := by
    rw [Function.iterate_succ_apply', h3, springStep_affine]
    norm_num
  have h5 : (springStep 0.14 0.78 T)^[5] (c0, 0)
      = (T + 0.05988824191902419968 * (c0 - T),
          (-0.20409456268618540032) * (c0 - T)) := by
    rw [Function.iterate_succ_apply', h4, springStep_affine]
    norm_num
  have h6 : (springStep 0.14 0.78 T)^[6] (c0, 0)
      = (T + (-0.105845312993757855174656) * (c0 - T),
          (-0.165733554912782054854656) * (c0 - T)) := by
    rw [Function.iterate_succ_apply', h5, springStep_affine]
    norm_num
  rw [h6]
  show T + _ * (c0 - T) - T = _
  ring

/-- The first two idle ticks of a fresh segment 0 at `t = 0`. -/
theorem idle_fresh_zero_two :
    (idleTicks ⟨Real.sin, Real.cos, Real.pi⟩ 0 0 0 1
        (createSegment ⟨Real.sin, Real.cos, Real.pi⟩ AvatarBorderEffect.new 0)).currentRadius = 91.3104 ∧
    (idleTicks ⟨Real.sin, Real.cos, Real.pi⟩ 0 0 0 1
        (createSegment ⟨Real.sin, Real.cos, Real.pi⟩ AvatarBorderEffect.new 0)).velocity = 1.3104 ∧
    (idleTicks ⟨Real.sin, Real.cos, Real.pi⟩ 0 0 0 2
        (createSegment ⟨Real.sin, Real.cos, Real.pi⟩ AvatarBorderEffect.new 0)).currentRadius = 93.49981632 ∧
    (idleTicks ⟨Real.sin, Real.cos, Real.pi⟩ 0 0 0 2
        (createSegment ⟨Real.sin, Real.cos, Real.pi⟩ AvatarBorderEffect.new 0)).velocity = 2.18941632 := by
  have h0 : (idleTicks ⟨Real.sin, Real.cos, Real.pi⟩ 0 0 0 0
        (createSegment ⟨Real.sin, Real.cos, Real.pi⟩ AvatarBorderEffect.new 0)).baseRadius = 90 ∧
      (idleTicks ⟨Real.sin, Real.cos, Real.pi⟩ 0 0 0 0
        (createSegment ⟨Real.sin, Real.cos, Real.pi⟩ AvatarBorderEffect.new 0)).currentRadius = 90 ∧
      (idleTicks ⟨Real.sin, Real.cos, Real.pi⟩ 0 0 0 0
        (createSegment ⟨Real.sin, Real.cos, Real.pi⟩ AvatarBorderEffect.new 0)).velocity = 0 := ⟨rfl, rfl, rfl⟩
  have h1 := idle_step_at_zero (idleTicks ⟨Real.sin, Real.cos, Real.pi⟩ 0 0 0 0
        (createSegment ⟨Real.sin, Real.cos, Real.pi⟩ AvatarBorderEffect.new 0)) 0
    90 0 h0.1 h0.2.1 h0.2.2 (by norm_num) (by norm_num)
  rw [← idleTicks_succ] at h1
  have e1 : (idleTicks ⟨Real.sin, Real.cos, Real.pi⟩ 0 0 0 1
        (createSegment ⟨Real.sin, Real.cos, Real.pi⟩ AvatarBorderEffect.new 0)).baseRadius = 90 ∧
      (idleTicks ⟨Real.sin, Real.cos, Real.pi⟩ 0 0 0 1
        (createSegment ⟨Real.sin, Real.cos, Real.pi⟩ AvatarBorderEffect.new 0)).currentRadius = 91.3104 ∧
      (idleTicks ⟨Real.sin, Real.cos, Real.pi⟩ 0 0 0 1
        (createSegment ⟨Real.sin, Real.cos, Real.pi⟩ AvatarBorderEffect.new 0)).velocity = 1.3104 :=
    ⟨h1.1, h1.2.2.1.trans (by norm_num), h1.2.2.2.trans (by norm_num)⟩
  have h2 := idle_step_at_zero (idleTicks ⟨Real.sin, Real.cos, Real.pi⟩ 0 0 0 1
        (createSegment ⟨Real.sin, Real.cos, Real.pi⟩ AvatarBorderEffect.new 0)) 0
    91.3104 1.3104 e1.1 e1.2.1 e1.2.2 (by norm_num) (by norm_num)
  rw [← idleTicks_succ] at h2
  exact ⟨e1.2.1, e1.2.2, h2.2.2.1.trans (by norm_num), h2.2.2.2.trans (by norm_num)⟩

theorem updateSegmentWithAudio_some [FloorRing α] (M : JsMath α) (this : AvatarBorderEffect α)
    (d : List (Fin 256)) (hd : this.dataArray = some d) (seg : Segment α) (i : Nat) (t r : α) :
    updateSegmentWithAudio M this seg i t r
      = updateSegmentWithAudio M { this with dataArray := some d } seg i t r := by
  unfold updateSegmentWithAudio
  simp only [hd]

/-- A driven update with an allocated array succeeds; it writes the position from
the rotated angle and the clamped radius and leaves the fixed fields alone. -/
theorem driven_frame [FloorRing α] (M : JsMath α) (this : AvatarBorderEffect α)
    (e : List (Fin 256)) (seg : Segment α) (i : Nat) (t r : α) :
    ∃ s, updateSegmentWithAudio M { this with dataArray := some e } seg i t r = .ok s ∧
      s.angle = seg.angle ∧ s.baseRadius = seg.baseRadius ∧ s.hue = seg.hue ∧
      s.saturation = seg.saturation ∧ s.lightness = seg.lightness ∧
      s.originalIndex = seg.originalIndex ∧
      s.element.style.left = M.cos (seg.angle + r) * s.currentRadius ∧
      s.element.style.top = M.sin (seg.angle + r) * s.currentRadius ∧
      s.element.style.backgroundColor
        = ⟨seg.hue,
            min 100 (seg.saturation + (audioValue α this.segmentCount i e : α) / 255 * 20),
            min 95 (seg.lightness + (audioValue α this.segmentCount i e : α) / 255 * 30)⟩ ∧
      s.currentRadius
        = max (seg.baseRadius - 10) (min (seg.baseRadius + 35) (seg.currentRadius + s.velocity)) :=
  ⟨_, rfl, rfl, rfl, rfl, rfl, rfl, rfl, rfl, rfl, rfl, rfl⟩

theorem segmentTick_frame [FloorRing α] (M : JsMath α) (this : AvatarBorderEffect α) (i : Nat)
    (seg : Segment α) (tick : Tick α) :
    ∃ s, segmentTick M this i seg tick = .ok s ∧
      s.angle = seg.angle ∧ s.baseRadius = seg.baseRadius ∧ s.hue = seg.hue ∧
      s.saturation = seg.saturation ∧ s.lightness = seg.lightness ∧
      s.originalIndex = seg.originalIndex := by
  cases tick with
  | driven time data =>
    obtain ⟨s, hs, h1, h2, h3, h4, h5, h6, -⟩ :=
      driven_frame M this data seg i time (time * this.rotationSpeed)
    exact ⟨s, hs, h1, h2, h3, h4, h5, h6⟩
  | idle time => exact ⟨_, rfl, rfl, rfl, rfl, rfl, rfl, rfl⟩

theorem segmentTicks_frame [FloorRing α] (M : JsMath α) (this : AvatarBorderEffect α) (i : Nat)
    (ticks : List (Tick α)) (seg : Segment α) :
    ∃ s, segmentTicks M this i seg ticks = .ok s ∧
      s.angle = seg.angle ∧ s.baseRadius = seg.baseRadius ∧ s.hue = seg.hue ∧
      s.saturation = seg.saturation ∧ s.lightness = seg.lightness ∧
      s.originalIndex = seg.originalIndex := by
  induction ticks generalizing seg with
  | nil => exact ⟨seg, rfl, rfl, rfl, rfl, rfl, rfl, rfl⟩
  | cons tick rest ih =>
    obtain ⟨s1, hs1, a1, a2, a3, a4, a5, a6⟩ := segmentTick_frame M this i seg tick
    obtain ⟨s, hs, b1, b2, b3, b4, b5, b6⟩ := ih s1
    refine ⟨s, ?_, b1.trans a1, b2.trans a2, b3.trans a3, b4.trans a4, b5.trans a5, b6.trans a6⟩
    show (match segmentTick M this i seg tick with
      | .ok segment' => segmentTicks M this i segment' rest
      | .error e => .error e) = _
    rw [hs1]
    exact hs

theorem forEachDefault_eq_zipWith (M : JsMath α) (t ro : α) (segs : List (Segment α)) (k : Nat) :
    forEachDefault M t ro k segs
      = List.zipWith (fun i segment => updateSegmentDefault M segment i t (segment.angle + ro))
          (List.range' k segs.length) segs := by
  induction segs generalizing k with
  | nil => simp [forEachDefault]
  | cons seg rest ih =>
    simp only [forEachDefault, List.length_cons, List.range'_succ, List.zipWith_cons_cons, ih]

theorem forEachDefault_eq_spec (M : JsMath α) (t rotationSpeed : α) (segs : List (Segment α)) :
    forEachDefault M t (t * rotationSpeed) 0 segs = specAdvanceIdle M segs t rotationSpeed := by
  rw [forEachDefault_eq_zipWith, specAdvanceIdle, List.range_eq_range']

theorem forEachDefault_length (M : JsMath α) (t ro : α) (segs : List (Segment α)) (k : Nat) :
    (forEachDefault M t ro k segs).length = segs.length := by
  induction segs generalizing k with
  | nil => rfl
  | cons seg rest ih => simp [forEachDefault, ih]

theorem forEachDefault_get? (M : JsMath α) (t ro : α) (segs : List (Segment α)) (k i : Nat)
    (seg : Segment α) (h : segs.get? i = some seg) :
    (forEachDefault M t ro k segs).get? i
      = some (updateSegmentDefault M seg (k + i) t (seg.angle + ro)) := by
  induction segs generalizing k i with
  | nil => simp at h
  | cons s rest ih =>
    cases i with
    | zero =>
      simp only [List.get?_cons_zero, Option.some.injEq] at h
      subst h
      rfl
    | succ j =>
      simp only [List.get?_cons_succ] at h
      have := ih (k + 1) j h
      simp only [forEachDefault, List.get?_cons_succ, this]
      congr 2
      omega

theorem forEachWithAudio_ok [FloorRing α] (M : JsMath α) (this : AvatarBorderEffect α)
    (d : List (Fin 256)) (hd : this.dataArray = some d) (t ro : α) (segs : List (Segment α))
    (k : Nat) :
    ∃ segs', forEachWithAudio M this t ro k segs = .ok segs' ∧ segs'.length = segs.length ∧
      ∀ i seg, segs.get? i = some seg →
        ∃ seg', segs'.get? i = some seg' ∧
          updateSegmentWithAudio M { this with dataArray := some d } seg (k + i) t ro
            = .ok seg' := by
  induction segs generalizing k with
  | nil => exact ⟨[], rfl, rfl, fun i seg h => by simp at h⟩
  | cons s rest ih =>
    obtain ⟨s', hs', -⟩ := driven_frame M this d s k t ro
    obtain ⟨rest', hrest, hlen, hget⟩ := ih (k + 1)
    have h1 : updateSegmentWithAudio M this s k t ro = .ok s' := by
      rw [updateSegmentWithAudio_some M this d hd]
      exact hs'
    refine ⟨s' :: rest', ?_, by simp [hlen], ?_⟩
    · show (match updateSegmentWithAudio M this s k t ro with
        | .ok segment' =>
          match forEachWithAudio M this t ro (k + 1) rest with
          | .ok rest' => Except.ok (segment' :: rest')
          | .error e => .error e
        | .error e => .error e) = _
      rw [h1, hrest]
    · intro i seg h
      cases i with
      | zero =>
        simp only [List.get?_cons_zero, Option.some.injEq] at h
        subst h
        exact ⟨s', rfl, hs'⟩
      | succ j =>
        simp only [List.get?_cons_succ] at h
        obtain ⟨seg', g1, g2⟩ := hget j seg h
        refine ⟨seg', by simpa using g1, ?_⟩
        rw [show k + (j + 1) = k + 1 + j by omega]
        exact g2

theorem animate_idle [FloorRing α] (M : JsMath α) (this : AvatarBorderEffect α) (now : α)
    (freq : List (Fin 256)) (id : Nat) (hrun : this.isRunning = true)
    (hidle : this.isAudioActive = false) :
    animate M this now freq id
      = .ok { this with
              waveSegments :=
                specAdvanceIdle M this.waveSegments (now * 0.001) this.rotationSpeed
              animationId := some id } := by
  unfold animate
  simp only [hrun, hidle, Bool.not_true, Bool.false_and, Bool.false_eq_true, if_false,
    forEachDefault_eq_spec]

/-- The two ways a frame of a running effect can go: the driven branch, when
`isAudioActive`, `analyser` and `dataArray` are all set, and the idle branch
otherwise. Neither throws. -/
theorem animate_cases [FloorRing α] (M : JsMath α) (this : AvatarBorderEffect α) (now : α)
    (freq : List (Fin 256)) (id : Nat) (hrun : this.isRunning = true) :
    (∃ d segs', this.dataArray = some d ∧ (this.isAudioActive && this.analyser) = true ∧
      forEachWithAudio M { this with dataArray := some (getByteFrequencyData d freq) }
          (now * 0.001) (now * 0.001 * this.rotationSpeed) 0 this.waveSegments = .ok segs' ∧
      animate M this now freq id
        = .ok { this with
                dataArray := some (getByteFrequencyData d freq)
                waveSegments := segs'
                animationId := some id }) ∨
    ((this.dataArray = none ∨ (this.isAudioActive && this.analyser) = false) ∧
      animate M this now freq id
        = .ok { this with
                waveSegments :=
                  forEachDefault M (now * 0.001) (now * 0.001 * this.rotationSpeed) 0
                    this.waveSegments
                animationId := some id }) := by
  cases hb : (this.isAudioActive && this.analyser) with
  | false =>
    right
    refine ⟨Or.inr rfl, ?_⟩
    unfold animate
    simp only [hrun, hb, Bool.not_true, Bool.false_eq_true, if_false]
  | true =>
    cases hd : this.dataArray with
    | none =>
      right
      refine ⟨Or.inl rfl, ?_⟩
      unfold animate
      simp only [hrun, hb, hd, Bool.not_true, Bool.false_eq_true, if_false]
    | some d =>
      left
      obtain ⟨segs', hsegs, -, -⟩ :=
        forEachWithAudio_ok M { this with dataArray := some (getByteFrequencyData d freq) }
          (getByteFrequencyData d freq) rfl (now * 0.001) (now * 0.001 * this.rotationSpeed)
          this.waveSegments 0
      refine ⟨d, segs', rfl, rfl, hsegs, ?_⟩
      unfold animate
      simp only [hrun, hb, hd, Bool.not_true, Bool.false_eq_true, if_false]
      simp only [hrun] at hsegs
      rw [hsegs]

theorem animate_running [FloorRing α] (M : JsMath α) (this : AvatarBorderEffect α) (now : α)
    (freq : List (Fin 256)) (id : Nat) (hrun : this.isRunning = true) :
    ∃ s, animate M this now freq id = .ok s ∧ s.isRunning = true ∧ s.animationId = some id ∧
      s.isAudioActive = this.isAudioActive := by
  rcases animate_cases M this now freq id hrun with ⟨d, segs', -, -, -, h⟩ | ⟨-, h⟩
  · exact ⟨_, h, hrun, rfl, rfl⟩
  · exact ⟨_, h, hrun, rfl, rfl⟩

theorem start_running [FloorRing α] (M : JsMath α) (this : AvatarBorderEffect α) (now : α)
    (freq : List (Fin 256)) (id : Nat) (hrun : this.isRunning = false) :
    ∃ s, start M this now freq id = .ok s ∧ s.isRunning = true ∧ s.animationId = some id ∧
      s.isAudioActive = this.isAudioActive := by
  obtain ⟨s, hs, h1, h2, h3⟩ := animate_running M { this with isRunning := true } now freq id rfl
  refine ⟨s, ?_, h1, h2, h3⟩
  unfold start
  simp only [hrun, Bool.false_eq_true, if_false]
  exact hs

theorem animateTicks_idle [FloorRing α] (M : JsMath α)
    (ticks : List (α × List (Fin 256) × Nat)) (this : AvatarBorderEffect α)
    (hrun : this.isRunning = true) (hidle : this.isAudioActive = false) :
    ∃ s, animateTicks M this ticks = .ok s ∧ s.isAudioActive = false ∧ s.isRunning = true ∧
      s.waveSegments
        = specIdleRun M this.rotationSpeed this.waveSegments (ticks.map (fun tick => tick.1)) := by
  induction ticks generalizing this with
  | nil => exact ⟨this, rfl, hidle, hrun, rfl⟩
  | cons tick rest ih =>
    have h := animate_idle M this tick.1 tick.2.1 tick.2.2 hrun hidle
    obtain ⟨s, hs, h1, h2, h3⟩ := ih _ (show
      ({ this with
          waveSegments := specAdvanceIdle M this.waveSegments (tick.1 * 0.001) this.rotationSpeed
          animationId := some tick.2.2 } : AvatarBorderEffect α).isRunning = true from hrun) hidle
    refine ⟨s, ?_, h1, h2, h3⟩
    show (match animate M this tick.1 tick.2.1 tick.2.2 with
      | .ok this' => animateTicks M this' rest
      | .error e => .error e) = _
    rw [h]
    exact hs

omit [LinearOrderedField α] in
theorem initAudio_failed (this : AvatarBorderEffect α) (env : AudioEnv)
    (p : String × AvatarBorderEffect α) (h : initAudioTry this env = .error p) :
    (initAudio this env).isAudioActive = false ∧
    (initAudio this env).isRunning = p.2.isRunning ∧
    (initAudio this env).waveSegments = p.2.waveSegments ∧
    (initAudio this env).rotationSpeed = p.2.rotationSpeed := by
  unfold initAudio
  rw [h]
  exact ⟨rfl, rfl, rfl, rfl⟩

omit [LinearOrderedField α] in
theorem initAudioTry_frame (this : AvatarBorderEffect α) (env : AudioEnv) :
    (∀ p, initAudioTry this env = .error p →
      p.2.isRunning = this.isRunning ∧ p.2.waveSegments = this.waveSegments ∧
      p.2.rotationSpeed = this.rotationSpeed ∧ p.2.animationId = this.animationId) ∧
    (∀ s, initAudioTry this env = .ok s →
      s.isRunning = this.isRunning ∧ s.waveSegments = this.waveSegments ∧
      s.rotationSpeed = this.rotationSpeed ∧ s.animationId = this.animationId) := by
  unfold initAudioTry
  constructor
  · intro p hp
    split at hp
    · cases hp
      exact ⟨rfl, rfl, rfl, rfl⟩
    · split_ifs at hp <;> cases hp <;> exact ⟨rfl, rfl, rfl, rfl⟩
  · intro s hs
    split at hs
    · cases hs
    · split_ifs at hs
      cases hs
      exact ⟨rfl, rfl, rfl, rfl⟩

omit [LinearOrderedField α] in
theorem initAudio_frame (this : AvatarBorderEffect α) (env : AudioEnv) :
    (initAudio this env).isRunning = this.isRunning ∧
    (initAudio this env).waveSegments = this.waveSegments ∧
    (initAudio this env).rotationSpeed = this.rotationSpeed ∧
    (initAudio this env).animationId = this.animationId := by
  have hf := initAudioTry_frame this env
  unfold initAudio
  cases h : initAudioTry this env with
  | ok s => exact hf.2 s h
  | error p => exact hf.1 p h

theorem audioValue_missing [FloorRing α] (N i : Nat) (e : List (Fin 256))
    (h : e.get? (i * e.length / N) = none) : audioValue α N i e = 0 := by
  by_cases hN : N = 0
  · unfold audioValue
    simp [hN]
  · rw [audioValue_eq_getD N i e (by omega), List.getD_eq_getElem?_getD, List.getElem?_map,
      ← List.get?_eq_getElem?, h]
    rfl

/-- A driven update with an allocated array changes none of the fields other than
`targetRadius`, `velocity`, `currentRadius` and the written style properties. -/
theorem driven_unchanged [FloorRing α] (M : JsMath α) (this : AvatarBorderEffect α)
    (e : List (Fin 256)) (seg : Segment α) (i : Nat) (t r : α) :
    ∃ s, updateSegmentWithAudio M { this with dataArray := some e } seg i t r = .ok s ∧
      s.angle = seg.angle ∧ s.baseRadius = seg.baseRadius ∧ s.hue = seg.hue ∧
      s.saturation = seg.saturation ∧ s.lightness = seg.lightness ∧
      s.originalIndex = seg.originalIndex ∧ s.x = seg.x ∧ s.y = seg.y ∧
      s.element.className = seg.element.className ∧
      s.element.style.transform = seg.element.style.transform :=
  ⟨_, rfl, rfl, rfl, rfl, rfl, rfl, rfl, rfl, rfl, rfl, rfl⟩

theorem audioValue_le [FloorRing α] (N i : Nat) (e : List (Fin 256)) :
    audioValue α N i e ≤ 255 := by
  unfold audioValue
  by_cases hN : N = 0
  · simp [hN]
  · by_cases hk : 0 ≤ dataIndex α N i e.length
    · cases h : e.get? (dataIndex α N i e.length).toNat with
      | none =>
        simp only [hN, hk, h, if_false, if_true]
        exact Nat.zero_le _
      | some b =>
        simp only [hN, hk, h, if_false, if_true]
        exact Nat.le_of_lt_succ b.isLt
    · simp [hN, hk]

theorem animate_stopped [FloorRing α] (M : JsMath α) (this : AvatarBorderEffect α) (now : α)
    (freq : List (Fin 256)) (id : Nat) (hrun : this.isRunning = false) :
    animate M this now freq id = .ok this := by
  unfold animate
  simp only [hrun, Bool.not_false, if_true]

/-- The spec's concrete scenario: four segments of base radius 90, rotation speed
0, idle mode, one frame at `Date.now() = 0` with the real sine and cosine. The
frame succeeds, keeps four segments, and segment 0 gets target radius 102. -/
theorem scenario_tick :
    ∃ s seg', animate (⟨Real.sin, Real.cos, Real.pi⟩ : JsMath ℝ)
        { (createWaveSegments (⟨Real.sin, Real.cos, Real.pi⟩ : JsMath ℝ)
          { (AvatarBorderEffect.new : AvatarBorderEffect ℝ) with segmentCount := 4, rotationSpeed := 0 }) with
        isRunning := true } 0 [] 1 = .ok s ∧
      s.waveSegments.length = 4 ∧ s.waveSegments.get? 0 = some seg' ∧
      seg'.baseRadius = 90 ∧ seg'.targetRadius = 102 := by
  have hA := animate_idle (⟨Real.sin, Real.cos, Real.pi⟩ : JsMath ℝ)
    { (createWaveSegments (⟨Real.sin, Real.cos, Real.pi⟩ : JsMath ℝ)
          { (AvatarBorderEffect.new : AvatarBorderEffect ℝ) with segmentCount := 4, rotationSpeed := 0 }) with
        isRunning := true } 0 [] 1 rfl rfl
  have hz : (0 : ℝ) * 0.001 = 0 := by norm_num
  have hg := forEachDefault_get? (⟨Real.sin, Real.cos, Real.pi⟩ : JsMath ℝ) (0 * 0.001) (0 * 0.001 * 0)
    (createWaveSegments (⟨Real.sin, Real.cos, Real.pi⟩ : JsMath ℝ)
      { (AvatarBorderEffect.new : AvatarBorderEffect ℝ) with segmentCount := 4, rotationSpeed := 0 }).waveSegments 0 0
    (createSegment (⟨Real.sin, Real.cos, Real.pi⟩ : JsMath ℝ)
      { (AvatarBorderEffect.new : AvatarBorderEffect ℝ) with segmentCount := 4, rotationSpeed := 0 } 0) rfl
  rw [forEachDefault_eq_spec] at hg
  refine ⟨_, _, hA, ?_, hg, rfl, ?_⟩
  · show (specAdvanceIdle _ _ _ _).length = 4
    rw [← forEachDefault_eq_spec, forEachDefault_length]
    rfl
  · rw [Nat.zero_add, hz, idle_target_at_zero]
    show (90 : ℝ) + 12 = 102
    norm_num

omit [LinearOrderedField α] in
/-- The two ways `initAudio` can end: inactive, or active with the analyser set
and a zero-filled 64-byte array. -/
theorem initAudio_outcome (this : AvatarBorderEffect α) (env : AudioEnv) :
    (initAudio this env).isAudioActive = false ∨
    ((initAudio this env).isAudioActive = true ∧ (initAudio this env).analyser = true ∧
      (initAudio this env).dataArray = some (List.replicate 64 0)) := by
  obtain ⟨g, a, b, c, d⟩ := env
  cases g with
  | none => exact Or.inl rfl
  | some n =>
    by_cases hn : n = 0
    · subst hn
      exact Or.inl rfl
    · cases a <;> cases b <;> cases c <;> cases d <;>
        simp [initAudioTry, initAudio, hn]

omit [LinearOrderedField α] in
theorem initAudio_config (this : AvatarBorderEffect α) (env : AudioEnv) :
    (initAudio this env).segmentCount = this.segmentCount ∧
    (initAudio this env).audioWaveAmplitude = this.audioWaveAmplitude := by
  obtain ⟨g, a, b, c, d⟩ := env
  cases g with
  | none => exact ⟨rfl, rfl⟩
  | some n =>
    by_cases hn : n = 0
    · subst hn
      exact ⟨rfl, rfl⟩
    · cases a <;> cases b <;> cases c <;> cases d <;>
        simp [initAudioTry, initAudio, hn]

/-- A driven update reads `dataArray`, `segmentCount` and `audioWaveAmplitude` of the
effect and nothing else of it. -/
theorem updateSegmentWithAudio_congr [FloorRing α] (M : JsMath α) (X Y : AvatarBorderEffect α)
    (h1 : X.dataArray = Y.dataArray) (h2 : X.segmentCount = Y.segmentCount)
    (h3 : X.audioWaveAmplitude = Y.audioWaveAmplitude) (seg : Segment α) (i : Nat) (t r : α) :
    updateSegmentWithAudio M X seg i t r = updateSegmentWithAudio M Y seg i t r := by
  unfold updateSegmentWithAudio
  rw [h1, h2, h3]

/-! ## Construction (C1) -/

/-- C1 fails as stated for the hue: JavaScript evaluates
`(index / this.segmentCount) * 360` in doubles, and for segment 7 of the
constructor's 80 the result is `8866461766385663 / 2^48 = 31.499999999999996`,
which is not `360·7/80 = 31.5`. -/
theorem createSegment_hue_counterexample :
    Float64.hue 7 (AvatarBorderEffect.new : AvatarBorderEffect ℚ).segmentCount
      = 8866461766385663 / 2 ^ 48 ∧
    Float64.hue 7 (AvatarBorderEffect.new : AvatarBorderEffect ℚ).segmentCount
      ≠ 360 * 7 / 80 := by
  have h : Float64.hue 7 (AvatarBorderEffect.new : AvatarBorderEffect ℚ).segmentCount
      = 8866461766385663 / 2 ^ 48 := Float64.hue_7_80
  refine ⟨h, ?_⟩
  rw [h]
  norm_num

/-- C1, amended: on an effect whose segment list is still empty,
`createWaveSegments` yields exactly `segmentCount` segments, and the `i`-th one
has `angle = (i/N)·π·2` and `hue = (i/N)·360`, each evaluated in that order,
`baseRadius = currentRadius = targetRadius = radius`, `velocity = 0`,
`saturation = 75` and `lightness = 60`. -/
theorem createWaveSegments_spec (M : JsMath α) (this : AvatarBorderEffect α)
    (h : this.waveSegments = []) :
    (createWaveSegments M this).waveSegments.length = this.segmentCount ∧
    ∀ i, i < this.segmentCount →
      ∃ s, (createWaveSegments M this).waveSegments.get? i = some s ∧
        s.angle = ((i : α) / (this.segmentCount : α)) * M.PI * 2 ∧
        s.baseRadius = this.radius ∧ s.currentRadius = this.radius ∧
        s.targetRadius = this.radius ∧ s.velocity = 0 ∧
        s.hue = ((i : α) / (this.segmentCount : α)) * 360 ∧
        s.saturation = 75 ∧ s.lightness = 60 := by
  rw [createWaveSegments_eq, h]
  refine ⟨by simp, fun i hi => ⟨createSegment M this i, ?_, rfl, rfl, rfl, rfl, rfl, rfl, rfl, rfl⟩⟩
  simp [List.get?_eq_getElem?, List.getElem?_map, List.getElem?_range hi]

/-- C1, amended, at the constructor's values: 80 segments around radius 90, and
segment 7 with `hue = (7/80)·360`. -/
theorem createWaveSegments_spec_witness :
    (AvatarBorderEffect.new : AvatarBorderEffect ℝ).waveSegments = [] ∧
    (createWaveSegments ⟨Real.sin, Real.cos, Real.pi⟩
        (AvatarBorderEffect.new : AvatarBorderEffect ℝ)).waveSegments.length = 80 ∧
    ∃ s, (createWaveSegments ⟨Real.sin, Real.cos, Real.pi⟩
        (AvatarBorderEffect.new : AvatarBorderEffect ℝ)).waveSegments.get? 7 = some s ∧
      s.hue = (((7 : ℕ) : ℝ) / ((80 : ℕ) : ℝ)) * 360 ∧ s.baseRadius = 90 :=
  ⟨rfl, (createWaveSegments_spec ⟨Real.sin, Real.cos, Real.pi⟩ AvatarBorderEffect.new rfl).1,
    ((createWaveSegments_spec ⟨Real.sin, Real.cos, Real.pi⟩ AvatarBorderEffect.new rfl).2 7
      (by decide)).imp (fun _ hs => ⟨hs.1, hs.2.2.2.2.2.2.1, hs.2.2.1⟩)⟩

/-! ## The spring step and the clamp (C2, C3, C4) -/

/-- C2: one update stores `velocity' = (v + (T - c) * k) * d`, unclamped, and
`currentRadius' = clamp (c + velocity')`, where `T` is the target of the tick,
`(k, d) = (0.18, 0.72)` with clamp `[base - 10, base + 35]` in driven mode and
`(k, d) = (0.14, 0.78)` with clamp `[base - 8, base + 25]` in idle mode. -/
theorem spring_update_spec [FloorRing α] (M : JsMath α) (this : AvatarBorderEffect α)
    (e : List (Fin 256)) (seg : Segment α) (i : Nat) (t r : α) :
    (∃ s, updateSegmentWithAudio M { this with dataArray := some e } seg i t r = .ok s ∧
      s.velocity = (seg.velocity + (s.targetRadius - seg.currentRadius) * 0.18) * 0.72 ∧
      s.currentRadius
        = max (seg.baseRadius - 10)
            (min (seg.baseRadius + 35) (seg.currentRadius + s.velocity))) ∧
    ((updateSegmentDefault M seg i t r).velocity
        = (seg.velocity
            + ((updateSegmentDefault M seg i t r).targetRadius - seg.currentRadius) * 0.14)
          * 0.78 ∧
      (updateSegmentDefault M seg i t r).currentRadius
        = max (seg.baseRadius - 8)
            (min (seg.baseRadius + 25)
              (seg.currentRadius + (updateSegmentDefault M seg i t r).velocity))) :=
  ⟨⟨_, rfl, rfl, rfl⟩, rfl, rfl⟩

theorem drivenTicks_inv [FloorRing α] (M : JsMath α) (this : AvatarBorderEffect α) (i : Nat)
    (ticks : List (α × List (Fin 256))) (seg : Segment α)
    (hlo : seg.baseRadius - 10 ≤ seg.currentRadius)
    (hhi : seg.currentRadius ≤ seg.baseRadius + 35) :
    ∃ s, drivenTicks M this i seg ticks = .ok s ∧ s.baseRadius = seg.baseRadius ∧
      s.baseRadius - 10 ≤ s.currentRadius ∧ s.currentRadius ≤ s.baseRadius + 35 := by
  induction ticks generalizing seg with
  | nil => exact ⟨seg, rfl, rfl, hlo, hhi⟩
  | cons tick rest ih =>
    obtain ⟨s1, h1, hb, -, -, hc⟩ :=
      driven_ok M this tick.2 seg i tick.1 (tick.1 * this.rotationSpeed)
    have hcl := clamp_bounds (seg.baseRadius - 10) (seg.baseRadius + 35)
      (seg.currentRadius + s1.velocity) (by linarith)
    rw [← hc, ← hb] at hcl
    obtain ⟨s, hs, hsb, hs1, hs2⟩ := ih s1 hcl.1 hcl.2
    refine ⟨s, ?_, hsb.trans hb, hs1, hs2⟩
    show (match drivenTick M this i seg tick with
      | .ok segment' => drivenTicks M this i segment' rest
      | .error e => .error e) = _
    rw [show drivenTick M this i seg tick = .ok s1 from h1]
    exact hs

/-- C3: starting from a freshly constructed segment, every finite sequence of
driven ticks (any times, any byte arrays) runs without error and leaves
`baseRadius - 10 ≤ currentRadius ≤ baseRadius + 35`, with `baseRadius` still the
effect's radius. Every prefix of a sequence is itself a sequence, so the bound
holds after every tick. -/
theorem driven_clamp_invariant [FloorRing α] (M : JsMath α) (this : AvatarBorderEffect α)
    (i : Nat) (ticks : List (α × List (Fin 256))) :
    ∃ s, drivenTicks M this i (createSegment M this i) ticks = .ok s ∧
      s.baseRadius = this.radius ∧
      s.baseRadius - 10 ≤ s.currentRadius ∧ s.currentRadius ≤ s.baseRadius + 35 := by
  have hlo : (createSegment M this i).baseRadius - 10 ≤ (createSegment M this i).currentRadius := by
    show this.radius - 10 ≤ this.radius
    linarith
  have hhi : (createSegment M this i).currentRadius ≤ (createSegment M this i).baseRadius + 35 := by
    show this.radius ≤ this.radius + 35
    linarith
  obtain ⟨s, hs, hb, h1, h2⟩ := drivenTicks_inv M this i ticks _ hlo hhi
  exact ⟨s, hs, hb, h1, h2⟩

/-- C4: from any segment state and at any time, one idle tick leaves
`baseRadius - 8 ≤ currentRadius ≤ baseRadius + 25` (and `baseRadius` unchanged). -/
theorem idle_clamp_invariant (M : JsMath α) (seg : Segment α) (i : Nat) (t r : α) :
    (updateSegmentDefault M seg i t r).baseRadius = seg.baseRadius ∧
    seg.baseRadius - 8 ≤ (updateSegmentDefault M seg i t r).currentRadius ∧
    (updateSegmentDefault M seg i t r).currentRadius ≤ seg.baseRadius + 25 :=
  ⟨rfl, clamp_bounds (seg.baseRadius - 8) (seg.baseRadius + 25) _ (by linarith)⟩

/-! ## Targets and the energy bucket (C5, C6, C7) -/

/-- C5: an idle tick sets
`targetRadius = baseRadius + 11·sin(1.8t + 0.15i) + 8·cos(2.3t + 0.12i)
  + 6·sin(1.4t + 0.18i) + 4·cos(2.8t + 0.10i)`; with the real sine and cosine,
`baseRadius = 90`, `t = 0` and `i = 0` the target is `102`. -/
theorem idle_target_spec :
    (∀ (β : Type) [LinearOrderedField β] (M : JsMath β) (seg : Segment β) (i : Nat) (t r : β),
      (updateSegmentDefault M seg i t r).targetRadius
        = seg.baseRadius + 11 * M.sin (1.8 * t + 0.15 * (i : β))
          + 8 * M.cos (2.3 * t + 0.12 * (i : β)) + 6 * M.sin (1.4 * t + 0.18 * (i : β))
          + 4 * M.cos (2.8 * t + 0.10 * (i : β))) ∧
    (createSegment (⟨Real.sin, Real.cos, Real.pi⟩ : JsMath ℝ) AvatarBorderEffect.new 0).baseRadius
      = 90 ∧
    (updateSegmentDefault (⟨Real.sin, Real.cos, Real.pi⟩ : JsMath ℝ)
      (createSegment ⟨Real.sin, Real.cos, Real.pi⟩ AvatarBorderEffect.new 0) 0 0 0).targetRadius
      = 102 := by
  refine ⟨?_, rfl, ?_⟩
  · intro β _ M seg i t r
    show seg.baseRadius + M.sin (t * 1.8 + (i : β) * 0.15) * 11
        + M.cos (t * 2.3 + (i : β) * 0.12) * 8 + M.sin (t * 1.4 + (i : β) * 0.18) * 6
        + M.cos (t * 2.8 + (i : β) * 0.10) * 4 = _
    rw [mul_comm t 1.8, mul_comm t 2.3, mul_comm t 1.4, mul_comm t 2.8, mul_comm (i : β) 0.15,
      mul_comm (i : β) 0.12, mul_comm (i : β) 0.18, mul_comm (i : β) 0.10]
    ring
  · rw [idle_target_at_zero]
    show (90 : ℝ) + 12 = 102
    norm_num

/-- C6: with the constructor's `audioWaveAmplitude = 20` and at least one
segment, a driven tick succeeds and sets
`targetRadius = baseRadius + (value/255)·20 + 8·sin(2.2t + 0.15i)
  + 6·cos(1.6t + 0.12i) + 4·sin(3.0t + 0.08i)`, where `value` is the byte at the
bucket `Math.floor((i/N)·L)` as JavaScript computes it in doubles, or `0` when the
array has no such entry. The embedding floors the exact product, so the
statement is for the inputs at which the two floors agree; these include every
index of the constructor's 80 segments with the analyser's 64-byte array. -/
theorem driven_target_spec [FloorRing α] (M : JsMath α) (this : AvatarBorderEffect α)
    (e : List (Fin 256)) (seg : Segment α) (i : Nat) (t r : α)
    (hA : this.audioWaveAmplitude = 20) (hN : 1 ≤ this.segmentCount)
    (hfl : Float64.dataIndex this.segmentCount i e.length
      = dataIndex α this.segmentCount i e.length) :
    ∃ s, updateSegmentWithAudio M { this with dataArray := some e } seg i t r = .ok s ∧
      s.targetRadius
        = seg.baseRadius
          + (((e.map (fun b => b.val)).getD
                (Float64.dataIndex this.segmentCount i e.length).toNat 0 : ℕ) : α) / 255 * 20
          + 8 * M.sin (2.2 * t + 0.15 * (i : α)) + 6 * M.cos (1.6 * t + 0.12 * (i : α))
          + 4 * M.sin (3.0 * t + 0.08 * (i : α)) := by
  obtain ⟨s, hs, -, hT, -, -⟩ := driven_ok M this e seg i t r
  refine ⟨s, hs, ?_⟩
  rw [hT, hA, audioValue_eq_getD _ _ _ hN, hfl, dataIndex_eq_div, Int.toNat_ofNat,
    mul_comm t 2.2, mul_comm t 1.6, mul_comm t 3.0,
    mul_comm (i : α) 0.15, mul_comm (i : α) 0.12, mul_comm (i : α) 0.08]
  ring

/-- C6 at the constructor's values: segment 40 of 80, time 0, a 64-byte array of
`255`s, with the real sine and cosine; the byte read is the one at bucket 32. -/
theorem driven_target_spec_witness :
    (AvatarBorderEffect.new : AvatarBorderEffect ℝ).audioWaveAmplitude = 20 ∧
    1 ≤ (AvatarBorderEffect.new : AvatarBorderEffect ℝ).segmentCount ∧
    Float64.dataIndex (AvatarBorderEffect.new : AvatarBorderEffect ℝ).segmentCount 40
        (List.replicate 64 (255 : Fin 256)).length
      = dataIndex ℝ (AvatarBorderEffect.new : AvatarBorderEffect ℝ).segmentCount 40
          (List.replicate 64 (255 : Fin 256)).length ∧
    ∃ s, updateSegmentWithAudio (⟨Real.sin, Real.cos, Real.pi⟩ : JsMath ℝ)
          { (AvatarBorderEffect.new : AvatarBorderEffect ℝ) with
            dataArray := some (List.replicate 64 255) }
          (createSegment ⟨Real.sin, Real.cos, Real.pi⟩ AvatarBorderEffect.new 40) 40 0 0 = .ok s ∧
      s.targetRadius
        = (createSegment (⟨Real.sin, Real.cos, Real.pi⟩ : JsMath ℝ)
              AvatarBorderEffect.new 40).baseRadius
          + ((((List.replicate 64 (255 : Fin 256)).map (fun b => b.val)).getD
                (Float64.dataIndex (AvatarBorderEffect.new : AvatarBorderEffect ℝ).segmentCount 40
                  (List.replicate 64 (255 : Fin 256)).length).toNat 0 : ℕ) : ℝ) / 255
              * 20
          + 8 * Real.sin (2.2 * 0 + 0.15 * ((40 : ℕ) : ℝ))
          + 6 * Real.cos (1.6 * 0 + 0.12 * ((40 : ℕ) : ℝ))
          + 4 * Real.sin (3.0 * 0 + 0.08 * ((40 : ℕ) : ℝ)) :=
  ⟨rfl, by decide,
    (Float64.dataIndex_80_64 40 (by decide)).trans (dataIndex_eq_div 80 40 64).symm,
    driven_target_spec ⟨Real.sin, Real.cos, Real.pi⟩ AvatarBorderEffect.new
      (List.replicate 64 255) _ 40 0 0 rfl (by decide)
      ((Float64.dataIndex_80_64 40 (by decide)).trans (dataIndex_eq_div 80 40 64).symm)⟩

/-- C7: for `N ≥ 1` segments and an energy array of length `L`, the driven update
reads the array at the bucket `Math.floor((i/N)·L)` as JavaScript computes it in
doubles: the target radius and the emitted colour are those of the byte at that
index, or of `0` when the array has no such entry. The embedding floors the
exact product, so the statement is for the inputs at which the two floors agree.
They agree at every index of the constructor's 80 segments with the analyser's
64-byte array, and for `N = 80`, `L = 64`, `i = 40` the bucket is `32`. -/
theorem dataIndex_spec [FloorRing α] (M : JsMath α) (this : AvatarBorderEffect α)
    (e : List (Fin 256)) (seg : Segment α) (i : Nat) (t r : α)
    (hN : 1 ≤ this.segmentCount)
    (hfl : Float64.dataIndex this.segmentCount i e.length
      = dataIndex α this.segmentCount i e.length) :
    (∃ s, updateSegmentWithAudio M { this with dataArray := some e } seg i t r = .ok s ∧
      s.targetRadius
        = seg.baseRadius
          + (((e.map (fun b => b.val)).getD
                (Float64.dataIndex this.segmentCount i e.length).toNat 0 : ℕ) : α) / 255
              * this.audioWaveAmplitude
          + M.sin (t * 2.2 + (i : α) * 0.15) * 8 + M.cos (t * 1.6 + (i : α) * 0.12) * 6
          + M.sin (t * 3.0 + (i : α) * 0.08) * 4 ∧
      s.element.style.backgroundColor
        = ⟨seg.hue,
            min 100 (seg.saturation
              + (((e.map (fun b => b.val)).getD
                    (Float64.dataIndex this.segmentCount i e.length).toNat 0 : ℕ) : α) / 255
                * 20),
            min 95 (seg.lightness
              + (((e.map (fun b => b.val)).getD
                    (Float64.dataIndex this.segmentCount i e.length).toNat 0 : ℕ) : α) / 255
                * 30)⟩) ∧
    (∀ j, j < 80 → Float64.dataIndex 80 j 64 = dataIndex α 80 j 64) ∧
    Float64.dataIndex 80 40 64 = 32 ∧ dataIndex α 80 40 64 = 32 := by
  have hv : audioValue α this.segmentCount i e
      = (e.map (fun b => b.val)).getD
          (Float64.dataIndex this.segmentCount i e.length).toNat 0 := by
    rw [audioValue_eq_getD _ _ _ hN, hfl, dataIndex_eq_div, Int.toNat_ofNat]
  obtain ⟨s, hs, -, -, -, -, -, -, -, -, hcol, -⟩ := driven_frame M this e seg i t r
  obtain ⟨s', hs', -, hT, -, -⟩ := driven_ok M this e seg i t r
  have hss : s' = s := Except.ok.inj (hs'.symm.trans hs)
  subst hss
  refine ⟨⟨s', hs, ?_, ?_⟩, ?_, ?_, ?_⟩
  · rw [hT, hv]
  · rw [hcol, hv]
  · intro j hj
    rw [Float64.dataIndex_80_64 j hj, dataIndex_eq_div]
  · exact Float64.dataIndex_80_64 40 (by decide)
  · rw [dataIndex_eq_div]
    rfl

/-- C7 for the constructor's 80 segments, index 40 and a 64-byte array of `7`s,
with the real sine and cosine: the update succeeds and the bucket is 32. -/
theorem dataIndex_spec_witness :
    1 ≤ (AvatarBorderEffect.new : AvatarBorderEffect ℝ).segmentCount ∧
    Float64.dataIndex (AvatarBorderEffect.new : AvatarBorderEffect ℝ).segmentCount 40
        (List.replicate 64 (7 : Fin 256)).length
      = dataIndex ℝ (AvatarBorderEffect.new : AvatarBorderEffect ℝ).segmentCount 40
          (List.replicate 64 (7 : Fin 256)).length ∧
    (∃ s, updateSegmentWithAudio (⟨Real.sin, Real.cos, Real.pi⟩ : JsMath ℝ)
          { (AvatarBorderEffect.new : AvatarBorderEffect ℝ) with
            dataArray := some (List.replicate 64 7) }
          (createSegment ⟨Real.sin, Real.cos, Real.pi⟩ AvatarBorderEffect.new 40) 40 0 0
        = .ok s) ∧
    Float64.dataIndex 80 40 64 = 32 ∧ dataIndex ℝ 80 40 64 = 32 :=
  ⟨by decide,
    (Float64.dataIndex_80_64 40 (by decide)).trans (dataIndex_eq_div 80 40 64).symm,
    (dataIndex_spec (⟨Real.sin, Real.cos, Real.pi⟩ : JsMath ℝ) AvatarBorderEffect.new
      (List.replicate 64 7) (createSegment ⟨Real.sin, Real.cos, Real.pi⟩ AvatarBorderEffect.new 40)
      40 0 0 (by decide)
      ((Float64.dataIndex_80_64 40 (by decide)).trans (dataIndex_eq_div 80 40 64).symm)).1.imp
      (fun _ hs => hs.1),
    (dataIndex_spec (⟨Real.sin, Real.cos, Real.pi⟩ : JsMath ℝ) AvatarBorderEffect.new
      (List.replicate 64 7) (createSegment ⟨Real.sin, Real.cos, Real.pi⟩ AvatarBorderEffect.new 40)
      40 0 0 (by decide)
      ((Float64.dataIndex_80_64 40 (by decide)).trans (dataIndex_eq_div 80 40 64).symm)).2.2⟩

/-! ## Repeated idle ticks at a fixed time (C8, C9) -/

/-- C8 fails as stated: for a fresh segment 0 of base radius 90 at `t = 0` (target
102, real sine and cosine) the distance to the target is about `0.72` after the
fifth idle tick and about `1.27` after the sixth. -/
theorem idle_distance_counterexample :
    |(idleTicks ⟨Real.sin, Real.cos, Real.pi⟩ 0 0 0 5
        (createSegment ⟨Real.sin, Real.cos, Real.pi⟩ AvatarBorderEffect.new 0)).currentRadius
      - (idleTicks ⟨Real.sin, Real.cos, Real.pi⟩ 0 0 0 5
        (createSegment ⟨Real.sin, Real.cos, Real.pi⟩ AvatarBorderEffect.new 0)).targetRadius|
    < |(idleTicks ⟨Real.sin, Real.cos, Real.pi⟩ 0 0 0 6
        (createSegment ⟨Real.sin, Real.cos, Real.pi⟩ AvatarBorderEffect.new 0)).currentRadius
      - (idleTicks ⟨Real.sin, Real.cos, Real.pi⟩ 0 0 0 6
        (createSegment ⟨Real.sin, Real.cos, Real.pi⟩ AvatarBorderEffect.new 0)).targetRadius| := by
  obtain ⟨h5, t5, h6, t6⟩ := idle_fresh_zero_run
  rw [h5, t5, h6, t6, abs_of_neg (by norm_num), abs_of_pos (by norm_num)]
  norm_num

/-- C8, amended: with `T` the (constant) idle target at the fixed `t` and `i`, and
`T` inside the clamp range `[baseRadius - 8, baseRadius + 25]`, repeated idle
ticks never increase the weighted energy `0.1092·(currentRadius - T)² +
0.8908·velocity²` from one tick to the next. -/
theorem idle_energy_nonincreasing (M : JsMath α) (seg : Segment α) (i : Nat) (t r : α)
    (h1 : seg.baseRadius - 8 ≤ (updateSegmentDefault M seg i t r).targetRadius)
    (h2 : (updateSegmentDefault M seg i t r).targetRadius ≤ seg.baseRadius + 25) (n : Nat) :
    0.1092 * ((idleTicks M i t r (n + 1) seg).currentRadius
          - (updateSegmentDefault M seg i t r).targetRadius) ^ 2
        + 0.8908 * (idleTicks M i t r (n + 1) seg).velocity ^ 2
      ≤ 0.1092 * ((idleTicks M i t r n seg).currentRadius
          - (updateSegmentDefault M seg i t r).targetRadius) ^ 2
        + 0.8908 * (idleTicks M i t r n seg).velocity ^ 2 := by
  have h := idle_energy_ticks M seg i t r _ rfl h1 h2 n
  have hs1 := sq_nonneg ((idleTicks M i t r n seg).currentRadius
    - (updateSegmentDefault M seg i t r).targetRadius)
  have hs2 := sq_nonneg (idleTicks M i t r n seg).velocity
  norm_num at h ⊢
  nlinarith

/-- C8, amended, at a fresh segment 0 of base radius 90 and `t = 0`, between the
fifth and the sixth tick. -/
theorem idle_energy_nonincreasing_witness :
    (createSegment ⟨Real.sin, Real.cos, Real.pi⟩ AvatarBorderEffect.new 0).baseRadius - 8
      ≤ (updateSegmentDefault ⟨Real.sin, Real.cos, Real.pi⟩
          (createSegment ⟨Real.sin, Real.cos, Real.pi⟩ AvatarBorderEffect.new 0) 0 0 0).targetRadius ∧
    (updateSegmentDefault ⟨Real.sin, Real.cos, Real.pi⟩
        (createSegment ⟨Real.sin, Real.cos, Real.pi⟩ AvatarBorderEffect.new 0) 0 0 0).targetRadius
      ≤ (createSegment ⟨Real.sin, Real.cos, Real.pi⟩ AvatarBorderEffect.new 0).baseRadius + 25 ∧
    0.1092 * ((idleTicks ⟨Real.sin, Real.cos, Real.pi⟩ 0 0 0 6
        (createSegment ⟨Real.sin, Real.cos, Real.pi⟩ AvatarBorderEffect.new 0)).currentRadius
          - (updateSegmentDefault ⟨Real.sin, Real.cos, Real.pi⟩
              (createSegment ⟨Real.sin, Real.cos, Real.pi⟩ AvatarBorderEffect.new 0) 0 0 0).targetRadius) ^ 2
        + 0.8908 * (idleTicks ⟨Real.sin, Real.cos, Real.pi⟩ 0 0 0 6
        (createSegment ⟨Real.sin, Real.cos, Real.pi⟩ AvatarBorderEffect.new 0)).velocity ^ 2
      ≤ 0.1092 * ((idleTicks ⟨Real.sin, Real.cos, Real.pi⟩ 0 0 0 5
        (createSegment ⟨Real.sin, Real.cos, Real.pi⟩ AvatarBorderEffect.new 0)).currentRadius
          - (updateSegmentDefault ⟨Real.sin, Real.cos, Real.pi⟩
              (createSegment ⟨Real.sin, Real.cos, Real.pi⟩ AvatarBorderEffect.new 0) 0 0 0).targetRadius) ^ 2
        + 0.8908 * (idleTicks ⟨Real.sin, Real.cos, Real.pi⟩ 0 0 0 5
        (createSegment ⟨Real.sin, Real.cos, Real.pi⟩ AvatarBorderEffect.new 0)).velocity ^ 2 := by
  have h1 : (createSegment ⟨Real.sin, Real.cos, Real.pi⟩ AvatarBorderEffect.new 0).baseRadius - 8
      ≤ (updateSegmentDefault ⟨Real.sin, Real.cos, Real.pi⟩
          (createSegment ⟨Real.sin, Real.cos, Real.pi⟩ AvatarBorderEffect.new 0) 0 0 0).targetRadius := by
    rw [idle_target_at_zero]
    show (90 : ℝ) - 8 ≤ 90 + 12
    norm_num
  have h2 : (updateSegmentDefault ⟨Real.sin, Real.cos, Real.pi⟩
        (createSegment ⟨Real.sin, Real.cos, Real.pi⟩ AvatarBorderEffect.new 0) 0 0 0).targetRadius
      ≤ (createSegment ⟨Real.sin, Real.cos, Real.pi⟩ AvatarBorderEffect.new 0).baseRadius + 25 := by
    rw [idle_target_at_zero]
    show (90 : ℝ) + 12 ≤ 90 + 25
    norm_num
  exact ⟨h1, h2, idle_energy_nonincreasing _ _ 0 0 0 h1 h2 5⟩

/-- C9 fails as stated: for a fresh segment 0 of base radius 90 at `t = 15π/2`
(real sine and cosine) the idle target is below 81 while the clamp keeps
`currentRadius ≥ 82`, so the distance does not tend to 0. -/
theorem idle_convergence_counterexample :
    ¬ Filter.Tendsto
      (fun n : ℕ =>
        |(idleTicks ⟨Real.sin, Real.cos, Real.pi⟩ 0 (15 * Real.pi / 2) 0 n
            (createSegment ⟨Real.sin, Real.cos, Real.pi⟩ AvatarBorderEffect.new 0)).currentRadius
          - (updateSegmentDefault ⟨Real.sin, Real.cos, Real.pi⟩
              (createSegment ⟨Real.sin, Real.cos, Real.pi⟩ AvatarBorderEffect.new 0)
              0 (15 * Real.pi / 2) 0).targetRadius|)
      Filter.atTop (nhds 0) := by
  intro h
  have hT := idle_target_at_15pi_div_2
    (createSegment ⟨Real.sin, Real.cos, Real.pi⟩ AvatarBorderEffect.new 0) 0
  obtain ⟨a, ha⟩ := Filter.eventually_atTop.1 ((tendsto_order.1 h).2 1 one_pos)
  have hlt := ha (a + 1) (Nat.le_succ a)
  have hlo := idleTicks_lower ⟨Real.sin, Real.cos, Real.pi⟩
    (createSegment ⟨Real.sin, Real.cos, Real.pi⟩ AvatarBorderEffect.new 0) 0 (15 * Real.pi / 2) 0 a
  rw [abs_lt] at hlt
  linarith [hlt.2]

/-- C9, amended: when the idle target `T` at the fixed `t` and `i` lies in the
clamp range `[baseRadius - 8, baseRadius + 25]`, repeated idle ticks from any
segment state (a fresh one included) make `|currentRadius - T|` tend to 0. -/
theorem idle_converges (M : JsMath ℝ) (seg : Segment ℝ) (i : Nat) (t r : ℝ)
    (h1 : seg.baseRadius - 8 ≤ (updateSegmentDefault M seg i t r).targetRadius)
    (h2 : (updateSegmentDefault M seg i t r).targetRadius ≤ seg.baseRadius + 25) :
    Filter.Tendsto
      (fun n : ℕ =>
        |(idleTicks M i t r n seg).currentRadius
          - (updateSegmentDefault M seg i t r).targetRadius|)
      Filter.atTop (nhds 0) := by
  set T := (updateSegmentDefault M seg i t r).targetRadius with hTdef
  set E0 := 0.1092 * (seg.currentRadius - T) ^ 2 + 0.8908 * seg.velocity ^ 2 with hE0
  have hpow : Filter.Tendsto (fun n : ℕ => Real.sqrt ((0.8908 : ℝ) ^ n * E0 / 0.1092))
      Filter.atTop (nhds 0) := by
    have hp : Filter.Tendsto (fun n : ℕ => (0.8908 : ℝ) ^ n) Filter.atTop (nhds 0) :=
      tendsto_pow_atTop_nhds_zero_of_lt_one (by norm_num) (by norm_num)
    have hm : Filter.Tendsto (fun n : ℕ => (0.8908 : ℝ) ^ n * E0 / 0.1092) Filter.atTop
        (nhds (0 * E0 / 0.1092)) := (hp.mul_const E0).div_const 0.1092
    have hs := (Real.continuous_sqrt.tendsto (0 * E0 / 0.1092)).comp hm
    simpa using hs
  refine squeeze_zero (fun n => abs_nonneg _) (fun n => ?_) hpow
  have hE : 0.1092 * ((idleTicks M i t r n seg).currentRadius - T) ^ 2
        + 0.8908 * (idleTicks M i t r n seg).velocity ^ 2 ≤ 0.8908 ^ n * E0 :=
    idle_energy_pow M seg i t r T rfl h1 h2 n
  have hv := sq_nonneg (idleTicks M i t r n seg).velocity
  rw [← Real.sqrt_sq_eq_abs]
  apply Real.sqrt_le_sqrt
  rw [le_div_iff₀ (by norm_num)]
  norm_num at hE ⊢
  linarith

/-- C9, amended, at a fresh segment 0 of base radius 90 and `t = 0`, where the
target 102 lies in the clamp range `[82, 115]`. -/
theorem idle_converges_witness :
    (createSegment ⟨Real.sin, Real.cos, Real.pi⟩ AvatarBorderEffect.new 0).baseRadius - 8
      ≤ (updateSegmentDefault ⟨Real.sin, Real.cos, Real.pi⟩
          (createSegment ⟨Real.sin, Real.cos, Real.pi⟩ AvatarBorderEffect.new 0) 0 0 0).targetRadius ∧
    (updateSegmentDefault ⟨Real.sin, Real.cos, Real.pi⟩
        (createSegment ⟨Real.sin, Real.cos, Real.pi⟩ AvatarBorderEffect.new 0) 0 0 0).targetRadius
      ≤ (createSegment ⟨Real.sin, Real.cos, Real.pi⟩ AvatarBorderEffect.new 0).baseRadius + 25 ∧
    Filter.Tendsto
      (fun n : ℕ =>
        |(idleTicks ⟨Real.sin, Real.cos, Real.pi⟩ 0 0 0 n
            (createSegment ⟨Real.sin, Real.cos, Real.pi⟩ AvatarBorderEffect.new 0)).currentRadius
          - (updateSegmentDefault ⟨Real.sin, Real.cos, Real.pi⟩
              (createSegment ⟨Real.sin, Real.cos, Real.pi⟩ AvatarBorderEffect.new 0) 0 0 0).targetRadius|)
      Filter.atTop (nhds 0) := by
  have h1 : (createSegment ⟨Real.sin, Real.cos, Real.pi⟩ AvatarBorderEffect.new 0).baseRadius - 8
      ≤ (updateSegmentDefault ⟨Real.sin, Real.cos, Real.pi⟩
          (createSegment ⟨Real.sin, Real.cos, Real.pi⟩ AvatarBorderEffect.new 0) 0 0 0).targetRadius := by
    rw [idle_target_at_zero]
    show (90 : ℝ) - 8 ≤ 90 + 12
    norm_num
  have h2 : (updateSegmentDefault ⟨Real.sin, Real.cos, Real.pi⟩
        (createSegment ⟨Real.sin, Real.cos, Real.pi⟩ AvatarBorderEffect.new 0) 0 0 0).targetRadius
      ≤ (createSegment ⟨Real.sin, Real.cos, Real.pi⟩ AvatarBorderEffect.new 0).baseRadius + 25 := by
    rw [idle_target_at_zero]
    show (90 : ℝ) + 12 ≤ 90 + 25
    norm_num
  exact ⟨h1, h2, idle_converges _ _ 0 0 0 h1 h2⟩

/-! ## Damping of the spring recurrence (C10) -/

/-- C10 fails as stated: for neither pair of constants is `(1 - d·k + d)² = 4·d`,
and the unclamped recurrence started at rest at radius 90 with constant target
102 is above the target after six steps, in both modes. -/
theorem critical_damping_counterexample :
    ((1 : ℚ) - 0.72 * 0.18 + 0.72) ^ 2 ≠ 4 * 0.72 ∧
    ((1 : ℚ) - 0.78 * 0.14 + 0.78) ^ 2 ≠ 4 * 0.78 ∧
    102 < ((springStep (0.18 : ℚ) 0.72 102)^[6] (90, 0)).1 ∧
    102 < ((springStep (0.14 : ℚ) 0.78 102)^[6] (90, 0)).1 := by
  refine ⟨by norm_num, by norm_num, ?_, ?_⟩ <;>
    norm_num [springStep, Function.iterate_succ]

/-- C10, amended: both updates run the recurrence `springStep` (driven with
`(k, d) = (0.18, 0.72)`, idle with `(0.14, 0.78)`) before clamping, and for both
pairs the recurrence is underdamped: `(1 - d·k + d)² < 4·d`, its linear update
has no real eigenvector, and with a constant target `T` and no clamping the
radius started at rest at `c0` is, after six steps, on the other side of `T` by
at least a tenth of the initial distance. -/
theorem spring_underdamped [FloorRing α] (M : JsMath α) (this : AvatarBorderEffect α)
    (e : List (Fin 256)) (seg : Segment α) (i : Nat) (t r T c0 : α) :
    (∃ s, updateSegmentWithAudio M { this with dataArray := some e } seg i t r = .ok s ∧
      s.velocity
        = (springStep 0.18 0.72 s.targetRadius (seg.currentRadius, seg.velocity)).2 ∧
      s.currentRadius
        = max (seg.baseRadius - 10) (min (seg.baseRadius + 35)
            (springStep 0.18 0.72 s.targetRadius (seg.currentRadius, seg.velocity)).1)) ∧
    (updateSegmentDefault M seg i t r).velocity
      = (springStep 0.14 0.78 (updateSegmentDefault M seg i t r).targetRadius
          (seg.currentRadius, seg.velocity)).2 ∧
    (updateSegmentDefault M seg i t r).currentRadius
      = max (seg.baseRadius - 8) (min (seg.baseRadius + 25)
          (springStep 0.14 0.78 (updateSegmentDefault M seg i t r).targetRadius
            (seg.currentRadius, seg.velocity)).1) ∧
    ((1 : α) - 0.72 * 0.18 + 0.72) ^ 2 < 4 * 0.72 ∧
    ((1 : α) - 0.78 * 0.14 + 0.78) ^ 2 < 4 * 0.78 ∧
    (¬ ∃ l x y : α, (x ≠ 0 ∨ y ≠ 0) ∧ springStep 0.18 0.72 0 (x, y) = (l * x, l * y)) ∧
    (¬ ∃ l x y : α, (x ≠ 0 ∨ y ≠ 0) ∧ springStep 0.14 0.78 0 (x, y) = (l * x, l * y)) ∧
    (((springStep 0.18 0.72 T)^[6] (c0, 0)).1 - T) * (c0 - T) ≤ -((c0 - T) ^ 2 / 10) ∧
    (((springStep 0.14 0.78 T)^[6] (c0, 0)).1 - T) * (c0 - T) ≤ -((c0 - T) ^ 2 / 10) := by
  have hd1 : ((1 : α) - 0.72 * 0.18 + 0.72) ^ 2 < 4 * 0.72 := by norm_num
  have hd2 : ((1 : α) - 0.78 * 0.14 + 0.78) ^ 2 < 4 * 0.78 := by norm_num
  refine ⟨⟨_, rfl, rfl, rfl⟩, rfl, rfl, hd1, hd2, springStep_no_eigen _ _ hd1,
    springStep_no_eigen _ _ hd2, ?_, ?_⟩
  · have h := sq_nonneg (c0 - T)
    rw [springStep_driven_six]
    norm_num
    nlinarith
  · have h := sq_nonneg (c0 - T)
    rw [springStep_idle_six]
    norm_num
    nlinarith

/-! ## Idle ticks carry spring state (C11) -/

/-- C11: the idle update is not idempotent. For a fresh segment 0 of base radius 90
at `t = 0` (real sine and cosine), one idle update gives
`(currentRadius, velocity) = (91.3104, 1.3104)` and a second one with the same
`t` gives `(93.49981632, 2.18941632)`. -/
theorem idle_not_idempotent :
    ((updateSegmentDefault ⟨Real.sin, Real.cos, Real.pi⟩
        (createSegment ⟨Real.sin, Real.cos, Real.pi⟩ AvatarBorderEffect.new 0) 0 0 0).currentRadius,
      (updateSegmentDefault ⟨Real.sin, Real.cos, Real.pi⟩
        (createSegment ⟨Real.sin, Real.cos, Real.pi⟩ AvatarBorderEffect.new 0) 0 0 0).velocity) = (91.3104, 1.3104) ∧
    ((updateSegmentDefault ⟨Real.sin, Real.cos, Real.pi⟩
        (updateSegmentDefault ⟨Real.sin, Real.cos, Real.pi⟩
        (createSegment ⟨Real.sin, Real.cos, Real.pi⟩ AvatarBorderEffect.new 0) 0 0 0) 0 0 0).currentRadius,
      (updateSegmentDefault ⟨Real.sin, Real.cos, Real.pi⟩
        (updateSegmentDefault ⟨Real.sin, Real.cos, Real.pi⟩
        (createSegment ⟨Real.sin, Real.cos, Real.pi⟩ AvatarBorderEffect.new 0) 0 0 0) 0 0 0).velocity) = (93.49981632, 2.18941632) ∧
    ((updateSegmentDefault ⟨Real.sin, Real.cos, Real.pi⟩
        (updateSegmentDefault ⟨Real.sin, Real.cos, Real.pi⟩
        (createSegment ⟨Real.sin, Real.cos, Real.pi⟩ AvatarBorderEffect.new 0) 0 0 0) 0 0 0).currentRadius,
      (updateSegmentDefault ⟨Real.sin, Real.cos, Real.pi⟩
        (updateSegmentDefault ⟨Real.sin, Real.cos, Real.pi⟩
        (createSegment ⟨Real.sin, Real.cos, Real.pi⟩ AvatarBorderEffect.new 0) 0 0 0) 0 0 0).velocity)
    ≠ ((updateSegmentDefault ⟨Real.sin, Real.cos, Real.pi⟩
        (createSegment ⟨Real.sin, Real.cos, Real.pi⟩ AvatarBorderEffect.new 0) 0 0 0).currentRadius,
      (updateSegmentDefault ⟨Real.sin, Real.cos, Real.pi⟩
        (createSegment ⟨Real.sin, Real.cos, Real.pi⟩ AvatarBorderEffect.new 0) 0 0 0).velocity) := by
  obtain ⟨c1, v1, c2, v2⟩ := idle_fresh_zero_two
  have c1' : (updateSegmentDefault ⟨Real.sin, Real.cos, Real.pi⟩
        (createSegment ⟨Real.sin, Real.cos, Real.pi⟩ AvatarBorderEffect.new 0) 0 0 0).currentRadius = 91.3104 := c1
  have v1' : (updateSegmentDefault ⟨Real.sin, Real.cos, Real.pi⟩
        (createSegment ⟨Real.sin, Real.cos, Real.pi⟩ AvatarBorderEffect.new 0) 0 0 0).velocity = 1.3104 := v1
  have c2' : (updateSegmentDefault ⟨Real.sin, Real.cos, Real.pi⟩
        (updateSegmentDefault ⟨Real.sin, Real.cos, Real.pi⟩
        (createSegment ⟨Real.sin, Real.cos, Real.pi⟩ AvatarBorderEffect.new 0) 0 0 0) 0 0 0).currentRadius = 93.49981632 := c2
  have v2' : (updateSegmentDefault ⟨Real.sin, Real.cos, Real.pi⟩
        (updateSegmentDefault ⟨Real.sin, Real.cos, Real.pi⟩
        (createSegment ⟨Real.sin, Real.cos, Real.pi⟩ AvatarBorderEffect.new 0) 0 0 0) 0 0 0).velocity = 2.18941632 := v2
  rw [c1', v1', c2', v2']
  refine ⟨rfl, rfl, ?_⟩
  intro h
  have h1 := congrArg Prod.fst h
  norm_num at h1

/-! ## Audio acquisition and the animation loop (C12, C13, C14, C15) -/

/-- C12: when `initAudio` takes its catch branch in `init` (effect not yet
running), the field ends with `isAudioActive = false`, `start()` and every later
frame succeed, and after any number of frames the segments are exactly those of
the spec's field advanced with `energy = absent` at the same times: each frame
applies `updateSegmentDefault` with `rotatedAngle = angle + time * rotationSpeed`
to every segment. -/
theorem failed_audio_is_idle [FloorRing α] (M : JsMath α) (this : AvatarBorderEffect α)
    (env : AudioEnv) (now : α) (freq : List (Fin 256)) (id : Nat)
    (ticks : List (α × List (Fin 256) × Nat))
    (hfail : ∃ p, initAudioTry this env = .error p) (hrun : this.isRunning = false) :
    (initAudio this env).isAudioActive = false ∧
    ∃ s1 s, initResume M this env now freq id = .ok s1 ∧ animateTicks M s1 ticks = .ok s ∧
      s.isAudioActive = false ∧
      s.waveSegments
        = specIdleRun M this.rotationSpeed this.waveSegments
            (now :: ticks.map (fun tick => tick.1)) := by
  obtain ⟨p, hp⟩ := hfail
  have hidle := (initAudio_failed this env p hp).1
  obtain ⟨f1, f2, f3, -⟩ := initAudio_frame this env
  have h1 : initResume M this env now freq id
      = .ok { (initAudio this env) with
              isRunning := true
              waveSegments :=
                specAdvanceIdle M (initAudio this env).waveSegments (now * 0.001)
                  (initAudio this env).rotationSpeed
              animationId := some id } := by
    unfold initResume start
    simp only [f1, hrun, Bool.false_eq_true, if_false]
    exact animate_idle M _ now freq id rfl hidle
  obtain ⟨s, hs, a1, -, a3⟩ := animateTicks_idle M ticks _ (show
    ({ (initAudio this env) with
        isRunning := true
        waveSegments :=
          specAdvanceIdle M (initAudio this env).waveSegments (now * 0.001)
            (initAudio this env).rotationSpeed
        animationId := some id } : AvatarBorderEffect α).isRunning = true from rfl) hidle
  refine ⟨hidle, _, s, h1, hs, a1, ?_⟩
  rw [a3]
  show specIdleRun M (initAudio this env).rotationSpeed
      (specAdvanceIdle M (initAudio this env).waveSegments (now * 0.001)
        (initAudio this env).rotationSpeed) _ = _
  rw [f2, f3]
  rfl

/-- C12 for the constructor's effect with one fresh segment, a rejected
`getDisplayMedia`, and the first frame only. -/
theorem failed_audio_is_idle_witness :
    (∃ p, initAudioTry
        { (AvatarBorderEffect.new : AvatarBorderEffect ℝ) with
          waveSegments := [createSegment (⟨Real.sin, Real.cos, Real.pi⟩ : JsMath ℝ) AvatarBorderEffect.new 0] }
        ⟨none, true, true, true, true⟩ = .error p) ∧
    ({ (AvatarBorderEffect.new : AvatarBorderEffect ℝ) with
        waveSegments := [createSegment (⟨Real.sin, Real.cos, Real.pi⟩ : JsMath ℝ) AvatarBorderEffect.new 0] }
      : AvatarBorderEffect ℝ).isRunning = false ∧
    ∃ s1 s, initResume (⟨Real.sin, Real.cos, Real.pi⟩ : JsMath ℝ)
        { (AvatarBorderEffect.new : AvatarBorderEffect ℝ) with
          waveSegments := [createSegment (⟨Real.sin, Real.cos, Real.pi⟩ : JsMath ℝ) AvatarBorderEffect.new 0] }
        ⟨none, true, true, true, true⟩ 0 [] 1 = .ok s1 ∧
      animateTicks (⟨Real.sin, Real.cos, Real.pi⟩ : JsMath ℝ) s1 [] = .ok s ∧ s.isAudioActive = false ∧
      s.waveSegments
        = specIdleRun (⟨Real.sin, Real.cos, Real.pi⟩ : JsMath ℝ) (AvatarBorderEffect.new : AvatarBorderEffect ℝ).rotationSpeed
            [createSegment (⟨Real.sin, Real.cos, Real.pi⟩ : JsMath ℝ) AvatarBorderEffect.new 0] [0] :=
  ⟨⟨_, rfl⟩, rfl,
    (failed_audio_is_idle (⟨Real.sin, Real.cos, Real.pi⟩ : JsMath ℝ)
      { (AvatarBorderEffect.new : AvatarBorderEffect ℝ) with
        waveSegments := [createSegment (⟨Real.sin, Real.cos, Real.pi⟩ : JsMath ℝ) AvatarBorderEffect.new 0] }
      ⟨none, true, true, true, true⟩ 0 [] 1 [] ⟨_, rfl⟩ rfl).2⟩

omit [LinearOrderedField α] in
/-- C13: `initAudio` is a total function of the outcome of its acquisition steps:
either some step fails (rejected `getDisplayMedia`, no audio track, a throwing
constructor or call), the `try` block throws, and `initAudio` returns with
`isAudioActive = false`; or every step succeeds and it returns with
`isAudioActive = true`, the analyser set and a zero-filled 64-byte `dataArray`. -/
theorem initAudio_never_fails (this : AvatarBorderEffect α) (env : AudioEnv) :
    (((match env.getDisplayMedia with
          | some n => decide (n ≠ 0)
          | none => false) && env.audioContextCtor && env.createAnalyser
        && env.createMediaStreamSource && env.connect) = false ∧
      (∃ p, initAudioTry this env = .error p) ∧
      (initAudio this env).isAudioActive = false) ∨
    (((match env.getDisplayMedia with
          | some n => decide (n ≠ 0)
          | none => false) && env.audioContextCtor && env.createAnalyser
        && env.createMediaStreamSource && env.connect) = true ∧
      (∃ s, initAudioTry this env = .ok s) ∧
      (initAudio this env).isAudioActive = true ∧
      (initAudio this env).dataArray = some (List.replicate 64 0) ∧
      (initAudio this env).analyser = true ∧
      (initAudio this env).audioContext = some ⟨false⟩) := by
  obtain ⟨g, a, b, c, d⟩ := env
  cases g with
  | none => exact Or.inl ⟨rfl, ⟨_, rfl⟩, rfl⟩
  | some n =>
    by_cases hn : n = 0
    · subst hn
      exact Or.inl ⟨rfl, ⟨_, rfl⟩, rfl⟩
    · cases a <;> cases b <;> cases c <;> cases d <;>
        simp [initAudioTry, initAudio, hn]

/-- C14 fails as stated: when the constructor of the effect returns, `init` is
suspended in `await this.initAudio()`; the field is not running and no frame has
been requested. -/
theorem init_running_counterexample :
    (initSync (⟨Real.sin, Real.cos, Real.pi⟩ : JsMath ℝ) (AvatarBorderEffect.new : AvatarBorderEffect ℝ)).isRunning = false ∧
    (initSync (⟨Real.sin, Real.cos, Real.pi⟩ : JsMath ℝ) (AvatarBorderEffect.new : AvatarBorderEffect ℝ)).animationId = none := by
  unfold initSync
  rw [createWaveSegments_eq]
  exact ⟨rfl, rfl⟩

/-- C14, amended: `init` starts the loop only after `initAudio` has completed.
While the acquisition is pending the field is not running, no frame is
requested and the segments are as constructed. Once `getDisplayMedia` settles,
whether acquisition succeeds or fails, `start()` runs, the first frame is
performed and the next one requested: the field is running, and every segment
`i` is the constructed one after one update at `time = now * 0.001`, the idle
update when acquisition failed and the driven update on the refilled 64-byte
array when it succeeded. -/
theorem init_starts_after_audio [FloorRing α] (M : JsMath α) (this : AvatarBorderEffect α)
    (env : AudioEnv) (now : α) (freq : List (Fin 256)) (id : Nat)
    (hrun : this.isRunning = false) (hseg : this.waveSegments = []) :
    (initSync M this).isRunning = false ∧
    (initSync M this).animationId = this.animationId ∧
    (initSync M this).waveSegments = (List.range this.segmentCount).map (createSegment M this) ∧
    ∃ s, initResume M (initSync M this) env now freq id = .ok s ∧
      s.isRunning = true ∧ s.animationId = some id ∧
      s.isAudioActive = (initAudio (initSync M this) env).isAudioActive ∧
      s.waveSegments.length = this.segmentCount ∧
      ∀ i, i < this.segmentCount →
        ∃ seg', s.waveSegments.get? i = some seg' ∧
          ((s.isAudioActive = false ∧
              seg' = updateSegmentDefault M (createSegment M this i) i (now * 0.001)
                ((createSegment M this i).angle + now * 0.001 * this.rotationSpeed)) ∨
            (s.isAudioActive = true ∧
              updateSegmentWithAudio M
                  { this with
                    dataArray := some (getByteFrequencyData (List.replicate 64 0) freq) }
                  (createSegment M this i) i (now * 0.001) (now * 0.001 * this.rotationSpeed)
                = .ok seg')) := by
  have h0 : (initSync M this).isRunning = false := by
    unfold initSync
    rw [createWaveSegments_eq]
    exact hrun
  have hw : (initSync M this).waveSegments
      = (List.range this.segmentCount).map (createSegment M this) := by
    unfold initSync
    rw [createWaveSegments_eq, hseg]
    rfl
  have hcfg : (initSync M this).segmentCount = this.segmentCount ∧
      (initSync M this).audioWaveAmplitude = this.audioWaveAmplitude ∧
      (initSync M this).rotationSpeed = this.rotationSpeed := by
    unfold initSync
    rw [createWaveSegments_eq]
    exact ⟨rfl, rfl, rfl⟩
  refine ⟨h0, ?_, hw, ?_⟩
  · unfold initSync
    rw [createWaveSegments_eq]
  obtain ⟨f1, f2, f3, -⟩ := initAudio_frame (initSync M this) env
  obtain ⟨c1, c2⟩ := initAudio_config (initSync M this) env
  have hget : ∀ i, i < this.segmentCount →
      (initAudio (initSync M this) env).waveSegments.get? i = some (createSegment M this i) := by
    intro i hi
    rw [f2, hw]
    simp [List.get?_eq_getElem?, List.getElem?_map, List.getElem?_range hi]
  have hlen : (initAudio (initSync M this) env).waveSegments.length = this.segmentCount := by
    rw [f2, hw]
    simp
  have hstart : initResume M (initSync M this) env now freq id
      = animate M { (initAudio (initSync M this) env) with isRunning := true } now freq id := by
    unfold initResume start
    simp only [f1.trans h0, Bool.false_eq_true, if_false]
  rw [hstart]
  rcases animate_cases M { (initAudio (initSync M this) env) with isRunning := true } now freq id
      rfl with ⟨d, segs', hd, hact, hfe, ha⟩ | ⟨hidle, ha⟩
  · have hactive : (initAudio (initSync M this) env).isAudioActive = true := by
      have h : ((initAudio (initSync M this) env).isAudioActive
          && (initAudio (initSync M this) env).analyser) = true := hact
      rw [Bool.and_eq_true] at h
      exact h.1
    have hd0 : (initAudio (initSync M this) env).dataArray = some (List.replicate 64 0) := by
      rcases initAudio_outcome (initSync M this) env with h | h
      · rw [h] at hactive
        cases hactive
      · exact h.2.2
    have hdd : d = List.replicate 64 0 := by
      have h : (initAudio (initSync M this) env).dataArray = some d := hd
      rw [hd0] at h
      exact (Option.some.inj h).symm
    subst hdd
    obtain ⟨segs'', hs'', hl'', hg''⟩ :=
      forEachWithAudio_ok M
        { ({ (initAudio (initSync M this) env) with isRunning := true } : AvatarBorderEffect α) with
          dataArray := some (getByteFrequencyData (List.replicate 64 0) freq) }
        (getByteFrequencyData (List.replicate 64 0) freq) rfl (now * 0.001)
        (now * 0.001 * (initAudio (initSync M this) env).rotationSpeed)
        (initAudio (initSync M this) env).waveSegments 0
    have hsame : segs'' = segs' := Except.ok.inj (hs''.symm.trans hfe)
    subst hsame
    refine ⟨_, ha, rfl, rfl, rfl, hl''.trans hlen, ?_⟩
    intro i hi
    obtain ⟨seg', g1, g2⟩ := hg'' i _ (hget i hi)
    refine ⟨seg', g1, Or.inr ⟨hactive, ?_⟩⟩
    rw [Nat.zero_add, f3, hcfg.2.2] at g2
    rw [← g2]
    apply updateSegmentWithAudio_congr
    · rfl
    · exact (c1.trans hcfg.1).symm
    · exact (c2.trans hcfg.2.1).symm
  · have hinactive : (initAudio (initSync M this) env).isAudioActive = false := by
      rcases initAudio_outcome (initSync M this) env with h | h
      · exact h
      · rcases hidle with hn | hn
        · have h' : (initAudio (initSync M this) env).dataArray = none := hn
          rw [h.2.2] at h'
          cases h'
        · have h' : ((initAudio (initSync M this) env).isAudioActive
              && (initAudio (initSync M this) env).analyser) = false := hn
          rw [h.1, h.2.1] at h'
          cases h'
    refine ⟨_, ha, rfl, rfl, rfl, ?_, ?_⟩
    · show (forEachDefault M _ _ 0 (initAudio (initSync M this) env).waveSegments).length = _
      rw [forEachDefault_length, hlen]
    · intro i hi
      refine ⟨_, forEachDefault_get? M _ _ _ 0 i _ (hget i hi), Or.inl ⟨hinactive, ?_⟩⟩
      rw [Nat.zero_add, f3, hcfg.2.2]

/-- C14, amended, for the constructor's effect with a rejected `getDisplayMedia`:
after the rejection the field is running in idle mode with its 80 segments. -/
theorem init_starts_after_audio_witness :
    (AvatarBorderEffect.new : AvatarBorderEffect ℝ).isRunning = false ∧
    (AvatarBorderEffect.new : AvatarBorderEffect ℝ).waveSegments = [] ∧
    (initSync (⟨Real.sin, Real.cos, Real.pi⟩ : JsMath ℝ) (AvatarBorderEffect.new : AvatarBorderEffect ℝ)).isRunning = false ∧
    ∃ s, initResume (⟨Real.sin, Real.cos, Real.pi⟩ : JsMath ℝ) (initSync (⟨Real.sin, Real.cos, Real.pi⟩ : JsMath ℝ) (AvatarBorderEffect.new : AvatarBorderEffect ℝ))
          ⟨none, true, true, true, true⟩ 0 [] 1 = .ok s ∧
      s.isRunning = true ∧ s.animationId = some 1 ∧ s.isAudioActive = false ∧
      s.waveSegments.length = 80 :=
  ⟨rfl, rfl,
    (init_starts_after_audio (⟨Real.sin, Real.cos, Real.pi⟩ : JsMath ℝ) (AvatarBorderEffect.new : AvatarBorderEffect ℝ)
      ⟨none, true, true, true, true⟩ 0 [] 1 rfl rfl).1,
    (init_starts_after_audio (⟨Real.sin, Real.cos, Real.pi⟩ : JsMath ℝ) (AvatarBorderEffect.new : AvatarBorderEffect ℝ)
      ⟨none, true, true, true, true⟩ 0 [] 1 rfl rfl).2.2.2.imp
      (fun _ hs => ⟨hs.1, hs.2.1, hs.2.2.1, hs.2.2.2.1, hs.2.2.2.2.1⟩)⟩

omit [LinearOrderedField α] in
/-- C15: `destroy()` is a total function of the effect's state. Whatever the
audio setup reached (handles of `requestAnimationFrame` are non-zero), it leaves
`isRunning = false`, `animationId = null` and `waveSegments` empty; a `null`
audio context stays `null` and an acquired one is closed. -/
theorem destroy_safe (this : AvatarBorderEffect α) (hid : this.animationId ≠ some 0) :
    (destroy this).isRunning = false ∧ (destroy this).animationId = none ∧
    (destroy this).waveSegments = [] ∧
    (destroy this).audioContext = this.audioContext.map (fun _ => ⟨true⟩) := by
  unfold destroy stop
  cases ha : this.animationId with
  | none => cases hc : this.audioContext <;> simp [hc]
  | some id =>
    have hne : id ≠ 0 := by
      rintro rfl
      exact hid ha
    cases hc : this.audioContext <;> simp [hc, hne]

/-- C15 on the constructor's effect, whose audio setup never completed. -/
theorem destroy_safe_witness :
    (AvatarBorderEffect.new : AvatarBorderEffect ℝ).animationId ≠ some 0 ∧
    (destroy (AvatarBorderEffect.new : AvatarBorderEffect ℝ)).isRunning = false ∧
    (destroy (AvatarBorderEffect.new : AvatarBorderEffect ℝ)).animationId = none ∧
    (destroy (AvatarBorderEffect.new : AvatarBorderEffect ℝ)).waveSegments = [] ∧
    (destroy (AvatarBorderEffect.new : AvatarBorderEffect ℝ)).audioContext = none :=
  ⟨by simp [AvatarBorderEffect.new],
    destroy_safe (AvatarBorderEffect.new : AvatarBorderEffect ℝ) (by simp [AvatarBorderEffect.new])⟩

/-! ## Emitted colour and position (C16, C17, C18) -/

/-- C16: after any history of frames on a segment built by `createSegment`, a
driven tick with energy byte `v` for the segment's bucket succeeds and emits a
colour with the segment's hue `360·i/N`, lightness `min(95, 60 + (v/255)·30)` and
saturation `min(100, 75 + (v/255)·20)`. -/
theorem driven_color_spec [FloorRing α] (M : JsMath α) (this : AvatarBorderEffect α) (i : Nat)
    (history : List (Tick α)) (e : List (Fin 256)) (t r : α) :
    ∃ s0 s, segmentTicks M this i (createSegment M this i) history = .ok s0 ∧
      updateSegmentWithAudio M { this with dataArray := some e } s0 i t r = .ok s ∧
      s0.hue = 360 * (i : α) / (this.segmentCount : α) ∧
      s.element.style.backgroundColor.hue = s0.hue ∧
      s.element.style.backgroundColor.lightness
        = min 95 (60 + ((audioValue α this.segmentCount i e : α) / 255) * 30) ∧
      s.element.style.backgroundColor.saturation
        = min 100 (75 + ((audioValue α this.segmentCount i e : α) / 255) * 20) := by
  obtain ⟨s0, hs0, -, -, h3, h4, h5, -⟩ :=
    segmentTicks_frame M this i history (createSegment M this i)
  obtain ⟨s, hs, -, -, -, -, -, -, -, -, hcol, -⟩ := driven_frame M this e s0 i t r
  have hsat : s0.saturation = 75 := h4
  have hlig : s0.lightness = 60 := h5
  refine ⟨s0, s, hs0, hs, ?_, ?_, ?_, ?_⟩
  · rw [h3]
    show ((i : α) / (this.segmentCount : α)) * 360 = _
    ring
  · rw [hcol]
  · rw [hcol, hlig]
  · rw [hcol, hsat]

/-- C17: after any history of frames (driven or idle) on a segment built by
`createSegment`, an idle tick at any time emits exactly the colour that
`createSegment` gave the segment, which is `hsl(hue, 75%, 60%)` with the hue
`(i/N)·360` as `createSegment` computes it. -/
theorem idle_color_spec [FloorRing α] (M : JsMath α) (this : AvatarBorderEffect α) (i : Nat)
    (history : List (Tick α)) (t r : α) :
    ∃ s0, segmentTicks M this i (createSegment M this i) history = .ok s0 ∧
      (updateSegmentDefault M s0 i t r).element.style.backgroundColor
        = (createSegment M this i).element.style.backgroundColor ∧
      (createSegment M this i).element.style.backgroundColor
        = ⟨(createSegment M this i).hue, 75, 60⟩ ∧
      (createSegment M this i).hue = ((i : α) / (this.segmentCount : α)) * 360 := by
  obtain ⟨s0, hs0, -, -, h3, h4, h5, -⟩ :=
    segmentTicks_frame M this i history (createSegment M this i)
  refine ⟨s0, hs0, ?_, rfl, rfl⟩
  show (⟨s0.hue, s0.saturation, s0.lightness⟩ : Hsl α) = _
  rw [h3, h4, h5]
  rfl

/-- C18: in a frame of a running effect at `time = now * 0.001`, the segment at
position `i` is written at `x = cos(angle + time·rotationSpeed)·currentRadius`,
`y = sin(angle + time·rotationSpeed)·currentRadius`, where `currentRadius` is the
radius clamped after the spring step of that frame: to `[base - 10, base + 35]`
in the driven branch and to `[base - 8, base + 25]` in the idle branch. -/
theorem animate_position [FloorRing α] (M : JsMath α) (this : AvatarBorderEffect α) (now : α)
    (freq : List (Fin 256)) (id i : Nat) (seg : Segment α)
    (hrun : this.isRunning = true) (hseg : this.waveSegments.get? i = some seg) :
    ∃ s seg', animate M this now freq id = .ok s ∧ s.waveSegments.get? i = some seg' ∧
      seg'.angle = seg.angle ∧
      seg'.element.style.left
        = M.cos (seg.angle + now * 0.001 * this.rotationSpeed) * seg'.currentRadius ∧
      seg'.element.style.top
        = M.sin (seg.angle + now * 0.001 * this.rotationSpeed) * seg'.currentRadius ∧
      ((this.dataArray ≠ none ∧ (this.isAudioActive && this.analyser) = true ∧
          seg'.currentRadius
            = max (seg.baseRadius - 10)
                (min (seg.baseRadius + 35) (seg.currentRadius + seg'.velocity))) ∨
        ((this.dataArray = none ∨ (this.isAudioActive && this.analyser) = false) ∧
          seg'.currentRadius
            = max (seg.baseRadius - 8)
                (min (seg.baseRadius + 25) (seg.currentRadius + seg'.velocity)))) := by
  rcases animate_cases M this now freq id hrun with ⟨d, segs', hd, hb, hsegs, h⟩ | ⟨hmode, h⟩
  · obtain ⟨segs'', hsegs', -, hget⟩ :=
      forEachWithAudio_ok M { this with dataArray := some (getByteFrequencyData d freq) }
        (getByteFrequencyData d freq) rfl (now * 0.001) (now * 0.001 * this.rotationSpeed)
        this.waveSegments 0
    have heq : segs'' = segs' := by
      rw [hsegs] at hsegs'
      exact (Except.ok.inj hsegs').symm
    subst heq
    obtain ⟨seg', g1, g2⟩ := hget i seg hseg
    rw [Nat.zero_add] at g2
    obtain ⟨s', hs', a1, -, -, -, -, -, a7, a8, -, a10⟩ :=
      driven_frame M this (getByteFrequencyData d freq) seg i (now * 0.001)
        (now * 0.001 * this.rotationSpeed)
    have hss : s' = seg' := by
      have : (Except.ok s' : Except String (Segment α)) = .ok seg' := hs'.symm.trans g2
      exact Except.ok.inj this
    subst hss
    refine ⟨_, s', h, g1, a1, a7, a8, Or.inl ⟨?_, hb, a10⟩⟩
    rw [hd]
    exact fun hnone => Option.noConfusion hnone
  · have g := forEachDefault_get? M (now * 0.001) (now * 0.001 * this.rotationSpeed)
      this.waveSegments 0 i seg hseg
    rw [Nat.zero_add] at g
    exact ⟨_, _, h, g, rfl, rfl, rfl, Or.inr ⟨hmode, rfl⟩⟩

/-- C18 on the constructor's effect with one fresh segment, running, audio not
acquired, at `Date.now() = 0`. -/
theorem animate_position_witness :
    ({ (AvatarBorderEffect.new : AvatarBorderEffect ℝ) with
        waveSegments := [createSegment (⟨Real.sin, Real.cos, Real.pi⟩ : JsMath ℝ) AvatarBorderEffect.new 0]
        isRunning := true } : AvatarBorderEffect ℝ).isRunning = true ∧
    ({ (AvatarBorderEffect.new : AvatarBorderEffect ℝ) with
        waveSegments := [createSegment (⟨Real.sin, Real.cos, Real.pi⟩ : JsMath ℝ) AvatarBorderEffect.new 0]
        isRunning := true } : AvatarBorderEffect ℝ).waveSegments.get? 0
      = some (createSegment (⟨Real.sin, Real.cos, Real.pi⟩ : JsMath ℝ) AvatarBorderEffect.new 0) ∧
    ∃ s seg', animate (⟨Real.sin, Real.cos, Real.pi⟩ : JsMath ℝ)
        { (AvatarBorderEffect.new : AvatarBorderEffect ℝ) with
        waveSegments := [createSegment (⟨Real.sin, Real.cos, Real.pi⟩ : JsMath ℝ) AvatarBorderEffect.new 0]
        isRunning := true } 0 [] 1 = .ok s ∧
      s.waveSegments.get? 0 = some seg' ∧
      seg'.element.style.left
        = Real.cos ((createSegment (⟨Real.sin, Real.cos, Real.pi⟩ : JsMath ℝ) AvatarBorderEffect.new 0).angle
            + 0 * 0.001 * (AvatarBorderEffect.new : AvatarBorderEffect ℝ).rotationSpeed) * seg'.currentRadius ∧
      seg'.element.style.top
        = Real.sin ((createSegment (⟨Real.sin, Real.cos, Real.pi⟩ : JsMath ℝ) AvatarBorderEffect.new 0).angle
            + 0 * 0.001 * (AvatarBorderEffect.new : AvatarBorderEffect ℝ).rotationSpeed) * seg'.currentRadius := by
  obtain ⟨s, seg', h1, h2, -, h4, h5, -⟩ :=
    animate_position (⟨Real.sin, Real.cos, Real.pi⟩ : JsMath ℝ)
      { (AvatarBorderEffect.new : AvatarBorderEffect ℝ) with
        waveSegments := [createSegment (⟨Real.sin, Real.cos, Real.pi⟩ : JsMath ℝ) AvatarBorderEffect.new 0]
        isRunning := true } 0 [] 1 0
      (createSegment (⟨Real.sin, Real.cos, Real.pi⟩ : JsMath ℝ) AvatarBorderEffect.new 0) rfl rfl
  exact ⟨rfl, rfl, s, seg', h1, h2, h4, h5⟩

/-! ## Inputs of the per-segment update (C19, C20) -/

/-- C19: two segment records that agree on angle, base radius, base colour,
current radius and velocity (their stored `targetRadius`, `x`, `y` may differ)
get, from one tick at the same index with the same time, energy array and
rotation speed, the same `currentRadius`, `velocity`, `targetRadius`, position
and colour; this holds for the driven and for the idle tick. -/
theorem update_no_hidden_state [FloorRing α] (M : JsMath α) (this : AvatarBorderEffect α)
    (e : List (Fin 256)) (s1 s2 : Segment α) (i : Nat) (t : α)
    (hangle : s1.angle = s2.angle) (hbase : s1.baseRadius = s2.baseRadius)
    (hhue : s1.hue = s2.hue) (hsat : s1.saturation = s2.saturation)
    (hlig : s1.lightness = s2.lightness) (hc : s1.currentRadius = s2.currentRadius)
    (hv : s1.velocity = s2.velocity) :
    (∃ a b, segmentTick M this i s1 (.driven t e) = .ok a ∧
      segmentTick M this i s2 (.driven t e) = .ok b ∧
      a.currentRadius = b.currentRadius ∧ a.velocity = b.velocity ∧
      a.targetRadius = b.targetRadius ∧
      a.element.style.left = b.element.style.left ∧
      a.element.style.top = b.element.style.top ∧
      a.element.style.backgroundColor = b.element.style.backgroundColor ∧
      a.element.style.boxShadow = b.element.style.boxShadow) ∧
    (∃ a b, segmentTick M this i s1 (.idle t) = .ok a ∧
      segmentTick M this i s2 (.idle t) = .ok b ∧
      a.currentRadius = b.currentRadius ∧ a.velocity = b.velocity ∧
      a.targetRadius = b.targetRadius ∧
      a.element.style.left = b.element.style.left ∧
      a.element.style.top = b.element.style.top ∧
      a.element.style.backgroundColor = b.element.style.backgroundColor ∧
      a.element.style.boxShadow = b.element.style.boxShadow) := by
  constructor
  · refine ⟨_, _, rfl, rfl, ?_, ?_, ?_, ?_, ?_, ?_, ?_⟩ <;>
      simp only [hangle, hbase, hhue, hsat, hlig, hc, hv]
  · refine ⟨_, _, rfl, rfl, ?_, ?_, ?_, ?_, ?_, ?_, ?_⟩ <;>
      simp only [updateSegmentDefault, hangle, hbase, hhue, hsat, hlig, hc, hv]

/-- C19 for a fresh segment 0 and a copy of it with other stored `targetRadius`,
`x` and `y`. -/
theorem update_no_hidden_state_witness :
    (createSegment (⟨Real.sin, Real.cos, Real.pi⟩ : JsMath ℝ) AvatarBorderEffect.new 0).angle
      = ({ (createSegment (⟨Real.sin, Real.cos, Real.pi⟩ : JsMath ℝ) AvatarBorderEffect.new 0) with
            targetRadius := 0, x := 1, y := 2 } : Segment ℝ).angle ∧
    ∃ a b, segmentTick (⟨Real.sin, Real.cos, Real.pi⟩ : JsMath ℝ) AvatarBorderEffect.new 0
        (createSegment (⟨Real.sin, Real.cos, Real.pi⟩ : JsMath ℝ) AvatarBorderEffect.new 0) (.driven 0 []) = .ok a ∧
      segmentTick (⟨Real.sin, Real.cos, Real.pi⟩ : JsMath ℝ) AvatarBorderEffect.new 0
        { (createSegment (⟨Real.sin, Real.cos, Real.pi⟩ : JsMath ℝ) AvatarBorderEffect.new 0) with
          targetRadius := 0, x := 1, y := 2 } (.driven 0 []) = .ok b ∧
      a.currentRadius = b.currentRadius ∧ a.velocity = b.velocity ∧
      a.targetRadius = b.targetRadius :=
  ⟨rfl, by
    obtain ⟨a, b, h1, h2, h3, h4, h5, -⟩ :=
      (update_no_hidden_state (⟨Real.sin, Real.cos, Real.pi⟩ : JsMath ℝ) AvatarBorderEffect.new [] (createSegment (⟨Real.sin, Real.cos, Real.pi⟩ : JsMath ℝ) AvatarBorderEffect.new 0)
        { (createSegment (⟨Real.sin, Real.cos, Real.pi⟩ : JsMath ℝ) AvatarBorderEffect.new 0) with
          targetRadius := 0, x := 1, y := 2 } 0 0 rfl rfl rfl rfl rfl rfl rfl).1
    exact ⟨a, b, h1, h2, h3, h4, h5⟩⟩

/-- C20: the driven update succeeds for every energy array; the energy term of the
target is `0` when the array has no entry at the segment's bucket `i·L/N`, and
with the empty array `targetRadius` is `baseRadius` plus the three harmonic
terms only. -/
theorem driven_missing_bucket [FloorRing α] (M : JsMath α) (this : AvatarBorderEffect α)
    (e : List (Fin 256)) (seg : Segment α) (i : Nat) (t r : α) :
    (∃ s, updateSegmentWithAudio M { this with dataArray := some e } seg i t r = .ok s ∧
      s.targetRadius
        = seg.baseRadius
          + (match e.get? (i * e.length / this.segmentCount) with
              | none => 0
              | some _ =>
                ((audioValue α this.segmentCount i e : α) / 255) * this.audioWaveAmplitude)
          + 8 * M.sin (2.2 * t + 0.15 * (i : α)) + 6 * M.cos (1.6 * t + 0.12 * (i : α))
          + 4 * M.sin (3.0 * t + 0.08 * (i : α))) ∧
    (∃ s, updateSegmentWithAudio M { this with dataArray := some [] } seg i t r = .ok s ∧
      s.targetRadius
        = seg.baseRadius + 8 * M.sin (2.2 * t + 0.15 * (i : α))
          + 6 * M.cos (1.6 * t + 0.12 * (i : α)) + 4 * M.sin (3.0 * t + 0.08 * (i : α))) := by
  constructor
  · obtain ⟨s, hs, -, hT, -, -⟩ := driven_ok M this e seg i t r
    refine ⟨s, hs, ?_⟩
    rw [hT, mul_comm t 2.2, mul_comm t 1.6, mul_comm t 3.0, mul_comm (i : α) 0.15,
      mul_comm (i : α) 0.12, mul_comm (i : α) 0.08]
    cases h : e.get? (i * e.length / this.segmentCount) with
    | none =>
      rw [audioValue_missing this.segmentCount i e h]
      simp only [Nat.cast_zero, zero_div, zero_mul]
      ring
    | some b =>
      simp only
      ring
  · obtain ⟨s, hs, -, hT, -, -⟩ := driven_ok M this [] seg i t r
    refine ⟨s, hs, ?_⟩
    rw [hT, audioValue_missing this.segmentCount i [] rfl, mul_comm t 2.2, mul_comm t 1.6,
      mul_comm t 3.0, mul_comm (i : α) 0.15, mul_comm (i : α) 0.12, mul_comm (i : α) 0.08]
    simp only [Nat.cast_zero, zero_div, zero_mul]
    ring

/-! ## Frame of a tick (C21) -/

/-- C21: a frame, in either mode (or on a stopped effect), keeps the number of
segments, and the segment at position `i` keeps its `angle`, `baseRadius`, `hue`,
`saturation`, `lightness`, `originalIndex`, stored `x` and `y`, class name and
`transform`; what can change is `targetRadius`, `velocity`, `currentRadius` and
the written style (`left`, `top`, colour, shadow). -/
theorem animate_frame [FloorRing α] (M : JsMath α) (this : AvatarBorderEffect α) (now : α)
    (freq : List (Fin 256)) (id i : Nat) (seg : Segment α)
    (hseg : this.waveSegments.get? i = some seg) :
    ∃ s seg', animate M this now freq id = .ok s ∧
      s.waveSegments.length = this.waveSegments.length ∧
      s.waveSegments.get? i = some seg' ∧
      seg'.angle = seg.angle ∧ seg'.baseRadius = seg.baseRadius ∧ seg'.hue = seg.hue ∧
      seg'.saturation = seg.saturation ∧ seg'.lightness = seg.lightness ∧
      seg'.originalIndex = seg.originalIndex ∧ seg'.x = seg.x ∧ seg'.y = seg.y ∧
      seg'.element.className = seg.element.className ∧
      seg'.element.style.transform = seg.element.style.transform := by
  cases hrun : this.isRunning with
  | false =>
    exact ⟨this, seg, animate_stopped M this now freq id hrun, rfl, hseg,
      rfl, rfl, rfl, rfl, rfl, rfl, rfl, rfl, rfl, rfl⟩
  | true =>
    rcases animate_cases M this now freq id hrun with ⟨d, segs', hd, hb, hsegs, h⟩ | ⟨hmode, h⟩
    · obtain ⟨segs'', hsegs', hlen, hget⟩ :=
        forEachWithAudio_ok M { this with dataArray := some (getByteFrequencyData d freq) }
          (getByteFrequencyData d freq) rfl (now * 0.001) (now * 0.001 * this.rotationSpeed)
          this.waveSegments 0
      have heq : segs'' = segs' := by
        rw [hsegs] at hsegs'
        exact (Except.ok.inj hsegs').symm
      subst heq
      obtain ⟨seg', g1, g2⟩ := hget i seg hseg
      rw [Nat.zero_add] at g2
      obtain ⟨s', hs', a⟩ :=
        driven_unchanged M this (getByteFrequencyData d freq) seg i (now * 0.001)
          (now * 0.001 * this.rotationSpeed)
      have hss : s' = seg' := by
        have : (Except.ok s' : Except String (Segment α)) = .ok seg' := hs'.symm.trans g2
        exact Except.ok.inj this
      subst hss
      exact ⟨_, s', h, hlen, g1, a⟩
    · have g := forEachDefault_get? M (now * 0.001) (now * 0.001 * this.rotationSpeed)
        this.waveSegments 0 i seg hseg
      exact ⟨_, _, h, forEachDefault_length _ _ _ _ _, g,
        rfl, rfl, rfl, rfl, rfl, rfl, rfl, rfl, rfl, rfl⟩

/-- C21 on the constructor's effect with one fresh segment, running, audio not
acquired, at `Date.now() = 0`. -/
theorem animate_frame_witness :
    ({ (AvatarBorderEffect.new : AvatarBorderEffect ℝ) with
        waveSegments := [createSegment (⟨Real.sin, Real.cos, Real.pi⟩ : JsMath ℝ) AvatarBorderEffect.new 0]
        isRunning := true } : AvatarBorderEffect ℝ).waveSegments.get? 0
      = some (createSegment (⟨Real.sin, Real.cos, Real.pi⟩ : JsMath ℝ) AvatarBorderEffect.new 0) ∧
    ∃ s seg', animate (⟨Real.sin, Real.cos, Real.pi⟩ : JsMath ℝ)
        { (AvatarBorderEffect.new : AvatarBorderEffect ℝ) with
        waveSegments := [createSegment (⟨Real.sin, Real.cos, Real.pi⟩ : JsMath ℝ) AvatarBorderEffect.new 0]
        isRunning := true } 0 [] 1 = .ok s ∧
      s.waveSegments.length = 1 ∧ s.waveSegments.get? 0 = some seg' ∧
      seg'.angle = (createSegment (⟨Real.sin, Real.cos, Real.pi⟩ : JsMath ℝ) AvatarBorderEffect.new 0).angle ∧
      seg'.baseRadius = 90 := by
  obtain ⟨s, seg', h1, h2, h3, h4, h5, -⟩ :=
    animate_frame (⟨Real.sin, Real.cos, Real.pi⟩ : JsMath ℝ)
      { (AvatarBorderEffect.new : AvatarBorderEffect ℝ) with
        waveSegments := [createSegment (⟨Real.sin, Real.cos, Real.pi⟩ : JsMath ℝ) AvatarBorderEffect.new 0]
        isRunning := true } 0 [] 1 0
      (createSegment (⟨Real.sin, Real.cos, Real.pi⟩ : JsMath ℝ) AvatarBorderEffect.new 0) rfl
  exact ⟨rfl, s, seg', h1, h2, h3, h4, h5⟩

/-! ## The spec's concrete scenario (C24) -/

/-- C24 fails as stated: in the scenario `N = 4`, `baseRadius = 90`, `t = 0`, idle
mode, `rotationSpeed = 0`, the target radius of segment 0 after the frame is not
119. -/
theorem scenario_target_counterexample :
    ∃ s seg', animate (⟨Real.sin, Real.cos, Real.pi⟩ : JsMath ℝ)
        { (createWaveSegments (⟨Real.sin, Real.cos, Real.pi⟩ : JsMath ℝ)
          { (AvatarBorderEffect.new : AvatarBorderEffect ℝ) with segmentCount := 4, rotationSpeed := 0 }) with
        isRunning := true } 0 [] 1 = .ok s ∧
      s.waveSegments.get? 0 = some seg' ∧ seg'.targetRadius ≠ 90 + (11 + 8 + 6 + 4) := by
  obtain ⟨s, seg', h1, -, h3, -, h5⟩ := scenario_tick
  refine ⟨s, seg', h1, h3, ?_⟩
  rw [h5]
  norm_num

/-- C24, amended: in the scenario `N = 4`, `baseRadius = 90`, `t = 0`, idle mode,
`rotationSpeed = 0`, the target radius of segment 0 after the frame is
`90 + (8 + 4) = 102`: the two sine terms vanish at 0. -/
theorem scenario_target :
    ∃ s seg', animate (⟨Real.sin, Real.cos, Real.pi⟩ : JsMath ℝ)
        { (createWaveSegments (⟨Real.sin, Real.cos, Real.pi⟩ : JsMath ℝ)
          { (AvatarBorderEffect.new : AvatarBorderEffect ℝ) with segmentCount := 4, rotationSpeed := 0 }) with
        isRunning := true } 0 [] 1 = .ok s ∧
      s.waveSegments.length = 4 ∧ s.waveSegments.get? 0 = some seg' ∧
      seg'.baseRadius = 90 ∧ seg'.targetRadius = 90 + (8 + 4) ∧ seg'.targetRadius = 102 := by
  obtain ⟨s, seg', h1, h2, h3, h4, h5⟩ := scenario_tick
  refine ⟨s, seg', h1, h2, h3, h4, ?_, h5⟩
  rw [h5]
  norm_num

/-! ## Range of the bucket index and of the driven colour (C27, C28) -/

/-- C27: for `i < N` and a non-empty energy array of length `L`, the bucket index
`floor((i/N)·L)` satisfies `0 ≤ bucket < L`, it is non-decreasing in the segment
index, and the driven update reads an actual byte of the array: the default of
`|| 0` for a missing entry is not used. -/
theorem bucket_in_range [FloorRing α] (N i j : Nat) (e : List (Fin 256))
    (hi : i < N) (hij : i ≤ j) (he : e ≠ []) :
    0 ≤ dataIndex α N i e.length ∧ dataIndex α N i e.length < (e.length : ℤ) ∧
    dataIndex α N i e.length ≤ dataIndex α N j e.length ∧
    ∃ b, e.get? (dataIndex α N i e.length).toNat = some b ∧ audioValue α N i e = b.val := by
  have hL : 0 < e.length := List.length_pos.2 he
  have hlt : i * e.length / N < e.length := by
    apply Nat.div_lt_of_lt_mul
    exact Nat.mul_lt_mul_of_pos_right hi hL
  have hmono : i * e.length / N ≤ j * e.length / N :=
    Nat.div_le_div_right (Nat.mul_le_mul_right _ hij)
  rw [dataIndex_eq_div, dataIndex_eq_div]
  refine ⟨Int.natCast_nonneg _, by exact_mod_cast hlt, by exact_mod_cast hmono, ?_⟩
  rw [Int.toNat_ofNat]
  obtain ⟨b, hb⟩ : ∃ b, e.get? (i * e.length / N) = some b :=
    ⟨e.get ⟨_, hlt⟩, List.get?_eq_get hlt⟩
  refine ⟨b, hb, ?_⟩
  rw [audioValue_eq_getD N i e (by omega), List.getD_eq_getElem?_getD, List.getElem?_map,
    ← List.get?_eq_getElem?, hb]
  rfl

/-- C27 for 80 segments, segment 40 and a 64-byte array of sevens. -/
theorem bucket_in_range_witness :
    40 < 80 ∧ 40 ≤ 79 ∧ List.replicate 64 (7 : Fin 256) ≠ [] ∧
    dataIndex ℚ 80 40 (List.replicate 64 (7 : Fin 256)).length
      < ((List.replicate 64 (7 : Fin 256)).length : ℤ) ∧
    ∃ b, (List.replicate 64 (7 : Fin 256)).get?
          (dataIndex ℚ 80 40 (List.replicate 64 (7 : Fin 256)).length).toNat = some b ∧
      audioValue ℚ 80 40 (List.replicate 64 (7 : Fin 256)) = b.val :=
  ⟨by decide, by decide, by decide,
    (bucket_in_range (α := ℚ) 80 40 79 (List.replicate 64 7) (by decide) (by decide)
      (by decide)).2.1,
    (bucket_in_range (α := ℚ) 80 40 79 (List.replicate 64 7) (by decide) (by decide)
      (by decide)).2.2.2⟩

/-- C28: after any history of frames on a segment built by `createSegment`, a
driven tick whose bucket byte is `v` emits lightness exactly `60 + 30·v/255`,
which lies in `[60, 90]`, and saturation exactly `75 + 20·v/255`, which lies in
`[75, 95]`; the caps 95 and 100 are not reached. -/
theorem driven_color_caps [FloorRing α] (M : JsMath α) (this : AvatarBorderEffect α) (i : Nat)
    (history : List (Tick α)) (e : List (Fin 256)) (t r : α) :
    ∃ s0 s, segmentTicks M this i (createSegment M this i) history = .ok s0 ∧
      updateSegmentWithAudio M { this with dataArray := some e } s0 i t r = .ok s ∧
      s.element.style.backgroundColor.lightness
        = 60 + 30 * (audioValue α this.segmentCount i e : α) / 255 ∧
      60 ≤ s.element.style.backgroundColor.lightness ∧
      s.element.style.backgroundColor.lightness ≤ 90 ∧
      60 + ((audioValue α this.segmentCount i e : α) / 255) * 30 < 95 ∧
      s.element.style.backgroundColor.saturation
        = 75 + 20 * (audioValue α this.segmentCount i e : α) / 255 ∧
      75 ≤ s.element.style.backgroundColor.saturation ∧
      s.element.style.backgroundColor.saturation ≤ 95 ∧
      75 + ((audioValue α this.segmentCount i e : α) / 255) * 20 < 100 := by
  obtain ⟨s0, hs0, -, -, -, h4, h5, -⟩ :=
    segmentTicks_frame M this i history (createSegment M this i)
  obtain ⟨s, hs, -, -, -, -, -, -, -, -, hcol, -⟩ := driven_frame M this e s0 i t r
  have hsat : s0.saturation = 75 := h4
  have hlig : s0.lightness = 60 := h5
  have hv0 : (0 : α) ≤ (audioValue α this.segmentCount i e : α) := Nat.cast_nonneg _
  have hv1 : (audioValue α this.segmentCount i e : α) ≤ 255 := by
    exact_mod_cast audioValue_le (α := α) this.segmentCount i e
  have hL : 60 + ((audioValue α this.segmentCount i e : α) / 255) * 30 ≤ 90 := by
    rw [div_mul_eq_mul_div, ← le_sub_iff_add_le', div_le_iff₀ (by norm_num)]
    linarith
  have hS : 75 + ((audioValue α this.segmentCount i e : α) / 255) * 20 ≤ 95 := by
    rw [div_mul_eq_mul_div, ← le_sub_iff_add_le', div_le_iff₀ (by norm_num)]
    linarith
  have hq : (0 : α) ≤ (audioValue α this.segmentCount i e : α) / 255 :=
    div_nonneg hv0 (by norm_num)
  have e1 : s.element.style.backgroundColor.lightness
      = 60 + 30 * (audioValue α this.segmentCount i e : α) / 255 := by
    rw [hcol, hlig]
    show min 95 (60 + (audioValue α this.segmentCount i e : α) / 255 * 30) = _
    rw [min_eq_right (by linarith)]
    ring
  have e2 : s.element.style.backgroundColor.saturation
      = 75 + 20 * (audioValue α this.segmentCount i e : α) / 255 := by
    rw [hcol, hsat]
    show min 100 (75 + (audioValue α this.segmentCount i e : α) / 255 * 20) = _
    rw [min_eq_right (by linarith)]
    ring
  have e3 : 30 * (audioValue α this.segmentCount i e : α) / 255
      = (audioValue α this.segmentCount i e : α) / 255 * 30 := by ring
  have e4 : 20 * (audioValue α this.segmentCount i e : α) / 255
      = (audioValue α this.segmentCount i e : α) / 255 * 20 := by ring
  refine ⟨s0, s, hs0, hs, e1, ?_, ?_, by linarith, e2, ?_, ?_, by linarith⟩
  · rw [e1, e3]
    nlinarith
  · rw [e1, e3]
    exact hL
  · rw [e2, e4]
    nlinarith
  · rw [e2, e4]
    exact hS

/-! ## Teardown while audio acquisition is pending (C30) -/

/-- C30, evaluated on the code: `destroy()` leaves `isRunning = false`, and a frame
callback arriving afterwards does nothing; but when `destroy()` is called while
`init` is still suspended in `await this.initAudio()`, the continuation of `init`
calls `start()`: the effect is running again and a new animation frame is
requested, whatever the outcome of the acquisition. -/
theorem destroy_then_resume [FloorRing α] (M : JsMath α) (this : AvatarBorderEffect α)
    (env : AudioEnv) (now : α) (freq : List (Fin 256)) (id : Nat) :
    (destroy this).isRunning = false ∧
    animate M (destroy this) now freq id = .ok (destroy this) ∧
    ∃ s, initResume M (destroy (initSync M this)) env now freq id = .ok s ∧
      s.isRunning = true ∧ s.animationId = some id := by
  have hd : ∀ t : AvatarBorderEffect α, (destroy t).isRunning = false := by
    intro t
    unfold destroy stop
    cases t.animationId <;> cases t.audioContext <;> simp <;> split_ifs <;> rfl
  refine ⟨hd this, animate_stopped M _ now freq id (hd this), ?_⟩
  obtain ⟨f1, -⟩ := initAudio_frame (destroy (initSync M this)) env
  obtain ⟨s, hs, h1, h2, -⟩ :=
    start_running M (initAudio (destroy (initSync M this)) env) now freq id
      (f1.trans (hd _))
  exact ⟨s, hs, h1, h2⟩

end AvatarEffects

/-! # Particle system: the count bound (C22) -/

namespace Particles

theorem timeoutFires_running (this : ParticleSystem) (hrun : this.isRunning = true)
    (hp : 0 < this.pendingTimeouts) :
    (timeoutFires this).isRunning = true ∧
    (timeoutFires this).pendingTimeouts = this.pendingTimeouts - 1 ∧
    (timeoutFires this).count = this.count ∧
    (timeoutFires this).particles.length = this.particles.length + 1 := by
  unfold timeoutFires
  have h0 : this.pendingTimeouts ≠ 0 := by omega
  simp [h0, hrun]

theorem run_timeouts (n : Nat) (this : ParticleSystem) (hrun : this.isRunning = true)
    (hp : n ≤ this.pendingTimeouts) :
    (run this (List.replicate n Event.timeout)).particles.length = this.particles.length + n ∧
    (run this (List.replicate n Event.timeout)).count = this.count := by
  induction n generalizing this with
  | zero => exact ⟨rfl, rfl⟩
  | succ n ih =>
    obtain ⟨h1, h2, h3, h4⟩ := timeoutFires_running this hrun (by omega)
    obtain ⟨i1, i2⟩ := ih (timeoutFires this) h1 (by omega)
    have hr : run this (List.replicate (n + 1) Event.timeout)
        = run (timeoutFires this) (List.replicate n Event.timeout) := rfl
    rw [hr, i1, i2, h3, h4]
    exact ⟨by omega, rfl⟩

theorem new_first_frame (count frameId : Nat) (random : ℚ) (hc : 0 < count)
    (hr : random < 0.3) :
    (ParticleSystem.new count random frameId).isRunning = true ∧
    (ParticleSystem.new count random frameId).pendingTimeouts = count ∧
    (ParticleSystem.new count random frameId).count = count ∧
    (ParticleSystem.new count random frameId).particles.length = 1 := by
  simp [ParticleSystem.new, init, start, animate, hc, hr]

/-- C22, evaluated on the code: `new ParticleSystem(container)` with the default
`count = 15` whose first `Math.random()` is `0.1` holds one particle when the
constructor returns; the 15 timers of `init()` then push a particle each without
looking at `particles.length`, so the system holds 16 particles, more than
`count`. -/
theorem particle_count_exceeded :
    (ParticleSystem.new 15 0.1 1).count = 15 ∧
    (ParticleSystem.new 15 0.1 1).particles.length = 1 ∧
    (run (ParticleSystem.new 15 0.1 1) (List.replicate 15 Event.timeout)).count = 15 ∧
    (run (ParticleSystem.new 15 0.1 1) (List.replicate 15 Event.timeout)).particles.length
      = 16 ∧
    ¬ (run (ParticleSystem.new 15 0.1 1) (List.replicate 15 Event.timeout)).particles.length
      ≤ (run (ParticleSystem.new 15 0.1 1) (List.replicate 15 Event.timeout)).count := by
  obtain ⟨h1, h2, h3, h4⟩ := new_first_frame 15 1 0.1 (by norm_num) (by norm_num)
  obtain ⟨r1, r2⟩ := run_timeouts 15 (ParticleSystem.new 15 0.1 1) h1 (by omega)
  rw [r1, r2, h3, h4]
  exact ⟨rfl, rfl, rfl, rfl, by omega⟩

end Particles

/-! # Background animation systems: the count bound (C23) -/

namespace Background

theorem createElement_inv (this : AnimationSystem)
    (h : this.elements.length ≤ this.maxElements) :
    (createElement this).elements.length ≤ (createElement this).maxElements ∧
    (createElement this).maxElements = this.maxElements ∧
    (createElement this).kind = this.kind := by
  unfold createElement
  split_ifs with hc
  · exact ⟨h, rfl, rfl⟩
  · refine ⟨?_, rfl, rfl⟩
    have hlt : this.elements.length < this.maxElements := by
      by_contra hn
      exact hc (Or.inl (Nat.le_of_not_lt hn))
    simp only [List.length_append, List.length_singleton]
    omega

theorem animate_inv (this : AnimationSystem) (random : ℚ) (timerId : Nat)
    (h : this.elements.length ≤ this.maxElements) :
    (animate this random timerId).elements.length ≤ (animate this random timerId).maxElements ∧
    (animate this random timerId).maxElements = this.maxElements ∧
    (animate this random timerId).kind = this.kind := by
  have hf : (this.elements.filter (fun e => e.attached)).length ≤ this.maxElements :=
    (List.length_filter_le _ _).trans h
  unfold animate
  dsimp only
  split_ifs
  · exact ⟨h, rfl, rfl⟩
  · exact createElement_inv
      { this with elements := this.elements.filter (fun e => e.attached) } hf
  · exact ⟨hf, rfl, rfl⟩

theorem start_inv (this : AnimationSystem) (random : ℚ) (timerId : Nat)
    (h : this.elements.length ≤ this.maxElements) :
    (start this random timerId).elements.length ≤ (start this random timerId).maxElements ∧
    (start this random timerId).maxElements = this.maxElements ∧
    (start this random timerId).kind = this.kind := by
  by_cases hrun : this.isRunning = true
  · have e : start this random timerId = this := by
      unfold start
      simp only [hrun, if_true]
    rw [e]
    exact ⟨h, rfl, rfl⟩
  · have e : start this random timerId
        = animate
            (init
              { this with
                isRunning := true
                containerShow :=
                  if this.kind = SystemKind.aboutCircle then true else this.containerShow })
            random timerId := by
      unfold start
      simp only [hrun, Bool.false_eq_true, if_false]
    rw [e]
    exact animate_inv _ random timerId h

theorem stop_spec (this : AnimationSystem) :
    (stop this).elements = [] ∧ (stop this).isRunning = false ∧
    (stop this).maxElements = this.maxElements ∧ (stop this).kind = this.kind := by
  unfold stop cleanup
  cases this.animationId with
  | none => exact ⟨rfl, rfl, rfl, rfl⟩
  | some id =>
    by_cases hid : id = 0
    · simp [hid]
    · simp [hid]

theorem initTimeoutFires_inv (this : AnimationSystem)
    (h : this.elements.length ≤ this.maxElements) :
    (initTimeoutFires this).elements.length ≤ (initTimeoutFires this).maxElements ∧
    (initTimeoutFires this).maxElements = this.maxElements ∧
    (initTimeoutFires this).kind = this.kind := by
  unfold initTimeoutFires
  dsimp only
  split_ifs
  · exact ⟨h, rfl, rfl⟩
  · exact createElement_inv { this with pendingInit := this.pendingInit - 1 } h
  · exact ⟨h, rfl, rfl⟩

theorem expire_inv (this : AnimationSystem) (i : Nat)
    (h : this.elements.length ≤ this.maxElements) :
    (expire this i).elements.length ≤ (expire this i).maxElements ∧
    (expire this i).maxElements = this.maxElements ∧
    (expire this i).kind = this.kind := by
  unfold expire
  cases this.elements.get? i with
  | none => exact ⟨h, rfl, rfl⟩
  | some e =>
    refine ⟨?_, rfl, rfl⟩
    simp only [List.length_set]
    exact h

theorem step_inv (this : AnimationSystem) (event : Event)
    (h : this.elements.length ≤ this.maxElements) :
    (step this event).elements.length ≤ (step this event).maxElements ∧
    (step this event).maxElements = this.maxElements ∧
    (step this event).kind = this.kind := by
  cases event with
  | start random timerId => exact start_inv this random timerId h
  | stop =>
    obtain ⟨h1, -, h3, h4⟩ := stop_spec this
    refine ⟨?_, h3, h4⟩
    show (stop this).elements.length ≤ _
    rw [h1]
    exact Nat.zero_le _
  | initTimeout => exact initTimeoutFires_inv this h
  | animate random timerId => exact animate_inv this random timerId h
  | expire i => exact expire_inv this i h

theorem run_inv (events : List Event) (this : AnimationSystem)
    (h : this.elements.length ≤ this.maxElements) :
    (run this events).elements.length ≤ (run this events).maxElements ∧
    (run this events).maxElements = this.maxElements ∧
    (run this events).kind = this.kind := by
  induction events generalizing this with
  | nil => exact ⟨h, rfl, rfl⟩
  | cons event rest ih =>
    obtain ⟨s1, s2, s3⟩ := step_inv this event h
    obtain ⟨r1, r2, r3⟩ := ih (step this event) s1
    have hr : run this (event :: rest) = run (step this event) rest := rfl
    rw [hr]
    exact ⟨r1, r2.trans s2, r3.trans s3⟩

/-- C23: for each of `CircleSystem`, `SymbolSystem` and `AboutCircleSystem` and every
`maxElements`, after any sequence of `start`, `stop`, `init` timers, `animate`
calls (whatever the random draws) and element expiries, the system still has its
`maxElements`, `elements.length ≤ maxElements`, and `stop()` leaves `elements`
empty and the system not running. -/
theorem element_count_bounded (kind : SystemKind) (maxElements : Nat) (events : List Event) :
    (run (AnimationSystem.new kind maxElements) events).maxElements = maxElements ∧
    (run (AnimationSystem.new kind maxElements) events).elements.length ≤ maxElements ∧
    (stop (run (AnimationSystem.new kind maxElements) events)).elements = [] ∧
    (stop (run (AnimationSystem.new kind maxElements) events)).isRunning = false := by
  obtain ⟨r1, r2, -⟩ :=
    run_inv events (AnimationSystem.new kind maxElements) (Nat.zero_le _)
  have hm : (AnimationSystem.new kind maxElements).maxElements = maxElements := rfl
  obtain ⟨s1, s2, -⟩ := stop_spec (run (AnimationSystem.new kind maxElements) events)
  refine ⟨r2.trans hm, ?_, s1, s2⟩
  rw [r2, hm] at r1
  exact r1

end Background

/-! # Article loader: unknown ids (C25) -/

namespace ArticleLoader

open Utils

/-- C25, evaluated on the code: an absent id, the empty id and an id that is no
property of `articles` render the 'Article Not Found' block and leave the title
alone, and the id of the stored article renders that article in the stored
language; but for the ids `toString` and `constructor` the test
`!articles[articleId]` finds the member inherited from `Object.prototype`, and
`loadArticle` throws a `TypeError` instead of rendering 'Article Not Found'. -/
theorem loadArticle_inherited_key (ls : LocalStorage) (doc : Document) :
    loadArticle none ls doc = .ok { doc with articleContent := some .notFound } ∧
    loadArticle (some "") ls doc = .ok { doc with articleContent := some .notFound } ∧
    loadArticle (some "no-such-article") ls doc
      = .ok { doc with articleContent := some .notFound } ∧
    (∃ a, articles.lookup "empowering-innovation" = some a ∧
      loadArticle (some "empowering-innovation") ls doc
        = .ok
            { articleContent :=
                some
                  (.article (if isEnglish ls then a.title.en else a.title.zh) a.date
                    (if isEnglish ls then a.category.en else a.category.zh)
                    (some (isEnglish ls))
                    (if isEnglish ls then a.content.en else a.content.zh))
              title := (if isEnglish ls then a.title.en else a.title.zh) ++ " - Aionium Blog" }) ∧
    articlesGet "toString" = .inherited "toString" ∧
    (∃ msg, loadArticle (some "toString") ls doc = .error msg) ∧
    (∃ msg, loadArticle (some "constructor") ls doc = .error msg) := by
  refine ⟨rfl, rfl, ?_, ?_, rfl, ?_, ?_⟩
  · have hg : articlesGet "no-such-article" = .undefined := rfl
    have hne : ¬ ("no-such-article" = "") := by decide
    simp only [loadArticle, hne, if_false, hg]
  · obtain ⟨a, ha, hg, hs⟩ : ∃ a, articles.lookup "empowering-innovation" = some a ∧
        articlesGet "empowering-innovation" = .article a ∧ a.status = "wip" :=
      ⟨_, rfl, rfl, rfl⟩
    refine ⟨a, ha, ?_⟩
    have hne : ¬ ("empowering-innovation" = "") := by decide
    simp only [loadArticle, hne, if_false, hg, hs, if_true]
  · have hg : articlesGet "toString" = .inherited "toString" := rfl
    have hne : ¬ ("toString" = "") := by decide
    simp only [loadArticle, hne, if_false, hg]
    split_ifs
    · exact ⟨_, rfl⟩
    · exact ⟨_, rfl⟩
  · have hg : articlesGet "constructor" = .inherited "constructor" := rfl
    have hne : ¬ ("constructor" = "") := by decide
    simp only [loadArticle, hne, if_false, hg]
    split_ifs
    · exact ⟨_, rfl⟩
    · exact ⟨_, rfl⟩

end ArticleLoader

/-! # Page transition: link validation (C26) -/

namespace PageTransitions

/-- C26: `isValidLink(href)` is true exactly when `href` is a string that is not
empty, not `#`, does not start with `http` and differs from the last piece of the
pathname split at `/`; `handleNavClick` calls `preventDefault` in every case and
starts a transition, to `href`, exactly when `isValidLink(href)` is true. -/
theorem isValidLink_spec (href : Option String) (pathname : String) :
    (isValidLink href pathname = true ↔
      ∃ h, href = some h ∧ h ≠ "" ∧ h ≠ "#" ∧ startsWith h "http" = false ∧
        some h ≠ (split pathname '/').getLast?) ∧
    (handleNavClick href pathname).defaultPrevented = true ∧
    (handleNavClick href pathname).transition
      = (if isValidLink href pathname then href else none) ∧
    ((∃ h, (handleNavClick href pathname).transition = some h) ↔
      isValidLink href pathname = true) := by
  have key : isValidLink href pathname = true ↔
      ∃ h, href = some h ∧ h ≠ "" ∧ h ≠ "#" ∧ startsWith h "http" = false ∧
        some h ≠ (split pathname '/').getLast? := by
    constructor
    · intro hv
      cases href with
      | none => exact absurd hv (by simp [isValidLink])
      | some h =>
        simp only [isValidLink] at hv
        split_ifs at hv with h1 h2 h3
        exact ⟨h, rfl, fun e => h1 (Or.inl e), fun e => h1 (Or.inr e),
          by simpa using h2, h3⟩
    · rintro ⟨h, rfl, a, b, c, d⟩
      simp [isValidLink, a, b, c, d]
  refine ⟨key, ?_, ?_, ?_⟩
  · unfold handleNavClick
    split_ifs <;> rfl
  · unfold handleNavClick
    cases hv : isValidLink href pathname <;> simp
  · unfold handleNavClick
    cases hv : isValidLink href pathname
    · simp
    · obtain ⟨h, hh, -⟩ := key.1 hv
      simp [hh]

end PageTransitions

/-! # Language switch and article loader (C29) -/

namespace UiControls

open Utils

theorem getItem_setItem (ls ls' : LocalStorage) (key value : String)
    (h : ls.setItem key value = .ok ls') : ls'.getItem key = some value := by
  unfold LocalStorage.setItem at h
  split_ifs at h
  cases h
  simp [LocalStorage.getItem, List.lookup]

theorem lookup_filter_ne (key : String) (items : List (String × String)) :
    List.lookup key (items.filter (fun kv => kv.1 != key)) = none := by
  induction items with
  | nil => rfl
  | cons kv rest ih =>
    obtain ⟨k, v⟩ := kv
    by_cases hk : k = key
    · rw [List.filter_cons_of_neg (by simp [hk])]
      exact ih
    · rw [List.filter_cons_of_pos (by simp [hk])]
      have hk' : (key == k) = false := by
        simp only [beq_eq_false_iff_ne, ne_eq]
        exact fun e => hk e.symm
      simp only [List.lookup, hk']
      exact ih

theorem getItem_removeItem (ls : LocalStorage) (key : String) :
    (Storage.remove ls key).getItem key = none :=
  lookup_filter_ne key ls.items

/-- C29: with a `JSON` object that writes the boolean `b` as `true`/`false` and
reads that text back, and a storage that accepts writes, after
`Storage.set('isEnglish', b)` (which is what `toggle()` does when the language
becomes `b`) the article loader selects English exactly when `b` is true, which
is also what `Storage.get('isEnglish', true)` and `LanguageManager.init()`
return; the stored article is rendered in that language. When the key is not
stored, both default to English. -/
theorem language_agreement (J : JsonApi) (ls : LocalStorage) (b : Bool)
    (doc : ArticleLoader.Document)
    (hs : J.stringify (.bool b) = if b then "true" else "false")
    (hp : J.parse (if b then "true" else "false") = .ok (.bool b))
    (hw : ls.refusesWrites = false) :
    (Storage.set J ls STORAGE_KEY (.bool b)).1 = true ∧
    LanguageManager.toggle J (.bool (!b)) ls
      = (.bool b, (Storage.set J ls STORAGE_KEY (.bool b)).2) ∧
    ArticleLoader.isEnglish (Storage.set J ls STORAGE_KEY (.bool b)).2 = b ∧
    Storage.get J (Storage.set J ls STORAGE_KEY (.bool b)).2 STORAGE_KEY (.bool true)
      = .bool b ∧
    LanguageManager.init J (Storage.set J ls STORAGE_KEY (.bool b)).2 = .bool b ∧
    (∃ body,
      ArticleLoader.loadArticle (some "empowering-innovation")
          (Storage.set J ls STORAGE_KEY (.bool b)).2 doc
        = .ok
            { articleContent :=
                some
                  (.article (if b then "Empowering Innovation" else "赋能创新") "2026-01-02"
                    (if b then "Innovation" else "创新") (some b) body)
              title :=
                (if b then "Empowering Innovation" else "赋能创新") ++ " - Aionium Blog" }) ∧
    ArticleLoader.isEnglish (Storage.remove ls STORAGE_KEY) = true ∧
    Storage.get J (Storage.remove ls STORAGE_KEY) STORAGE_KEY (.bool true) = .bool true := by
  obtain ⟨ls', hset⟩ : ∃ ls', ls.setItem STORAGE_KEY (if b then "true" else "false") = .ok ls' := by
    unfold LocalStorage.setItem
    simp only [hw, Bool.false_eq_true, if_false]
    exact ⟨_, rfl⟩
  have hS : Storage.set J ls STORAGE_KEY (.bool b) = (true, ls') := by
    unfold Storage.set
    rw [hs, hset]
  have hget : ls'.getItem "isEnglish" = some (if b then "true" else "false") :=
    getItem_setItem ls ls' STORAGE_KEY _ hset
  have hE : ArticleLoader.isEnglish ls' = b := by
    unfold ArticleLoader.isEnglish
    rw [hget]
    cases b <;> decide
  have hG : Storage.get J ls' STORAGE_KEY (.bool true) = .bool b := by
    simp only [Storage.get,
      show ls'.getItem STORAGE_KEY = some (if b then "true" else "false") from hget, hp]
  have hnone : (Storage.remove ls STORAGE_KEY).getItem "isEnglish" = none :=
    getItem_removeItem ls STORAGE_KEY
  refine ⟨?_, ?_, ?_, ?_, ?_, ?_, ?_, ?_⟩
  · rw [hS]
  · unfold LanguageManager.toggle
    simp [JsValue.truthy]
  · rw [hS]
    exact hE
  · rw [hS]
    exact hG
  · rw [hS]
    exact hG
  · rw [hS]
    obtain ⟨a, hg, h1, h2, h3, h4, h5, h6⟩ : ∃ a,
        ArticleLoader.articlesGet "empowering-innovation" = .article a ∧
        a.status = "wip" ∧ a.title.en = "Empowering Innovation" ∧ a.title.zh = "赋能创新" ∧
        a.date = "2026-01-02" ∧ a.category.en = "Innovation" ∧ a.category.zh = "创新" :=
      ⟨_, rfl, rfl, rfl, rfl, rfl, rfl, rfl⟩
    have hne : ¬ ("empowering-innovation" = "") := by decide
    refine ⟨if b then a.content.en else a.content.zh, ?_⟩
    show ArticleLoader.loadArticle (some "empowering-innovation") ls' doc = _
    simp only [ArticleLoader.loadArticle, hne, if_false, hg, h1, if_true, hE, h2, h3, h4, h5, h6]
  · unfold ArticleLoader.isEnglish
    rw [hnone]
    decide
  · simp only [Storage.get,
      show (Storage.remove ls STORAGE_KEY).getItem STORAGE_KEY = none from hnone]

/-- C29 for `b = false`, an empty storage that accepts writes, and a `JSON` object
that handles the two boolean literals. -/
theorem language_agreement_witness :
    ((⟨fun s =>
          if s = "true" then .ok (.bool true)
          else if s = "false" then .ok (.bool false)
          else .error "SyntaxError",
        fun v =>
          match v with
          | .bool true => "true"
          | .bool false => "false"
          | _ => "null"⟩ : JsonApi).stringify (.bool false)
      = if false then "true" else "false") ∧
    ((⟨fun s =>
          if s = "true" then .ok (.bool true)
          else if s = "false" then .ok (.bool false)
          else .error "SyntaxError",
        fun v =>
          match v with
          | .bool true => "true"
          | .bool false => "false"
          | _ => "null"⟩ : JsonApi).parse (if false then "true" else "false")
      = .ok (.bool false)) ∧
    ({ items := [], refusesWrites := false } : LocalStorage).refusesWrites = false ∧
    ArticleLoader.isEnglish
        (Storage.set
          ⟨fun s =>
          if s = "true" then .ok (.bool true)
          else if s = "false" then .ok (.bool false)
          else .error "SyntaxError",
        fun v =>
          match v with
          | .bool true => "true"
          | .bool false => "false"
          | _ => "null"⟩
          { items := [], refusesWrites := false } STORAGE_KEY (.bool false)).2 = false ∧
    Storage.get
        ⟨fun s =>
          if s = "true" then .ok (.bool true)
          else if s = "false" then .ok (.bool false)
          else .error "SyntaxError",
        fun v =>
          match v with
          | .bool true => "true"
          | .bool false => "false"
          | _ => "null"⟩
        (Storage.set
          ⟨fun s =>
          if s = "true" then .ok (.bool true)
          else if s = "false" then .ok (.bool false)
          else .error "SyntaxError",
        fun v =>
          match v with
          | .bool true => "true"
          | .bool false => "false"
          | _ => "null"⟩
          { items := [], refusesWrites := false } STORAGE_KEY (.bool false)).2
        STORAGE_KEY (.bool true) = .bool false :=
  ⟨rfl, rfl, rfl,
    (language_agreement
      ⟨fun s =>
          if s = "true" then .ok (.bool true)
          else if s = "false" then .ok (.bool false)
          else .error "SyntaxError",
        fun v =>
          match v with
          | .bool true => "true"
          | .bool false => "false"
          | _ => "null"⟩
      { items := [], refusesWrites := false } false ⟨none, ""⟩ rfl rfl rfl).2.2.1,
    (language_agreement
      ⟨fun s =>
          if s = "true" then .ok (.bool true)
          else if s = "false" then .ok (.bool false)
          else .error "SyntaxError",
        fun v =>
          match v with
          | .bool true => "true"
          | .bool false => "false"
          | _ => "null"⟩
      { items := [], refusesWrites := false } false ⟨none, ""⟩ rfl rfl rfl).2.2.2.1⟩

end UiControls

